import Mathlib

/-!
# libotr-ng: fragmentation, the conversation of `otrv4.c`, decoders, prekey client

A shallow embedding of `src/fragment.c`, of `src/otrv4.c` (message
builders, receiving, sending, closing), of the decoders of
`src/deserialize.c` and of the receiving side of `src/prekey_client.c`,
together with theorems about them.

Conventions of the embedding.

* A C string is the list of the characters that precede its terminating NUL.
* The platform is LP64: `size_t` is 64 bits wide, `int` and `unsigned int`
  are 32 bits wide (two's complement), a pointer occupies 8 bytes.
* An allocation succeeds exactly when the requested size does not exceed
  `PTRDIFF_MAX`; memory is otherwise unbounded. A string is an object, hence
  shorter than `PTRDIFF_MAX`: its length plus a small constant neither wraps
  nor is refused by the allocator.
* A function whose C execution has no defined behaviour on some input
  (division by zero, freeing a string literal, copying a negative number of
  bytes, signed overflow, reading through a `NULL` pointer) returns `none`
  there.
* The allocation of a structure of fixed size succeeds.
* The functions of files that are not part of the sources are the fields of
  the record `collaborators`, which the functions of `otrv4.c` take as their
  first argument `env`; those of `prekey_client.c` take the record
  `prekey_collaborators` in the same way.
-/

namespace OtrNg

/-! ## Machine arithmetic -/

/-- Modulus of `size_t` arithmetic. -/
def SIZE_MOD : Nat := 2 ^ 64

/-- Largest request the allocator serves. -/
def PTRDIFF_MAX : Nat := 2 ^ 63 - 1

/-- Modulus of `unsigned int` arithmetic. -/
def UINT_MOD : Nat := 2 ^ 32

/-- Conversion of an integer value to `size_t`. -/
def to_size_t (x : Int) : Nat := (x % (SIZE_MOD : Int)).toNat

/-- Conversion of an integer value to `unsigned int`. -/
def to_unsigned (x : Int) : Nat := (x % (UINT_MOD : Int)).toNat

/-- Conversion of an integer value to `int` (truncation to 32 bits, two's complement). -/
def to_int (x : Int) : Int :=
  if x % (UINT_MOD : Int) < 2 ^ 31 then x % (UINT_MOD : Int) else x % (UINT_MOD : Int) - (UINT_MOD : Int)

/-- Result code of the library calls. -/
inductive otr4_err_t where
  | OTR4_SUCCESS
  | OTR4_ERROR
  | OTR4_STATE_NOT_ENCRYPTED
  deriving DecidableEq, Repr

open otr4_err_t

/-! ## `printf` and `sscanf` conversions used by the fragmenter -/

/-- Lowercase hexadecimal digit of a value below 16. -/
def hexDigit : Nat → Char
  | 0 => '0' | 1 => '1' | 2 => '2' | 3 => '3'
  | 4 => '4' | 5 => '5' | 6 => '6' | 7 => '7'
  | 8 => '8' | 9 => '9' | 10 => 'a' | 11 => 'b'
  | 12 => 'c' | 13 => 'd' | 14 => 'e' | _ => 'f'

/-- The `w` lowest hexadecimal digits of `v`, most significant first. -/
def hexFixed : Nat → Nat → List Char
  | 0, _ => []
  | w + 1, v => hexFixed w (v / 16) ++ [hexDigit (v % 16)]

/-- The conversion `%0wx` of `printf`: lowercase hexadecimal, zero-padded to at
least `w` digits. -/
def printf_x (w v : Nat) : List Char :=
  if v < 16 ^ w then hexFixed w v else Nat.toDigits 16 v

/-- The text that `FRAGMENT_FORMAT`, `"?OTR|%08x|%08x,%05x,%05x,%s,"`, formats. -/
def FRAGMENT_FORMAT (our_instance their_instance curfrag total : Nat)
    (piece_data : List Char) : List Char :=
  ['?', 'O', 'T', 'R', '|'] ++ printf_x 8 our_instance ++ ['|'] ++
    printf_x 8 their_instance ++ [','] ++ printf_x 5 curfrag ++ [','] ++
    printf_x 5 total ++ [','] ++ piece_data ++ [',']

/-- The string `snprintf(buf, size, ...)` leaves in `buf`: at most `size - 1`
characters of the formatted text. -/
def snprintf (size : Nat) (formatted : List Char) : List Char :=
  formatted.take (size - 1)

/-- White space in the sense of `isspace`. -/
def isspace (c : Char) : Bool :=
  c = ' ' || c = '\t' || c = '\n' || c = '\x0b' || c = '\x0c' || c = '\r'

/-- Value of a hexadecimal digit, either case (by code point: `0`-`9` are
48-57, `a`-`f` are 97-102, `A`-`F` are 65-70). -/
def hexVal (c : Char) : Option Nat :=
  if 48 ≤ c.toNat ∧ c.toNat ≤ 57 then some (c.toNat - 48)
  else if 97 ≤ c.toNat ∧ c.toNat ≤ 102 then some (c.toNat - 87)
  else if 65 ≤ c.toNat ∧ c.toNat ≤ 70 then some (c.toNat - 55)
  else none

/-- Reads the longest run of at most `w` hexadecimal digits, accumulating their
value; returns the value, the number of digits read and the unread input. -/
def scan_hex_digits : Nat → List Char → Nat → Nat → Nat × Nat × List Char
  | 0, s, acc, cnt => (acc, cnt, s)
  | _ + 1, [], acc, cnt => (acc, cnt, [])
  | w + 1, c :: cs, acc, cnt =>
    match hexVal c with
    | some d => scan_hex_digits w cs (16 * acc + d) (cnt + 1)
    | none => (acc, cnt, c :: cs)

/-- The digits of a `%x` input item after the optional sign: an optional
`0x`/`0X` and then at least one hexadecimal digit, `w` characters at most.
A `0x` that no digit follows is a matching failure, as ISO C has it (some C
libraries read it as 0 instead; no piece written by `FRAGMENT_FORMAT` contains
an `x`). -/
def scan_x_unsigned (w : Nat) (s : List Char) : Option (Nat × List Char) :=
  match s with
  | '0' :: x :: t =>
    if (x = 'x' ∨ x = 'X') ∧ 2 ≤ w then
      match scan_hex_digits (w - 2) t 0 0 with
      | (v, cnt, rest) => if cnt = 0 then none else some (v, rest)
    else
      match scan_hex_digits w s 0 0 with
      | (v, cnt, rest) => if cnt = 0 then none else some (v, rest)
  | _ =>
    match scan_hex_digits w s 0 0 with
    | (v, cnt, rest) => if cnt = 0 then none else some (v, rest)

/-- The conversion `%wx` of `sscanf` (ISO C): skips white space, then reads an
optionally signed hexadecimal integer of at most `w` characters. Returns the
`unsigned int` stored and the unread input, or `none` on a matching failure. -/
def scan_x (w : Nat) (s : List Char) : Option (Nat × List Char) :=
  match s.dropWhile isspace with
  | '-' :: t =>
    match scan_x_unsigned (w - 1) t with
    | some (v, rest) => some ((UINT_MOD - v % UINT_MOD) % UINT_MOD, rest)
    | none => none
  | '+' :: t =>
    match scan_x_unsigned (w - 1) t with
    | some (v, rest) => some (v % UINT_MOD, rest)
    | none => none
  | s1 =>
    match scan_x_unsigned w s1 with
    | some (v, rest) => some (v % UINT_MOD, rest)
    | none => none

/-- Matches the ordinary characters of a format against the input. -/
def scan_literal : List Char → List Char → Option (List Char)
  | [], s => some s
  | _ :: _, [] => none
  | f :: fs, c :: cs => if f = c then scan_literal fs cs else none

/-- The conversion `%*[^,]`: a non-empty run of characters other than `,`. -/
def scan_not_comma (s : List Char) : Option (List Char) :=
  match s with
  | [] => none
  | c :: _ => if c = ',' then none else some (s.dropWhile (fun x => x != ','))

/-- The variables `sscanf` assigns in `otr4_defragment_message`; all start at 0. -/
structure scan_vars where
  sender_tag : Nat
  receiver_tag : Nat
  k : Nat
  n : Nat
  start : Nat
  end_ : Nat
  deriving DecidableEq, Repr

/-- The call `sscanf(message, "?OTR|%08x|%08x,%05x,%05x,%n%*[^,],%n", ...)`: the
directives are processed in order and the first failure stops the scan,
leaving the remaining variables at their initial value 0. -/
def sscanf_fragment (message : List Char) : scan_vars :=
  let v0 : scan_vars := ⟨0, 0, 0, 0, 0, 0⟩
  match scan_literal ['?', 'O', 'T', 'R', '|'] message with
  | none => v0
  | some s1 =>
  match scan_x 8 s1 with
  | none => v0
  | some (sender_tag, s2) =>
  let v1 := { v0 with sender_tag := sender_tag }
  match scan_literal ['|'] s2 with
  | none => v1
  | some s3 =>
  match scan_x 8 s3 with
  | none => v1
  | some (receiver_tag, s4) =>
  let v2 := { v1 with receiver_tag := receiver_tag }
  match scan_literal [','] s4 with
  | none => v2
  | some s5 =>
  match scan_x 5 s5 with
  | none => v2
  | some (k, s6) =>
  let v3 := { v2 with k := k }
  match scan_literal [','] s6 with
  | none => v3
  | some s7 =>
  match scan_x 5 s7 with
  | none => v3
  | some (n, s8) =>
  let v4 := { v3 with n := n }
  match scan_literal [','] s8 with
  | none => v4
  | some s9 =>
  let v5 := { v4 with start := message.length - s9.length }
  match scan_not_comma s9 with
  | none => v5
  | some s10 =>
  match scan_literal [','] s10 with
  | none => v5
  | some s11 => { v5 with end_ := message.length - s11.length }

/-- The test `strstr(haystack, needle) != NULL`. -/
def strstr : List Char → List Char → Bool
  | [], needle => needle.isEmpty
  | c :: cs, needle => needle.isPrefixOf (c :: cs) || strstr cs needle

/-! ## `fragment.c` -/

/-- Modelled from the spec: the declaration of `fragment_message_t` in
`fragment.h`, which is absent from the sources; `total` is an `int`, the
pieces are C strings. On an error return the C code has not assigned
`pieces`; the embedding then reports no pieces. -/
structure fragment_message_t where
  total : Int
  pieces : List (List Char)
  deriving DecidableEq, Repr

/-- The loop `for (curfrag = 1; curfrag <= fragments->total; curfrag++)` of
`otr4_fragment_message`, with `fuel` iterations left; `message` is the moving
source pointer. `FRAGMENT_HEADER_LEN` is the parameter `H`. -/
def fragment_loop (H : Nat) (our_instance their_instance total : Int)
    (msglen limit_piece : Nat) : Nat → Int → List Char → Option (List (List Char))
  | 0, _, _ => some []
  | fuel + 1, curfrag, message =>
    let index_len : Nat := 0
    let piece_len : Int :=
      if msglen - index_len < limit_piece then to_int ((msglen - index_len : Nat) : Int)
      else to_int (limit_piece : Int)
    if piece_len < 0 ∨ 2 ^ 31 ≤ piece_len + (H : Int) + 1 then none
    else
      -- strncpy(piece_data, message, piece_len); piece_data[piece_len] = 0;
      let piece_data := message.take piece_len.toNat
      -- snprintf(piece, piece_len + FRAGMENT_HEADER_LEN, FRAGMENT_FORMAT, ...)
      let piece := snprintf (piece_len.toNat + H)
        (FRAGMENT_FORMAT (to_unsigned our_instance) (to_unsigned their_instance)
          (to_unsigned curfrag) (to_unsigned total) piece_data)
      -- message += piece_len
      match fragment_loop H our_instance their_instance total msglen limit_piece fuel
          (curfrag + 1) (message.drop piece_len.toNat) with
      | none => none
      | some rest => some (piece :: rest)

/-- The function `otr4_fragment_message`; `H` is `FRAGMENT_HEADER_LEN`, whose
definition (in `fragment.h`) is absent from the sources. The result is the
return code and the contents of `*fragments`. -/
def otr4_fragment_message (H : Nat) (mms : Int) (our_instance their_instance : Int)
    (message : List Char) : Option (otr4_err_t × fragment_message_t) :=
  let msglen : Nat := message.length
  let limit_piece : Nat := to_size_t (mms - (H : Int))
  if limit_piece = 0 then none
  else
    let total : Int :=
      to_int (((to_size_t ((msglen : Int) - 1) / limit_piece + 1) % SIZE_MOD : Nat) : Int)
    if total > 65535 then some (OTR4_ERROR, ⟨total, []⟩)
    else if PTRDIFF_MAX < to_size_t total * 8 % SIZE_MOD then some (OTR4_ERROR, ⟨total, []⟩)
    else
      match fragment_loop H our_instance their_instance total msglen limit_piece
          total.toNat 1 message with
      | none => none
      | some pieces => some (OTR4_SUCCESS, ⟨total, pieces⟩)

/-- The function `is_fragment`. -/
def is_fragment (message : List Char) : Bool :=
  strstr message ['?', 'O', 'T', 'R', '|']

/-- Status of a fragmentation context. -/
inductive fragment_status where
  | OTR4_FRAGMENT_UNFRAGMENTED
  | OTR4_FRAGMENT_INCOMPLETE
  | OTR4_FRAGMENT_COMPLETE
  deriving DecidableEq, Repr

open fragment_status

/-- What a `string_t` field points to: nothing, a heap buffer holding a
string, or a string literal (which must not be freed or reallocated). -/
inductive string_ptr where
  | null
  | heap (s : List Char)
  | literal (s : List Char)
  deriving DecidableEq, Repr

/-- The string a pointer designates (`NULL` designates none). -/
def string_ptr.contents : string_ptr → List Char
  | string_ptr.null => []
  | string_ptr.heap s => s
  | string_ptr.literal s => s

/-- Modelled from the spec: the declaration of `fragment_context_t` in
`fragment.h`, which is absent from the sources. The fields are those that
`fragment_context_new` initialises and `otr4_defragment_message` uses (the
code keeps no tag pair in the context); `N` and `K` are `unsigned int`,
`fragment_len` is a `size_t`. -/
structure fragment_context_t where
  N : Nat
  K : Nat
  fragment : string_ptr
  fragment_len : Nat
  status : fragment_status
  deriving DecidableEq, Repr

/-- The function `fragment_context_new`. -/
def fragment_context_new : fragment_context_t :=
  { N := 0, K := 0, fragment := string_ptr.null, fragment_len := 0,
    status := OTR4_FRAGMENT_UNFRAGMENTED }

/-- The closing test of `otr4_defragment_message` and its successful return. -/
def defragment_finish (context : fragment_context_t) : otr4_err_t × fragment_context_t :=
  if 0 < context.N ∧ context.N = context.K then
    (OTR4_SUCCESS, { context with status := OTR4_FRAGMENT_COMPLETE })
  else (OTR4_SUCCESS, context)

/-- The function `otr4_defragment_message`: the return code and the context
it leaves. -/
def otr4_defragment_message (context : fragment_context_t) (message : List Char) :
    Option (otr4_err_t × fragment_context_t) :=
  if ¬ is_fragment message then
    -- the message is copied whole: strcpy(context->fragment, message)
    some (OTR4_SUCCESS,
      { context with
        fragment_len := message.length, fragment := string_ptr.heap message,
        N := 0, K := 0, status := OTR4_FRAGMENT_UNFRAGMENTED })
  else
    let context := { context with status := OTR4_FRAGMENT_INCOMPLETE }
    let v := sscanf_fragment message
    let k := v.k
    let n := v.n
    let start := v.start
    let end_ := v.end_
    -- context->N = n, ahead of the comparison n == context->N below
    let context := { context with N := n }
    if k = 1 then
      if end_ ≤ start then some (OTR4_ERROR, context)
      else
        let buff_len := end_ - start - 1
        -- memmove(buff, message + start, buff_len)
        let buff := (message.drop start).take buff_len
        some (defragment_finish
          { context with fragment_len := buff_len, fragment := string_ptr.heap buff, K := k })
    else if n = context.N ∧ k = (context.K + 1) % UINT_MOD then
      let buff_len : Int := (end_ : Int) - (start : Int) - 1
      let new_buff_len : Nat := to_size_t ((context.fragment_len : Int) + buff_len + 1)
      -- buff = realloc(context->fragment, new_buff_len)
      match context.fragment with
      | string_ptr.literal _ => none
      | old =>
        if PTRDIFF_MAX < new_buff_len then some (OTR4_ERROR, context)
        else if buff_len < 0 ∨ old.contents.length < context.fragment_len then none
        else
          -- memmove(buff + context->fragment_len, message + start, buff_len)
          let buff := old.contents.take context.fragment_len ++
            (message.drop start).take buff_len.toNat
          some (defragment_finish
            { context with
              fragment_len := context.fragment_len + buff_len.toNat,
              fragment := string_ptr.heap buff, K := k })
    else
      -- free(context->fragment); context->fragment = "";
      match context.fragment with
      | string_ptr.literal _ => none
      | _ =>
        some (defragment_finish
          { context with fragment := string_ptr.literal [], K := 0, N := 0 })

/-- Feeds the pieces in order to `otr4_defragment_message`, collecting the
return codes; `none` as soon as one call has no defined behaviour. -/
def defragment_all : fragment_context_t → List (List Char) →
    Option (List otr4_err_t × fragment_context_t)
  | context, [] => some ([], context)
  | context, piece :: rest =>
    match otr4_defragment_message context piece with
    | none => none
    | some (err, context1) =>
      match defragment_all context1 rest with
      | none => none
      | some (errs, context2) => some (err :: errs, context2)

/-! ## `otrv4.c`: query message and whitespace tag -/

/-- Modelled from the spec: the policy flag `OTRV4_ALLOW_V3` of `otrv4.h`, which
is absent from the sources; the policy is a set of versions, one bit each. -/
def OTRV4_ALLOW_V3 : Nat := 1

/-- Modelled from the spec: the policy flag `OTRV4_ALLOW_V4` of `otrv4.h`, which
is absent from the sources; the policy is a set of versions, one bit each. -/
def OTRV4_ALLOW_V4 : Nat := 2

/-- The conversation states that `otrv4.c` names (the enumeration is declared
in `otrv4.h`, absent from the sources). -/
inductive otrv4_state where
  | OTRV4_STATE_NONE
  | OTRV4_STATE_START
  | OTRV4_STATE_AKE_IN_PROGRESS
  | OTRV4_STATE_WAITING_AUTH_R
  | OTRV4_STATE_WAITING_AUTH_I
  | OTRV4_STATE_ENCRYPTED_MESSAGES
  | OTRV4_STATE_FINISHED
  deriving DecidableEq, Repr

/-- The running versions that `otrv4.c` names. -/
inductive otrv4_version where
  | OTRV4_VERSION_NONE
  | OTRV4_VERSION_3
  | OTRV4_VERSION_4
  deriving DecidableEq, Repr

/-- The warnings that `otrv4.c` names. -/
inductive otrv4_warning where
  | OTRV4_WARN_NONE
  | OTRV4_WARN_RECEIVED_UNENCRYPTED
  deriving DecidableEq, Repr

/-- The classes of inbound messages that `otrv4.c` names. -/
inductive otrv4_in_message_type_t where
  | IN_MSG_NONE
  | IN_MSG_PLAINTEXT
  | IN_MSG_TAGGED_PLAINTEXT
  | IN_MSG_QUERY_STRING
  | IN_MSG_OTR_ENCODED
  deriving DecidableEq, Repr

/-- The SMP states of `smp.h` (absent from the sources). -/
inductive smp_state_t where
  | SMPSTATE_EXPECT1
  | SMPSTATE_EXPECT2
  | SMPSTATE_EXPECT3
  | SMPSTATE_EXPECT4
  deriving DecidableEq, Repr

/-- The SMP events that `otrv4.c` names; `OTRV4_SMPEVENT_NONE` is the zero value. -/
inductive otr4_smp_event_t where
  | OTRV4_SMPEVENT_NONE
  | OTRV4_SMPEVENT_ASK_FOR_SECRET
  | OTRV4_SMPEVENT_ASK_FOR_ANSWER
  | OTRV4_SMPEVENT_CHEATED
  | OTRV4_SMPEVENT_IN_PROGRESS
  | OTRV4_SMPEVENT_SUCCESS
  | OTRV4_SMPEVENT_FAILURE
  | OTRV4_SMPEVENT_ABORT
  | OTRV4_SMPEVENT_ERROR
  deriving DecidableEq, Repr

/-- Modelled from the spec: `OTRV4_ALLOW_NONE` of `otrv4.h`, the empty policy. -/
def OTRV4_ALLOW_NONE : Nat := 0

/-- Modelled from the spec: the TLV type values of `tlv.h` (absent from the
sources): 0x0000 PADDING. -/
def OTRV4_TLV_PADDING : Nat := 0

/-- Modelled from the spec: TLV type 0x0001 DISCONNECTED. -/
def OTRV4_TLV_DISCONNECTED : Nat := 1

/-- Modelled from the spec: TLV type 0x0002 SMP1. -/
def OTRV4_TLV_SMP_MSG_1 : Nat := 2

/-- Modelled from the spec: TLV type 0x0003 SMP2. -/
def OTRV4_TLV_SMP_MSG_2 : Nat := 3

/-- Modelled from the spec: TLV type 0x0004 SMP3. -/
def OTRV4_TLV_SMP_MSG_3 : Nat := 4

/-- Modelled from the spec: TLV type 0x0005 SMP4. -/
def OTRV4_TLV_SMP_MSG_4 : Nat := 5

/-- Modelled from the spec: TLV type 0x0006 SMP_ABORT. -/
def OTRV4_TLV_SMP_ABORT : Nat := 6

/-- Modelled from the spec: message type byte of an Identity message. -/
def OTR_IDENTITY_MSG_TYPE : Nat := 0x35

/-- Modelled from the spec: message type byte of an Auth-R message. -/
def OTR_AUTH_R_MSG_TYPE : Nat := 0x36

/-- Modelled from the spec: message type byte of an Auth-I message. -/
def OTR_AUTH_I_MSG_TYPE : Nat := 0x37

/-- Modelled from the spec: message type byte of a data message. -/
def OTR_DATA_MSG_TYPE : Nat := 0x03

/-- One TLV record: `type`, `len` and `data` of `tlv_t`; a chain of records
linked by `next` is a list. -/
structure tlv_t where
  type : Nat
  len : Nat
  data : List Nat
  deriving DecidableEq, Repr

/-- A user profile, of which `otrv4.c` reads `pub_key`; the other contents are
kept as one value. -/
structure user_profile_t where
  pub_key : List Nat
  contents : List Nat
  deriving DecidableEq, Repr

/-- The long-term key pair (`otr->keypair`). -/
structure otrv4_keypair_t where
  pub : List Nat
  priv : List Nat
  deriving DecidableEq, Repr

/-- The fields of `key_manager_t` that `otrv4.c` reads or writes; `chains`
stands for the rest of the ratchet state, which only `key_management.c`
touches. -/
structure key_manager_t where
  i : Nat
  j : Nat
  our_ecdh : List Nat
  our_dh : Nat
  their_ecdh : List Nat
  their_dh : Nat
  old_mac_keys : List (List Nat)
  ssid : List Nat
  chains : List Nat
  deriving DecidableEq, Repr

/-- The first SMP message, of which `otrv4.c` reads `question`. -/
structure smp_msg_1_t where
  question : Option (List Char)
  contents : List Nat
  deriving DecidableEq, Repr

/-- The SMP context `otr->smp`. -/
structure smp_context_t where
  state : smp_state_t
  progress : Nat
  msg1 : Option smp_msg_1_t
  secret : Option (List Nat)
  contents : List Nat
  deriving DecidableEq, Repr

/-- A call made to the host through `otr->callbacks`. -/
inductive callback_call where
  | gone_secure
  | gone_insecure
  | fingerprint_seen (fp : List Nat)
  | handle_smp_event (event : otr4_smp_event_t) (progress_percent : Nat)
      (question : Option (List Char))
  deriving DecidableEq, Repr

/-- The conversation `otrv4_t`. Pointer fields that may be `NULL` are options;
`otr3_conn` is the state of the version 3 bridge, of which `otrv4.c` knows
nothing. `callbacks` tells whether a callback table is installed, and
`calls` records, latest last, the calls made through it (it is not a field of
the C structure). -/
structure otrv4_t where
  supported_versions : Nat
  state : otrv4_state
  running_version : otrv4_version
  our_instance_tag : Nat
  their_instance_tag : Nat
  keypair : otrv4_keypair_t
  profile : Option user_profile_t
  their_profile : Option user_profile_t
  keys : key_manager_t
  smp : smp_context_t
  otr3_conn : List Nat
  callbacks : Bool
  calls : List callback_call
  deriving DecidableEq, Repr

/-- The response `otrv4_response_t`; an empty TLV chain is `NULL`. -/
structure otrv4_response_t where
  to_display : Option (List Char)
  to_send : Option (List Char)
  warning : otrv4_warning
  tlvs : List tlv_t
  deriving DecidableEq, Repr

/-- An Identity message (`dake_identity_message_t`). -/
structure dake_identity_message_t where
  sender_instance_tag : Nat
  receiver_instance_tag : Nat
  profile : user_profile_t
  Y : List Nat
  B : Nat
  deriving DecidableEq, Repr

/-- An Auth-R message (`dake_auth_r_t`). -/
structure dake_auth_r_t where
  sender_instance_tag : Nat
  receiver_instance_tag : Nat
  profile : user_profile_t
  X : List Nat
  A : Nat
  sigma : List Nat
  deriving DecidableEq, Repr

/-- An Auth-I message (`dake_auth_i_t`). -/
structure dake_auth_i_t where
  sender_instance_tag : Nat
  receiver_instance_tag : Nat
  sigma : List Nat
  deriving DecidableEq, Repr

/-- The fields of a data message (`data_message_t`) that `otrv4.c` reads or
writes; `rest` stands for the others. -/
structure data_message_t where
  sender_instance_tag : Nat
  receiver_instance_tag : Nat
  ratchet_id : Nat
  message_id : Nat
  ecdh : List Nat
  dh : Nat
  nonce : List Nat
  enc_msg : List Nat
  enc_msg_len : Nat
  rest : List Nat
  deriving DecidableEq, Repr

/-- The header `otrv4_header_t`. -/
structure otrv4_header_t where
  version : Nat
  type : Nat
  deriving DecidableEq, Repr

/-- The functions that `otrv4.c` calls and whose code lies in files absent from
the sources (`otrv3.c`, `key_management.c`, `dake.c`, `b64.c`, `data_message.c`,
`smp.c`, `tlv.c`, `user_profile.c`, the crypto wrappers), taken as parameters.
Each field bears the name of the C function and gives what it returns and
what it leaves in the objects it may write. `random_bytes` gives the nonce
drawn for a data message, `list_add` the list of MAC keys after one more is
added, `gcry_mpi_scan_our_dh` and `gcry_mpi_scan_point` the number that
`gcry_mpi_scan` reads from our DH public key and from a point. A `Bool` result is `true` when the C function returns non-zero; an
option is `none` when the C function reports failure. -/
structure collaborators where
  otrv3_receive_message : Option (List Char) → Option (List Char) → List tlv_t →
    List Char → List Nat →
    otr4_err_t × Option (List Char) × Option (List Char) × List tlv_t × List Nat
  otrv3_send_message : Option (List Char) → List Char → List tlv_t → List Nat →
    otr4_err_t × Option (List Char) × List Nat
  key_manager_init : key_manager_t → key_manager_t
  key_manager_destroy : key_manager_t → key_manager_t
  key_manager_generate_ephemeral_keys : key_manager_t → key_manager_t
  key_manager_set_their_ecdh : List Nat → key_manager_t → key_manager_t
  key_manager_set_their_dh : Nat → key_manager_t → key_manager_t
  key_manager_set_their_keys : List Nat → Nat → key_manager_t → key_manager_t
  key_manager_ratchetting_init : Int → key_manager_t → Bool × key_manager_t
  key_manager_ensure_on_ratchet : Nat → key_manager_t → Bool × key_manager_t
  key_manager_retrieve_receiving_message_keys : Nat → Nat → key_manager_t →
    Bool × List Nat × List Nat × key_manager_t
  key_manager_prepare_to_ratchet : key_manager_t → key_manager_t
  key_manager_prepare_next_chain_key : key_manager_t → Bool × key_manager_t
  key_manager_retrieve_sending_message_keys : key_manager_t →
    Bool × List Nat × List Nat × key_manager_t
  key_manager_old_mac_keys_serialize : List (List Nat) → List Nat
  user_profile_build : List Char → otrv4_keypair_t → Option user_profile_t
  user_profile_asprintf : Option user_profile_t → Option (List Nat)
  dake_identity_message_new : Option user_profile_t → Option dake_identity_message_t
  dake_identity_message_asprintf : dake_identity_message_t → Option (List Nat)
  dake_identity_message_deserialize : List Nat → Nat → Option dake_identity_message_t
  valid_received_values : List Nat → Nat → user_profile_t → Bool
  valid_dake_identity_message : dake_identity_message_t → Bool
  dake_auth_r_asprintf : dake_auth_r_t → Option (List Nat)
  dake_auth_r_deserialize : List Nat → Nat → Option dake_auth_r_t
  dake_auth_i_asprintf : dake_auth_i_t → Option (List Nat)
  dake_auth_i_deserialize : List Nat → Nat → Option dake_auth_i_t
  serialize_ec_point : List Nat → Option (List Nat)
  serialize_dh_public_key : Nat → Option (List Nat)
  snizkpk_authenticate : otrv4_keypair_t → List Nat → List Nat → List Nat →
    Option (List Nat)
  snizkpk_verify : List Nat → List Nat → List Nat → List Nat → List Nat → otr4_err_t
  otr4_serialize_fingerprint : List Nat → Bool × List Nat
  otrl_base64_otr_encode : List Nat → List Char
  otrl_base64_otr_decode : List Char → Option (List Nat)
  gcry_mpi_scan_our_dh : Nat → Option Nat
  gcry_mpi_scan_point : List Nat → Option Nat
  data_message_new : Option data_message_t
  data_message_deserialize : Option data_message_t → List Nat → Nat →
    Option data_message_t
  data_message_body_asprintf : data_message_t → Option (List Nat)
  valid_data_message : List Nat → data_message_t → Bool
  crypto_stream_xor : List Nat → Nat → List Nat → List Nat → Int × List Nat
  sha3_512_mac : List Nat → List Nat → Option (List Nat)
  random_bytes : data_message_t → List Nat
  list_add : List Nat → List (List Nat) → List (List Nat)
  user_profile_copy : Option user_profile_t → user_profile_t
  otrv4_parse_tlvs : List Nat → Nat → List tlv_t
  process_smp_msg1 : tlv_t → smp_context_t → otr4_smp_event_t × smp_context_t
  process_smp_msg2 : tlv_t → smp_context_t →
    otr4_smp_event_t × List tlv_t × smp_context_t
  process_smp_msg3 : tlv_t → smp_context_t →
    otr4_smp_event_t × List tlv_t × smp_context_t
  process_smp_msg4 : tlv_t → smp_context_t → otr4_smp_event_t × smp_context_t

/-- The constant `tag_base`. -/
def tag_base : List Char :=
  [' ', '\t', ' ', ' ', '\t', '\t', '\t', '\t', ' ', '\t', ' ', '\t', ' ', '\t', ' ', ' ']

/-- The constant `tag_version_v4`. -/
def tag_version_v4 : List Char := [' ', ' ', '\t', '\t', ' ', '\t', ' ', ' ']

/-- The constant `tag_version_v3`. -/
def tag_version_v3 : List Char := [' ', ' ', '\t', '\t', ' ', ' ', '\t', '\t']

/-- The constant `query_header`. -/
def query_header : List Char := ['?', 'O', 'T', 'R', 'v']

/-- The macro `QUERY_MESSAGE_TAG_BYTES`. -/
def QUERY_MESSAGE_TAG_BYTES : Nat := 5

/-- The macro `WHITESPACE_TAG_BASE_BYTES`. -/
def WHITESPACE_TAG_BASE_BYTES : Nat := 16

/-- The macro `WHITESPACE_TAG_VERSION_BYTES`. -/
def WHITESPACE_TAG_VERSION_BYTES : Nat := 8

/-- The function `allow_version`. -/
def allow_version (otr : otrv4_t) (version : Nat) : Nat :=
  otr.supported_versions &&& version

/-- The function `allowed_versions`: the string written to `dst`. -/
def allowed_versions (otr : otrv4_t) : List Char :=
  (if allow_version otr OTRV4_ALLOW_V4 ≠ 0 then ['4'] else []) ++
    (if allow_version otr OTRV4_ALLOW_V3 ≠ 0 then ['3'] else [])

/-- The call `stpncpy(dst, src, n)`: the characters copied to `dst`, and whether
the returned pointer designates a NUL (it does exactly when `src` is shorter
than `n`, so that padding was written; otherwise it designates `dst[n]`). -/
def stpncpy (src : List Char) (n : Nat) : List Char × Bool :=
  (src.take n, decide (src.length < n))

/-- The function `otrv4_build_query_message`: the return code and `*dst`. The
error branch is the one guarded by `*stpncpy(cursor, message, qm_size - rem)`,
taken when the returned pointer does not designate a NUL. -/
def otrv4_build_query_message (message : List Char) (otr : otrv4_t) :
    otr4_err_t × Option (List Char) :=
  let qm_size : Nat := QUERY_MESSAGE_TAG_BYTES + 3 + message.length + 2 + 1
  let allowed := allowed_versions otr
  -- cursor = stpcpy(buff, query_header); stpcpy(cursor, allowed); stpcpy(cursor, "? ")
  let buff := query_header ++ allowed ++ ['?', ' ']
  let rem : Nat := buff.length
  let copy := stpncpy message (qm_size - rem)
  if ¬ copy.2 then (OTR4_ERROR, none)
  else (OTR4_SUCCESS, some (buff ++ copy.1))

/-- The function `otrv4_build_whitespace_tag`: the return code and
`*whitespace_tag`. The three `stpcpy` calls build `buff`; the error branch is
the one guarded by `*stpncpy(cursor, message, m_size - strlen(buff))`. -/
def otrv4_build_whitespace_tag (message : List Char) (otr : otrv4_t) :
    otr4_err_t × Option (List Char) :=
  let m_size : Nat := WHITESPACE_TAG_BASE_BYTES + message.length + 1
  let allows_v4 := allow_version otr OTRV4_ALLOW_V4
  let allows_v3 := allow_version otr OTRV4_ALLOW_V3
  let m_size := if allows_v4 ≠ 0 then m_size + WHITESPACE_TAG_VERSION_BYTES else m_size
  let m_size := if allows_v3 ≠ 0 then m_size + WHITESPACE_TAG_VERSION_BYTES else m_size
  let buff := tag_base
  let buff := if allows_v4 ≠ 0 then buff ++ tag_version_v4 else buff
  let buff := if allows_v3 ≠ 0 then buff ++ tag_version_v3 else buff
  let copy := stpncpy message (m_size - buff.length)
  if ¬ copy.2 then (OTR4_ERROR, none)
  else (OTR4_SUCCESS, some (buff ++ copy.1))

/-! ## `otrv4.c`: receiving -/

/-- Result of a function that writes a response and the conversation. -/
structure receive_result where
  err : otr4_err_t
  response : otrv4_response_t
  otr : otrv4_t
  deriving DecidableEq, Repr

/-- Result of a function that writes the string `*dst` (or `*to_send`) and the
conversation. -/
structure dst_result where
  err : otr4_err_t
  dst : Option (List Char)
  otr : otrv4_t
  deriving DecidableEq, Repr

/-- The function `gone_secure_cb`. -/
def gone_secure_cb (otr : otrv4_t) : otrv4_t :=
  if ¬ otr.callbacks then otr
  else { otr with calls := otr.calls ++ [callback_call.gone_secure] }

/-- The function `gone_insecure_cb`. -/
def gone_insecure_cb (otr : otrv4_t) : otrv4_t :=
  if ¬ otr.callbacks then otr
  else { otr with calls := otr.calls ++ [callback_call.gone_insecure] }

/-- The function `fingerprint_seen_cb`. -/
def fingerprint_seen_cb (fp : List Nat) (otr : otrv4_t) : otrv4_t :=
  if ¬ otr.callbacks then otr
  else { otr with calls := otr.calls ++ [callback_call.fingerprint_seen fp] }

/-- The function `handle_smp_event_cb`. -/
def handle_smp_event_cb (event : otr4_smp_event_t) (progress_percent : Nat)
    (question : Option (List Char)) (otr : otrv4_t) : otrv4_t :=
  if ¬ otr.callbacks then otr
  else
    { otr with
      calls := otr.calls ++ [callback_call.handle_smp_event event progress_percent question] }

/-- The all-zero key manager on which `otrv4_new` calls `key_manager_init`. -/
def key_manager_blank : key_manager_t :=
  { i := 0, j := 0, our_ecdh := [], our_dh := 0, their_ecdh := [], their_dh := 0,
    old_mac_keys := [], ssid := [], chains := [] }

/-- The function `otrv4_new` (`get_my_user_profile` inlined): the conversation
created for a key pair and a policy. -/
def otrv4_new (env : collaborators) (keypair : otrv4_keypair_t) (policy_allows : Nat) :
    otrv4_t :=
  let otr : otrv4_t :=
    { supported_versions := policy_allows,
      state := otrv4_state.OTRV4_STATE_START,
      running_version := otrv4_version.OTRV4_VERSION_NONE,
      our_instance_tag := 0,
      their_instance_tag := 0,
      keypair := keypair,
      profile := none,
      their_profile := none,
      keys := env.key_manager_init key_manager_blank,
      smp := { state := smp_state_t.SMPSTATE_EXPECT1, progress := 0, msg1 := none,
               secret := none, contents := [] },
      otr3_conn := [],
      callbacks := false,
      calls := [] }
  { otr with profile := env.user_profile_build (allowed_versions otr) keypair }

/-- The function `message_contains_tag`. -/
def message_contains_tag (message : List Char) : Bool :=
  strstr message tag_base

/-- Modelled from the spec: `otrv4_strndup` of `str.c`, absent from the sources:
a fresh copy of at most `len` characters of the string, `NULL` for `NULL`. -/
def otrv4_strndup (s : Option (List Char)) (len : Nat) : Option (List Char) :=
  match s with
  | none => none
  | some str => some (str.take len)

/-- The function `set_to_display`. -/
def set_to_display (response : otrv4_response_t) (message : Option (List Char))
    (msg_len : Nat) : otrv4_response_t :=
  { response with to_display := otrv4_strndup message msg_len }

/-- The function `message_to_display_without_tag`: the return code and the
response. `chars` is only used when `msg_len ≥ tag_length`, where the
subtraction does not wrap; `tag_version` is not read. -/
def message_to_display_without_tag (response : otrv4_response_t) (message : List Char)
    (_tag_version : List Char) (msg_len : Nat) : otr4_err_t × otrv4_response_t :=
  let tag_length := WHITESPACE_TAG_BASE_BYTES + WHITESPACE_TAG_VERSION_BYTES
  let chars := msg_len - tag_length
  if msg_len < tag_length then (OTR4_ERROR, response)
  else
    -- strncpy(buff, message + tag_length, chars); buff[chars] = 0
    let buff := (message.drop tag_length).take chars
    (OTR4_SUCCESS, set_to_display response (some buff) chars)

/-- The function `set_running_version_from_tag`. -/
def set_running_version_from_tag (otr : otrv4_t) (message : List Char) : otrv4_t :=
  if allow_version otr OTRV4_ALLOW_V4 ≠ 0 ∧ strstr message tag_version_v4 = true then
    { otr with running_version := otrv4_version.OTRV4_VERSION_4 }
  else if allow_version otr OTRV4_ALLOW_V3 ≠ 0 ∧ strstr message tag_version_v3 = true then
    { otr with running_version := otrv4_version.OTRV4_VERSION_3 }
  else otr

/-- The function `message_is_query`. -/
def message_is_query (message : List Char) : Bool :=
  strstr message query_header

/-- The function `set_running_version_from_query_msg`. -/
def set_running_version_from_query_msg (otr : otrv4_t) (message : List Char) : otrv4_t :=
  if allow_version otr OTRV4_ALLOW_V4 ≠ 0 ∧ strstr message ['4'] = true then
    { otr with running_version := otrv4_version.OTRV4_VERSION_4 }
  else if allow_version otr OTRV4_ALLOW_V3 ≠ 0 ∧ strstr message ['3'] = true then
    { otr with running_version := otrv4_version.OTRV4_VERSION_3 }
  else otr

/-- The constant `otr_header`. -/
def otr_header : List Char := ['?', 'O', 'T', 'R', ':']

/-- The function `message_is_otr_encoded`. -/
def message_is_otr_encoded (message : List Char) : Bool :=
  strstr message otr_header

/-- The function `otrv4_response_new`. -/
def otrv4_response_new : otrv4_response_t :=
  { to_display := none, to_send := none, warning := otrv4_warning.OTRV4_WARN_NONE,
    tlvs := [] }

/-- The function `receive_plaintext`. -/
def receive_plaintext (response : otrv4_response_t) (message : List Char)
    (otr : otrv4_t) : otrv4_response_t :=
  let response := set_to_display response (some message) message.length
  if otr.state ≠ otrv4_state.OTRV4_STATE_START then
    { response with warning := otrv4_warning.OTRV4_WARN_RECEIVED_UNENCRYPTED }
  else response

/-- The function `serialize_and_encode_identity_message`: the return code and
`*dst`. -/
def serialize_and_encode_identity_message (env : collaborators)
    (dst : Option (List Char)) (m : dake_identity_message_t) :
    otr4_err_t × Option (List Char) :=
  match env.dake_identity_message_asprintf m with
  | none => (OTR4_ERROR, dst)
  | some buff => (OTR4_SUCCESS, some (env.otrl_base64_otr_encode buff))

/-- The function `reply_with_identity_msg`: the return code and the response. -/
def reply_with_identity_msg (env : collaborators) (response : otrv4_response_t)
    (otr : otrv4_t) : otr4_err_t × otrv4_response_t :=
  match env.dake_identity_message_new otr.profile with
  | none => (OTR4_ERROR, response)
  | some m0 =>
    let m : dake_identity_message_t :=
      { m0 with
        sender_instance_tag := otr.our_instance_tag,
        receiver_instance_tag := otr.their_instance_tag,
        Y := otr.keys.our_ecdh, B := otr.keys.our_dh }
    let r := serialize_and_encode_identity_message env response.to_send m
    if r.1 ≠ OTR4_SUCCESS then (OTR4_ERROR, { response with to_send := r.2 })
    else (OTR4_SUCCESS, { response with to_send := r.2 })

/-- The function `start_dake`. -/
def start_dake (env : collaborators) (response : otrv4_response_t) (otr : otrv4_t) :
    receive_result :=
  let otr := { otr with keys := env.key_manager_generate_ephemeral_keys otr.keys }
  let otr := { otr with state := otrv4_state.OTRV4_STATE_WAITING_AUTH_R }
  let r := reply_with_identity_msg env response otr
  ⟨r.1, r.2, otr⟩

/-- The call `otrv3_receive_message(&response->to_send, &response->to_display,
&response->tlvs, message, otr->otr3_conn)` and its return. -/
def call_otrv3_receive_message (env : collaborators) (response : otrv4_response_t)
    (message : List Char) (otr : otrv4_t) : receive_result :=
  match env.otrv3_receive_message response.to_send response.to_display response.tlvs
      message otr.otr3_conn with
  | (err, to_send, to_display, tlvs, conn) =>
    ⟨err, { response with to_send := to_send, to_display := to_display, tlvs := tlvs },
      { otr with otr3_conn := conn }⟩

/-- The function `receive_tagged_plaintext`. -/
def receive_tagged_plaintext (env : collaborators) (response : otrv4_response_t)
    (message : List Char) (otr : otrv4_t) : receive_result :=
  let otr := set_running_version_from_tag otr message
  match otr.running_version with
  | otrv4_version.OTRV4_VERSION_4 =>
    let r := message_to_display_without_tag response message tag_version_v4 message.length
    if r.1 ≠ OTR4_SUCCESS then ⟨OTR4_ERROR, r.2, otr⟩
    else start_dake env r.2 otr
  | otrv4_version.OTRV4_VERSION_3 => call_otrv3_receive_message env response message otr
  | otrv4_version.OTRV4_VERSION_NONE => ⟨OTR4_SUCCESS, response, otr⟩

/-- The function `receive_query_message`. -/
def receive_query_message (env : collaborators) (response : otrv4_response_t)
    (message : List Char) (otr : otrv4_t) : receive_result :=
  let otr := set_running_version_from_query_msg otr message
  match otr.running_version with
  | otrv4_version.OTRV4_VERSION_4 => start_dake env response otr
  | otrv4_version.OTRV4_VERSION_3 => call_otrv3_receive_message env response message otr
  | otrv4_version.OTRV4_VERSION_NONE => ⟨OTR4_SUCCESS, response, otr⟩

/-! ## `otrv4.c`: sending and closing -/

/-- Modelled from the spec: `MAC_KEY_BYTES` of `constants.h` (absent from the
sources), the 64 bytes of a MAC key. -/
def MAC_KEY_BYTES : Nat := 64

/-- Modelled from the spec: `DATA_MSG_MAC_BYTES` of `constants.h`, the 64 bytes
of the authenticator of a data message. -/
def DATA_MSG_MAC_BYTES : Nat := 64

/-- Modelled from the spec: `serialize_uint16` of `serialize.c` (absent from the
sources): the two bytes written, most significant first. -/
def serialize_uint16 (data : Nat) : List Nat :=
  [data / 256 % 256, data % 256]

/-- Modelled from the spec: `serialize_bytes_array` of `serialize.c`: the `len`
bytes copied from `data`. -/
def serialize_bytes_array (data : List Nat) (len : Nat) : List Nat :=
  data.take len

/-- Modelled from the spec: `otrv4_tlv_new` of `tlv.c` (absent from the
sources): a chain of one record. -/
def otrv4_tlv_new (type len : Nat) (data : List Nat) : List tlv_t :=
  [⟨type, len, data.take len⟩]

/-- Modelled from the spec: `otrv4_disconnected_tlv_new` of `tlv.c`: a chain of
one record of type DISCONNECTED without data. -/
def otrv4_disconnected_tlv_new : List tlv_t :=
  otrv4_tlv_new OTRV4_TLV_DISCONNECTED 0 []

/-- The function `serlialize_tlvs`: `none` is `OTR4_ERROR`, otherwise the bytes
of `*dst` (of which there are `*dstlen`). -/
def serlialize_tlvs (tlvs : List tlv_t) : Option (List Nat) :=
  if tlvs = [] then some []
  else
    let dstlen := (tlvs.map (fun current => current.len + 4)).sum
    if PTRDIFF_MAX < dstlen then none
    else
      some ((tlvs.map (fun current =>
        serialize_uint16 current.type ++ serialize_uint16 current.len ++
          serialize_bytes_array current.data current.len)).flatten)

/-- The function `append_tlvs`: `none` is `OTR4_ERROR`, otherwise the bytes of
`*dst` and `*dstlen`. -/
def append_tlvs (message : List Char) (tlvs : List tlv_t) : Option (List Nat × Nat) :=
  match serlialize_tlvs tlvs with
  | none => none
  | some ser =>
    let len := if tlvs = [] then 0 else (tlvs.map (fun current => current.len + 4)).sum
    let dstlen := message.length + 1 + len
    if PTRDIFF_MAX < dstlen then none
    else some (message.map Char.toNat ++ [0] ++ ser, dstlen)

/-- The function `generate_data_msg`. -/
def generate_data_msg (env : collaborators) (otr : otrv4_t) : Option data_message_t :=
  match env.data_message_new with
  | none => none
  | some data_msg =>
    some { data_msg with
      sender_instance_tag := otr.our_instance_tag,
      receiver_instance_tag := otr.their_instance_tag,
      ratchet_id := otr.keys.i,
      message_id := otr.keys.j,
      ecdh := otr.keys.our_ecdh,
      dh := otr.keys.our_dh }

/-- The function `encrypt_data_message`: the return code and the message. -/
def encrypt_data_message (env : collaborators) (data_msg : data_message_t)
    (message : List Nat) (message_len : Nat) (enc_key : List Nat) :
    otr4_err_t × data_message_t :=
  let data_msg := { data_msg with nonce := env.random_bytes data_msg }
  if PTRDIFF_MAX < message_len then (OTR4_ERROR, data_msg)
  else
    let r := env.crypto_stream_xor message message_len data_msg.nonce enc_key
    if r.1 ≠ 0 then (OTR4_ERROR, data_msg)
    else (OTR4_SUCCESS, { data_msg with enc_msg := r.2, enc_msg_len := message_len })

/-- The function `serialize_and_encode_data_msg`: the return code and `*dst`.
The authenticator fills `MAC_KEY_BYTES` bytes after the body and the revealed
keys are written `DATA_MSG_MAC_BYTES` after the body, which is the same
place. -/
def serialize_and_encode_data_msg (env : collaborators) (dst : Option (List Char))
    (mac_key : List Nat) (to_reveal_mac_keys : List Nat) (to_reveal_mac_keys_len : Nat)
    (data_msg : data_message_t) : otr4_err_t × Option (List Char) :=
  match env.data_message_body_asprintf data_msg with
  | none => (OTR4_ERROR, dst)
  | some body =>
    let serlen := body.length + MAC_KEY_BYTES + to_reveal_mac_keys_len
    if PTRDIFF_MAX < serlen then (OTR4_ERROR, dst)
    else
      match env.sha3_512_mac mac_key body with
      | none => (OTR4_ERROR, dst)
      | some mac =>
        let ser := body ++ mac.take MAC_KEY_BYTES ++
          serialize_bytes_array to_reveal_mac_keys to_reveal_mac_keys_len
        (OTR4_SUCCESS, some (env.otrl_base64_otr_encode ser))

/-- The function `send_data_message`. -/
def send_data_message (env : collaborators) (to_send : Option (List Char))
    (message : List Nat) (message_len : Nat) (otr : otrv4_t) : dst_result :=
  let serlen := otr.keys.old_mac_keys.length * MAC_KEY_BYTES
  let ser_mac_keys := env.key_manager_old_mac_keys_serialize otr.keys.old_mac_keys
  let otr := { otr with keys := { otr.keys with old_mac_keys := [] } }
  let r := env.key_manager_prepare_next_chain_key otr.keys
  let otr := { otr with keys := r.2 }
  if r.1 then ⟨OTR4_ERROR, to_send, otr⟩
  else
    let k := env.key_manager_retrieve_sending_message_keys otr.keys
    let enc_key := k.2.1
    let mac_key := k.2.2.1
    let otr := { otr with keys := k.2.2.2 }
    if k.1 then ⟨OTR4_ERROR, to_send, otr⟩
    else
      match generate_data_msg env otr with
      | none => ⟨OTR4_ERROR, to_send, otr⟩
      | some data_msg =>
        let e := encrypt_data_message env data_msg message message_len enc_key
        if e.1 = OTR4_SUCCESS then
          let s := serialize_and_encode_data_msg env to_send mac_key ser_mac_keys serlen e.2
          if s.1 = OTR4_SUCCESS then
            ⟨OTR4_SUCCESS, s.2, { otr with keys := { otr.keys with j := otr.keys.j + 1 } }⟩
          else ⟨OTR4_ERROR, s.2, otr⟩
        else ⟨OTR4_ERROR, to_send, otr⟩

/-- The function `send_otrv4_message`. -/
def send_otrv4_message (env : collaborators) (to_send : Option (List Char))
    (message : List Char) (tlvs : List tlv_t) (otr : otrv4_t) : dst_result :=
  if otr.state = otrv4_state.OTRV4_STATE_FINISHED then ⟨OTR4_ERROR, to_send, otr⟩
  else if otr.state ≠ otrv4_state.OTRV4_STATE_ENCRYPTED_MESSAGES then
    ⟨OTR4_STATE_NOT_ENCRYPTED, to_send, otr⟩
  else
    match append_tlvs message tlvs with
    | none => ⟨OTR4_ERROR, to_send, otr⟩
    | some (msg, msg_len) => send_data_message env to_send msg msg_len otr

/-- The function `otrv4_send_message`, for a conversation that is not `NULL`. -/
def otrv4_send_message (env : collaborators) (to_send : Option (List Char))
    (message : List Char) (tlvs : List tlv_t) (otr : otrv4_t) : dst_result :=
  match otr.running_version with
  | otrv4_version.OTRV4_VERSION_3 =>
    match env.otrv3_send_message to_send message tlvs otr.otr3_conn with
    | (err, dst, conn) => ⟨err, dst, { otr with otr3_conn := conn }⟩
  | otrv4_version.OTRV4_VERSION_4 => send_otrv4_message env to_send message tlvs otr
  | otrv4_version.OTRV4_VERSION_NONE => ⟨OTR4_ERROR, to_send, otr⟩

/-- The function `forget_our_keys`. -/
def forget_our_keys (env : collaborators) (otr : otrv4_t) : otrv4_t :=
  { otr with keys := env.key_manager_init (env.key_manager_destroy otr.keys) }

/-- The function `otrv4_close`. -/
def otrv4_close (env : collaborators) (to_send : Option (List Char)) (otr : otrv4_t) :
    dst_result :=
  if otr.state ≠ otrv4_state.OTRV4_STATE_ENCRYPTED_MESSAGES then
    ⟨OTR4_SUCCESS, to_send, otr⟩
  else
    let disconnected := otrv4_disconnected_tlv_new
    if disconnected = [] then ⟨OTR4_ERROR, to_send, otr⟩
    else
      let r := otrv4_send_message env to_send [] disconnected otr
      let err := if r.err = OTR4_SUCCESS then OTR4_SUCCESS else OTR4_ERROR
      let otr := forget_our_keys env r.otr
      let otr := { otr with state := otrv4_state.OTRV4_STATE_START }
      ⟨err, r.dst, gone_insecure_cb otr⟩

/-! ## `otrv4.c`: the key exchange -/

/-- The function `otrng_deserialize_uint16` of `deserialize.c`: `none` is
`OTRNG_ERROR`, otherwise the value written to `*n` and the count written to
`*nread`. -/
def otrng_deserialize_uint16 (buffer : List Nat) (buff_len : Nat) : Option (Nat × Nat) :=
  if buff_len < 2 then none
  else some ((buffer.getD 1 0 ||| (buffer.getD 0 0 <<< 8)) % 2 ^ 16, 2)

/-- The function `otrng_deserialize_uint8` of `deserialize.c`. -/
def otrng_deserialize_uint8 (buffer : List Nat) (buff_len : Nat) : Option (Nat × Nat) :=
  if buff_len < 1 then none
  else some (buffer.getD 0 0, 1)

/-- Modelled from the spec: `deserialize_uint16`, which `otrv4.c` calls, is the
earlier name of `otrng_deserialize_uint16`; it reports failure by a non-zero
return, here `none`. -/
def deserialize_uint16 (buffer : List Nat) (buff_len : Nat) : Option (Nat × Nat) :=
  otrng_deserialize_uint16 buffer buff_len

/-- Modelled from the spec: `deserialize_uint8`, the earlier name of
`otrng_deserialize_uint8`. -/
def deserialize_uint8 (buffer : List Nat) (buff_len : Nat) : Option (Nat × Nat) :=
  otrng_deserialize_uint8 buffer buff_len

/-- The function `extract_header`: `none` is `OTR4_ERROR`. The subtraction
`bufflen - read` is only reached with `read = 2 ≤ bufflen`. -/
def extract_header (buffer : List Nat) (bufflen : Nat) : Option otrv4_header_t :=
  match deserialize_uint16 buffer bufflen with
  | none => none
  | some (version, read) =>
    let buffer := buffer.drop read
    match deserialize_uint8 buffer (bufflen - read) with
    | none => none
    | some (type, _) =>
      let dst_version :=
        if version = 0x04 then OTRV4_ALLOW_V4
        else if version = 0x03 then OTRV4_ALLOW_V3
        else OTRV4_ALLOW_NONE
      some ⟨dst_version, type⟩

/-- The function `double_ratcheting_init`. -/
def double_ratcheting_init (env : collaborators) (j : Int) (otr : otrv4_t) :
    otr4_err_t × otrv4_t :=
  let r := env.key_manager_ratchetting_init j otr.keys
  let otr := { otr with keys := r.2 }
  if r.1 then (OTR4_ERROR, otr)
  else
    let otr := { otr with state := otrv4_state.OTRV4_STATE_ENCRYPTED_MESSAGES }
    (OTR4_SUCCESS, gone_secure_cb otr)

/-- The function `build_auth_message`: `none` is `OTR4_ERROR`, otherwise the
bytes of `*msg`; the allocation of the few hundred bytes is taken to succeed. -/
def build_auth_message (env : collaborators) (type : Nat)
    (i_profile r_profile : Option user_profile_t) (i_ecdh r_ecdh : List Nat)
    (i_dh r_dh : Nat) : Option (List Nat) :=
  match env.serialize_ec_point i_ecdh with
  | none => none
  | some ser_i_ecdh =>
    match env.serialize_ec_point r_ecdh with
    | none => none
    | some ser_r_ecdh =>
      match env.serialize_dh_public_key i_dh with
      | none => none
      | some ser_i_dh =>
        match env.serialize_dh_public_key r_dh with
        | none => none
        | some ser_r_dh =>
          match env.user_profile_asprintf i_profile with
          | none => none
          | some ser_i_profile =>
            match env.user_profile_asprintf r_profile with
            | none => none
            | some ser_r_profile =>
              some ([type] ++ ser_i_profile ++ ser_r_profile ++ ser_i_ecdh ++
                ser_r_ecdh ++ ser_i_dh ++ ser_r_dh)

/-- The function `serialize_and_encode_auth_r`: the return code and `*dst`. -/
def serialize_and_encode_auth_r (env : collaborators) (dst : Option (List Char))
    (m : dake_auth_r_t) : otr4_err_t × Option (List Char) :=
  match env.dake_auth_r_asprintf m with
  | none => (OTR4_ERROR, dst)
  | some buff => (OTR4_SUCCESS, some (env.otrl_base64_otr_encode buff))

/-- The function `reply_with_auth_r_msg`: the return code and `*dst`; `none`
when `otr->their_profile` is `NULL` where its `pub_key` is read. -/
def reply_with_auth_r_msg (env : collaborators) (dst : Option (List Char))
    (otr : otrv4_t) : Option (otr4_err_t × Option (List Char)) :=
  match build_auth_message env 0 otr.their_profile otr.profile otr.keys.their_ecdh
      otr.keys.our_ecdh otr.keys.their_dh otr.keys.our_dh with
  | none => some (OTR4_ERROR, dst)
  | some t =>
    match otr.their_profile with
    | none => none
    | some their =>
      match env.snizkpk_authenticate otr.keypair their.pub_key otr.keys.their_ecdh t with
      | none => some (OTR4_ERROR, dst)
      | some sigma =>
        let msg : dake_auth_r_t :=
          { sender_instance_tag := otr.our_instance_tag,
            receiver_instance_tag := otr.their_instance_tag,
            profile := env.user_profile_copy otr.profile,
            X := otr.keys.our_ecdh, A := otr.keys.our_dh, sigma := sigma }
        some (serialize_and_encode_auth_r env dst msg)

/-- The function `receive_identity_message_on_state_start`; the allocation of
`otr->their_profile` is taken to succeed. -/
def receive_identity_message_on_state_start (env : collaborators)
    (dst : Option (List Char)) (identity_message : dake_identity_message_t)
    (otr : otrv4_t) : Option dst_result :=
  if ¬ env.valid_dake_identity_message identity_message then some ⟨OTR4_ERROR, dst, otr⟩
  else
    let otr := { otr with
      keys := env.key_manager_set_their_ecdh identity_message.Y otr.keys }
    let otr := { otr with
      keys := env.key_manager_set_their_dh identity_message.B otr.keys }
    let otr := { otr with
      their_profile := some (env.user_profile_copy (some identity_message.profile)) }
    let otr := { otr with keys := env.key_manager_generate_ephemeral_keys otr.keys }
    match reply_with_auth_r_msg env dst otr with
    | none => none
    | some r =>
      if r.1 ≠ OTR4_SUCCESS then some ⟨OTR4_ERROR, r.2, otr⟩
      else some ⟨OTR4_SUCCESS, r.2, { otr with state := otrv4_state.OTRV4_STATE_WAITING_AUTH_I }⟩

/-- The function `receive_identity_message_while_in_progress`. -/
def receive_identity_message_while_in_progress (env : collaborators)
    (dst : Option (List Char)) (msg : dake_identity_message_t) (otr : otrv4_t) :
    Option dst_result :=
  match env.gcry_mpi_scan_our_dh otr.keys.our_dh, env.gcry_mpi_scan_point msg.Y with
  | some x, some y =>
    -- gcry_mpi_cmp(x, y) < 0
    if x < y then some ⟨OTR4_SUCCESS, dst, otr⟩
    else receive_identity_message_on_state_start env dst msg (forget_our_keys env otr)
  | _, _ => some ⟨OTR4_ERROR, dst, otr⟩

/-- The function `received_instance_tag`. -/
def received_instance_tag (their_instance_tag : Nat) (otr : otrv4_t) : otrv4_t :=
  { otr with their_instance_tag := their_instance_tag }

/-- The function `receive_identity_message`. -/
def receive_identity_message (env : collaborators) (dst : Option (List Char))
    (buff : List Nat) (buflen : Nat) (otr : otrv4_t) : Option dst_result :=
  match env.dake_identity_message_deserialize buff buflen with
  | none => some ⟨OTR4_ERROR, dst, otr⟩
  | some m =>
    let otr := received_instance_tag m.sender_instance_tag otr
    if ¬ env.valid_received_values m.Y m.B m.profile then some ⟨OTR4_ERROR, dst, otr⟩
    else
      match otr.state with
      | otrv4_state.OTRV4_STATE_START =>
        receive_identity_message_on_state_start env dst m otr
      | otrv4_state.OTRV4_STATE_WAITING_AUTH_R =>
        receive_identity_message_while_in_progress env dst m otr
      | otrv4_state.OTRV4_STATE_WAITING_AUTH_I => some ⟨OTR4_ERROR, dst, otr⟩
      | otrv4_state.OTRV4_STATE_NONE => some ⟨OTR4_SUCCESS, dst, otr⟩
      | otrv4_state.OTRV4_STATE_AKE_IN_PROGRESS => some ⟨OTR4_SUCCESS, dst, otr⟩
      | otrv4_state.OTRV4_STATE_ENCRYPTED_MESSAGES => some ⟨OTR4_SUCCESS, dst, otr⟩
      | otrv4_state.OTRV4_STATE_FINISHED => some ⟨OTR4_SUCCESS, dst, otr⟩

/-- The function `serialize_and_encode_auth_i`: the return code and `*dst`. -/
def serialize_and_encode_auth_i (env : collaborators) (dst : Option (List Char))
    (m : dake_auth_i_t) : otr4_err_t × Option (List Char) :=
  match env.dake_auth_i_asprintf m with
  | none => (OTR4_ERROR, dst)
  | some buff => (OTR4_SUCCESS, some (env.otrl_base64_otr_encode buff))

/-- The function `reply_with_auth_i_msg`: the return code and `*dst`; `none`
when `their` is `NULL` where its `pub_key` is read. -/
def reply_with_auth_i_msg (env : collaborators) (dst : Option (List Char))
    (their : Option user_profile_t) (otr : otrv4_t) :
    Option (otr4_err_t × Option (List Char)) :=
  match build_auth_message env 1 otr.profile their otr.keys.our_ecdh otr.keys.their_ecdh
      otr.keys.our_dh otr.keys.their_dh with
  | none => some (OTR4_ERROR, dst)
  | some t =>
    match their with
    | none => none
    | some profile =>
      match env.snizkpk_authenticate otr.keypair profile.pub_key otr.keys.their_ecdh t with
      | none => some (OTR4_ERROR, dst)
      | some sigma =>
        let msg : dake_auth_i_t :=
          { sender_instance_tag := otr.our_instance_tag,
            receiver_instance_tag := otr.their_instance_tag,
            sigma := sigma }
        some (serialize_and_encode_auth_i env dst msg)

/-- The function `valid_auth_r_message`. -/
def valid_auth_r_message (env : collaborators) (auth : dake_auth_r_t) (otr : otrv4_t) :
    Bool :=
  if ¬ env.valid_received_values auth.X auth.A auth.profile then false
  else
    match build_auth_message env 0 otr.profile (some auth.profile) otr.keys.our_ecdh
        auth.X otr.keys.our_dh auth.A with
    | none => false
    | some t =>
      decide (env.snizkpk_verify auth.sigma auth.profile.pub_key otr.keypair.pub
        otr.keys.our_ecdh t = OTR4_SUCCESS)

/-- The function `receive_auth_r`. -/
def receive_auth_r (env : collaborators) (dst : Option (List Char)) (buff : List Nat)
    (buff_len : Nat) (otr : otrv4_t) : Option dst_result :=
  if otr.state ≠ otrv4_state.OTRV4_STATE_WAITING_AUTH_R then some ⟨OTR4_SUCCESS, dst, otr⟩
  else
    match env.dake_auth_r_deserialize buff buff_len with
    | none => some ⟨OTR4_ERROR, dst, otr⟩
    | some auth =>
      let otr := received_instance_tag auth.sender_instance_tag otr
      if ¬ valid_auth_r_message env auth otr then some ⟨OTR4_ERROR, dst, otr⟩
      else
        let otr := { otr with keys := env.key_manager_set_their_ecdh auth.X otr.keys }
        let otr := { otr with keys := env.key_manager_set_their_dh auth.A otr.keys }
        let otr := { otr with
          their_profile := some (env.user_profile_copy (some auth.profile)) }
        match reply_with_auth_i_msg env dst otr.their_profile otr with
        | none => none
        | some r =>
          if r.1 ≠ OTR4_SUCCESS then some ⟨OTR4_ERROR, r.2, otr⟩
          else
            match otr.their_profile with
            | none => none
            | some their =>
              let fp := env.otr4_serialize_fingerprint their.pub_key
              let otr := if ¬ fp.1 then fingerprint_seen_cb fp.2 otr else otr
              let d := double_ratcheting_init env 0 otr
              some ⟨d.1, r.2, d.2⟩

/-- The function `valid_auth_i_message`; `none` when `otr->their_profile` is
`NULL` where its `pub_key` is read. -/
def valid_auth_i_message (env : collaborators) (auth : dake_auth_i_t) (otr : otrv4_t) :
    Option Bool :=
  match build_auth_message env 1 otr.their_profile otr.profile otr.keys.their_ecdh
      otr.keys.our_ecdh otr.keys.their_dh otr.keys.our_dh with
  | none => some false
  | some t =>
    match otr.their_profile with
    | none => none
    | some their =>
      some (decide (env.snizkpk_verify auth.sigma their.pub_key otr.keypair.pub
        otr.keys.our_ecdh t = OTR4_SUCCESS))

/-- The function `receive_auth_i`. -/
def receive_auth_i (env : collaborators) (dst : Option (List Char)) (buff : List Nat)
    (buff_len : Nat) (otr : otrv4_t) : Option dst_result :=
  if otr.state ≠ otrv4_state.OTRV4_STATE_WAITING_AUTH_I then some ⟨OTR4_SUCCESS, dst, otr⟩
  else
    match env.dake_auth_i_deserialize buff buff_len with
    | none => some ⟨OTR4_ERROR, dst, otr⟩
    | some auth =>
      match valid_auth_i_message env auth otr with
      | none => none
      | some false => some ⟨OTR4_ERROR, dst, otr⟩
      | some true =>
        match otr.their_profile with
        | none => none
        | some their =>
          let fp := env.otr4_serialize_fingerprint their.pub_key
          let otr := if ¬ fp.1 then fingerprint_seen_cb fp.2 otr else otr
          let d := double_ratcheting_init env 1 otr
          some ⟨d.1, dst, d.2⟩

/-! ## `otrv4.c`: data messages and the entry point for inbound messages -/

/-- The function `extract_tlvs` (its `tlvs` argument is never `NULL`): the
chain left in `*tlvs`. -/
def extract_tlvs (env : collaborators) (tlvs : List tlv_t) (src : List Nat) (len : Nat) :
    List tlv_t :=
  -- memchr(src, 0, len)
  let start := ((src.take len).takeWhile (fun b => b ≠ 0)).length
  if start = (src.take len).length then tlvs
  else
    let tlvs_len := len - (start + 1)
    env.otrv4_parse_tlvs (src.drop (start + 1)) tlvs_len

/-- The function `decrypt_data_msg`: the return code and the response. -/
def decrypt_data_msg (env : collaborators) (response : otrv4_response_t)
    (enc_key : List Nat) (msg : data_message_t) : otr4_err_t × otrv4_response_t :=
  if PTRDIFF_MAX < msg.enc_msg_len then (OTR4_ERROR, response)
  else
    let r := env.crypto_stream_xor msg.enc_msg msg.enc_msg_len msg.nonce enc_key
    let plain := r.2
    -- the string that starts at `plain`, at most `enc_msg_len` long
    let str := (plain.take msg.enc_msg_len).takeWhile (fun b => b ≠ 0)
    let response :=
      if str.length ≠ 0 then
        { response with
          to_display := otrv4_strndup (some (str.map Char.ofNat)) msg.enc_msg_len }
      else response
    let response :=
      { response with tlvs := extract_tlvs env response.tlvs plain msg.enc_msg_len }
    if r.1 = 0 then (OTR4_SUCCESS, response) else (OTR4_ERROR, response)

/-- The function `otrv4_process_smp`: the chain to send and the conversation. -/
def otrv4_process_smp (env : collaborators) (otr : otrv4_t) (tlv : tlv_t) :
    List tlv_t × otrv4_t :=
  let r : otr4_smp_event_t × List tlv_t × otrv4_t :=
    if tlv.type = OTRV4_TLV_SMP_MSG_1 then
      let p := env.process_smp_msg1 tlv otr.smp
      (p.1, [], { otr with smp := p.2 })
    else if tlv.type = OTRV4_TLV_SMP_MSG_2 then
      let p := env.process_smp_msg2 tlv otr.smp
      (p.1, p.2.1, { otr with smp := p.2.2 })
    else if tlv.type = OTRV4_TLV_SMP_MSG_3 then
      let p := env.process_smp_msg3 tlv otr.smp
      (p.1, p.2.1, { otr with smp := p.2.2 })
    else if tlv.type = OTRV4_TLV_SMP_MSG_4 then
      let p := env.process_smp_msg4 tlv otr.smp
      (p.1, [], { otr with smp := p.2 })
    else if tlv.type = OTRV4_TLV_SMP_ABORT then
      (otr4_smp_event_t.OTRV4_SMPEVENT_ABORT, otrv4_tlv_new OTRV4_TLV_SMP_ABORT 0 [],
        { otr with smp := { otr.smp with state := smp_state_t.SMPSTATE_EXPECT1 } })
    else (otr4_smp_event_t.OTRV4_SMPEVENT_NONE, [], otr)
  let event :=
    if r.1 = otr4_smp_event_t.OTRV4_SMPEVENT_NONE then
      otr4_smp_event_t.OTRV4_SMPEVENT_IN_PROGRESS
    else r.1
  let otr := r.2.2
  let question :=
    match otr.smp.msg1 with
    | some msg1 => msg1.question
    | none => none
  (r.2.1, handle_smp_event_cb event otr.smp.progress question otr)

/-- The function `process_tlv`: the chain returned (`[]` is `NULL`) and the
conversation. -/
def process_tlv (env : collaborators) (tlv : tlv_t) (otr : otrv4_t) :
    List tlv_t × otrv4_t :=
  if tlv.type = OTRV4_TLV_PADDING then ([], otr)
  else if tlv.type = OTRV4_TLV_DISCONNECTED then
    let otr := forget_our_keys env otr
    let otr := { otr with state := otrv4_state.OTRV4_STATE_FINISHED }
    ([], gone_insecure_cb otr)
  else if tlv.type = OTRV4_TLV_SMP_MSG_1 ∨ tlv.type = OTRV4_TLV_SMP_MSG_2 ∨
      tlv.type = OTRV4_TLV_SMP_MSG_3 ∨ tlv.type = OTRV4_TLV_SMP_MSG_4 ∨
      tlv.type = OTRV4_TLV_SMP_ABORT then
    otrv4_process_smp env otr tlv
  else ([], otr)

/-- The loop of `receive_tlvs` from the record `current` on: the cursor and the
conversation at the end. -/
def receive_tlvs_loop (env : collaborators) :
    List tlv_t → List tlv_t → otrv4_t → List tlv_t × otrv4_t
  | [], cursor, otr => (cursor, otr)
  | current :: rest, cursor, otr =>
    let r := process_tlv env current otr
    if r.1 = [] then receive_tlvs_loop env rest cursor r.2
    else receive_tlvs_loop env rest r.1 r.2

/-- The function `receive_tlvs`: the return code, `*to_send` and the
conversation. -/
def receive_tlvs (env : collaborators) (response : otrv4_response_t) (otr : otrv4_t) :
    otr4_err_t × List tlv_t × otrv4_t :=
  let r := receive_tlvs_loop env response.tlvs [] otr
  (OTR4_SUCCESS, r.1, r.2)

/-- The function `get_receiving_msg_keys`: the return code, the two keys and the
conversation. -/
def get_receiving_msg_keys (env : collaborators) (msg : data_message_t) (otr : otrv4_t) :
    otr4_err_t × List Nat × List Nat × otrv4_t :=
  let e := env.key_manager_ensure_on_ratchet msg.ratchet_id otr.keys
  let otr := { otr with keys := e.2 }
  if ¬ e.1 then (OTR4_ERROR, [], [], otr)
  else
    let k := env.key_manager_retrieve_receiving_message_keys msg.ratchet_id
      msg.message_id otr.keys
    let otr := { otr with keys := k.2.2.2 }
    if k.1 then (OTR4_ERROR, k.2.1, k.2.2.1, otr)
    else (OTR4_SUCCESS, k.2.1, k.2.2.1, otr)

/-- The function `otrv4_receive_data_message`. -/
def otrv4_receive_data_message (env : collaborators) (response : otrv4_response_t)
    (buff : List Nat) (buflen : Nat) (otr : otrv4_t) : receive_result :=
  if otr.state ≠ otrv4_state.OTRV4_STATE_ENCRYPTED_MESSAGES then ⟨OTR4_ERROR, response, otr⟩
  else
    match env.data_message_deserialize env.data_message_new buff buflen with
    | none => ⟨OTR4_ERROR, response, otr⟩
    | some msg =>
      let otr := { otr with keys := env.key_manager_set_their_keys msg.ecdh msg.dh otr.keys }
      let g := get_receiving_msg_keys env msg otr
      let enc_key := g.2.1
      let mac_key := g.2.2.1
      let otr := g.2.2.2
      if g.1 ≠ OTR4_SUCCESS then ⟨OTR4_ERROR, response, otr⟩
      else if ¬ env.valid_data_message mac_key msg then ⟨OTR4_ERROR, response, otr⟩
      else
        let d := decrypt_data_msg env response enc_key msg
        let response := d.2
        if d.1 ≠ OTR4_SUCCESS then ⟨OTR4_ERROR, response, otr⟩
        else
          let t := receive_tlvs env response otr
          let reply_tlv := t.2.1
          let otr := t.2.2
          if t.1 ≠ OTR4_SUCCESS then ⟨OTR4_ERROR, response, otr⟩
          else
            let otr := { otr with keys := env.key_manager_prepare_to_ratchet otr.keys }
            let s : dst_result :=
              if reply_tlv ≠ [] then otrv4_send_message env response.to_send [] reply_tlv otr
              else ⟨OTR4_SUCCESS, response.to_send, otr⟩
            let response := { response with to_send := s.dst }
            let otr := s.otr
            if s.err ≠ OTR4_SUCCESS then ⟨OTR4_ERROR, response, otr⟩
            else
              let to_store_mac := mac_key.take MAC_KEY_BYTES
              ⟨OTR4_SUCCESS, response,
                { otr with
                  keys := { otr.keys with
                    old_mac_keys := env.list_add to_store_mac otr.keys.old_mac_keys } }⟩

/-- Wraps the string result of a key-exchange step into a response. -/
def with_to_send (response : otrv4_response_t) (r : Option dst_result) :
    Option receive_result :=
  match r with
  | none => none
  | some d => some ⟨d.err, { response with to_send := d.dst }, d.otr⟩

/-- The function `receive_decoded_message`; `none` when a step reads through a
`NULL` pointer. -/
def receive_decoded_message (env : collaborators) (response : otrv4_response_t)
    (decoded : List Nat) (dec_len : Nat) (otr : otrv4_t) : Option receive_result :=
  match extract_header decoded dec_len with
  | none => some ⟨OTR4_ERROR, response, otr⟩
  | some header =>
    if allow_version otr header.version = 0 then some ⟨OTR4_ERROR, response, otr⟩
    else if header.version ≠ OTRV4_ALLOW_V4 then some ⟨OTR4_ERROR, response, otr⟩
    else if header.type = OTR_IDENTITY_MSG_TYPE then
      let otr := { otr with running_version := otrv4_version.OTRV4_VERSION_4 }
      with_to_send response (receive_identity_message env response.to_send decoded dec_len otr)
    else if header.type = OTR_AUTH_R_MSG_TYPE then
      with_to_send response (receive_auth_r env response.to_send decoded dec_len otr)
    else if header.type = OTR_AUTH_I_MSG_TYPE then
      with_to_send response (receive_auth_i env response.to_send decoded dec_len otr)
    else if header.type = OTR_DATA_MSG_TYPE then
      some (otrv4_receive_data_message env response decoded dec_len otr)
    else some ⟨OTR4_ERROR, response, otr⟩

/-- The function `receive_encoded_message`. -/
def receive_encoded_message (env : collaborators) (response : otrv4_response_t)
    (message : List Char) (otr : otrv4_t) : Option receive_result :=
  match env.otrl_base64_otr_decode message with
  | none => some ⟨OTR4_ERROR, response, otr⟩
  | some decoded => receive_decoded_message env response decoded decoded.length otr

/-- The function `get_message_type`. -/
def get_message_type (message : List Char) : otrv4_in_message_type_t :=
  if message_contains_tag message then otrv4_in_message_type_t.IN_MSG_TAGGED_PLAINTEXT
  else if message_is_query message then otrv4_in_message_type_t.IN_MSG_QUERY_STRING
  else if message_is_otr_encoded message then otrv4_in_message_type_t.IN_MSG_OTR_ENCODED
  else otrv4_in_message_type_t.IN_MSG_PLAINTEXT

/-- The function `receive_message_v4_only`. -/
def receive_message_v4_only (env : collaborators) (response : otrv4_response_t)
    (message : List Char) (otr : otrv4_t) : Option receive_result :=
  match get_message_type message with
  | otrv4_in_message_type_t.IN_MSG_NONE => some ⟨OTR4_ERROR, response, otr⟩
  | otrv4_in_message_type_t.IN_MSG_PLAINTEXT =>
    some ⟨OTR4_SUCCESS, receive_plaintext response message otr, otr⟩
  | otrv4_in_message_type_t.IN_MSG_TAGGED_PLAINTEXT =>
    some (receive_tagged_plaintext env response message otr)
  | otrv4_in_message_type_t.IN_MSG_QUERY_STRING =>
    some (receive_query_message env response message otr)
  | otrv4_in_message_type_t.IN_MSG_OTR_ENCODED =>
    receive_encoded_message env response message otr

/-- The function `otrv4_receive_message`, for arguments that are not `NULL`;
`none` when a step reads through a `NULL` pointer. -/
def otrv4_receive_message (env : collaborators) (response : otrv4_response_t)
    (message : List Char) (otr : otrv4_t) : Option receive_result :=
  let response := set_to_display response none 0
  let response := { response with to_send := none }
  let otr :=
    if otr.running_version = otrv4_version.OTRV4_VERSION_NONE ∧
        allow_version otr OTRV4_ALLOW_V3 ≠ 0 ∧
        strstr message ['?', 'O', 'T', 'R', ':', 'A', 'A', 'M', 'C'] = true then
      { otr with running_version := otrv4_version.OTRV4_VERSION_3 }
    else otr
  match otr.running_version with
  | otrv4_version.OTRV4_VERSION_3 => some (call_otrv3_receive_message env response message otr)
  | otrv4_version.OTRV4_VERSION_4 => receive_message_v4_only env response message otr
  | otrv4_version.OTRV4_VERSION_NONE => receive_message_v4_only env response message otr

/-! ## `deserialize.c` -/

/-- Result code of the functions of `deserialize.c` and `prekey_client.c`. -/
inductive otrng_result where
  | OTRNG_ERROR
  | OTRNG_SUCCESS
  deriving DecidableEq, Repr

/-- The function `otrng_deserialize_uint32`: `none` is `OTRNG_ERROR`, otherwise
the value written to `*n` and the count written to `*nread`. Each shift is
made on a `uint32_t`. -/
def otrng_deserialize_uint32 (buffer : List Nat) (buff_len : Nat) : Option (Nat × Nat) :=
  if buff_len < 4 then none
  else
    some ((buffer.getD 3 0 % 2 ^ 32 ||| (buffer.getD 2 0 <<< 8) % 2 ^ 32 |||
      (buffer.getD 1 0 <<< 16) % 2 ^ 32 ||| (buffer.getD 0 0 <<< 24) % 2 ^ 32), 4)

/-- The function `otrng_deserialize_uint64`. Each shift is made on a
`uint64_t`. -/
def otrng_deserialize_uint64 (buffer : List Nat) (buff_len : Nat) : Option (Nat × Nat) :=
  if buff_len < 8 then none
  else
    some ((buffer.getD 7 0 % 2 ^ 64 ||| (buffer.getD 6 0 <<< 8) % 2 ^ 64 |||
      (buffer.getD 5 0 <<< 16) % 2 ^ 64 ||| (buffer.getD 4 0 <<< 24) % 2 ^ 64 |||
      (buffer.getD 3 0 <<< 32) % 2 ^ 64 ||| (buffer.getD 2 0 <<< 40) % 2 ^ 64 |||
      (buffer.getD 1 0 <<< 48) % 2 ^ 64 ||| (buffer.getD 0 0 <<< 56) % 2 ^ 64), 8)

/-- What `otrng_deserialize_data` returns and leaves in `*dst`, `*dst_len` and
`*read`. -/
structure deserialize_data_t where
  result : otrng_result
  dst : Option (List Nat)
  dst_len : Nat
  read : Nat
  deriving DecidableEq, Repr

/-- The function `otrng_deserialize_data`, called with pointers that are not
`NULL`; `dst` and `dst_len` are the values that `*dst` and `*dst_len` hold on
entry. `otrng_xmalloc_z` (`alloc.h`) returns a zeroed block. The subtraction
and the addition are made on `size_t`. -/
def otrng_deserialize_data (dst : Option (List Nat)) (dst_len : Nat) (buffer : List Nat)
    (buff_len : Nat) : deserialize_data_t :=
  let r := 0
  match otrng_deserialize_uint32 buffer buff_len with
  | none => ⟨otrng_result.OTRNG_ERROR, dst, dst_len, r⟩
  | some (s, r) =>
    if s = 0 then ⟨otrng_result.OTRNG_SUCCESS, dst, dst_len, r⟩
    else
      let buff_len := to_size_t ((buff_len : Int) - (r : Int))
      if buff_len < s then ⟨otrng_result.OTRNG_ERROR, dst, dst_len, r⟩
      else
        -- t = otrng_xmalloc_z(s); memcpy(t, buffer + r, s)
        let t := (buffer.drop r).take s
        ⟨otrng_result.OTRNG_SUCCESS, some t, s, to_size_t ((r : Int) + (s : Int))⟩

/-- The function `otrng_deserialize_bytes_array`: `none` is `OTRNG_ERROR`,
otherwise the `dst_len` bytes copied to `dst`. -/
def otrng_deserialize_bytes_array (dst_len : Nat) (buffer : List Nat) (buff_len : Nat) :
    Option (List Nat) :=
  if buff_len < dst_len then none
  else some (buffer.take dst_len)

/-- Modelled from the spec: `ED448_POINT_BYTES` (`ed448.h`, absent from the
sources), the 57 bytes of a compressed point. -/
def ED448_POINT_BYTES : Nat := 57

/-- Modelled from the spec: `ED448_PUBKEY_BYTES`, a 2-byte type tag and a
point. -/
def ED448_PUBKEY_BYTES : Nat := 2 + ED448_POINT_BYTES

/-- Modelled from the spec: `ED448_SHARED_PREKEY_BYTES`, a 2-byte type tag and
a point. -/
def ED448_SHARED_PREKEY_BYTES : Nat := 2 + ED448_POINT_BYTES

/-- Modelled from the spec: `ED448_PUBKEY_TYPE`, the tag 0x0010 of an identity
key. -/
def ED448_PUBKEY_TYPE : Nat := 0x0010

/-- Modelled from the spec: `ED448_FORGINGKEY_TYPE`, the tag 0x0011 of a
forging key. -/
def ED448_FORGINGKEY_TYPE : Nat := 0x0011

/-- Modelled from the spec: `ED448_SHARED_PREKEY_TYPE`, the tag 0x0012 of a
shared prekey. -/
def ED448_SHARED_PREKEY_TYPE : Nat := 0x0012

/-- The function `otrng_deserialize_ec_point`: `none` is `OTRNG_ERROR`,
otherwise the point. `otrng_ec_point_decode` (`ed448.c`, absent from the
sources) is a parameter: it is given the `ED448_POINT_BYTES` bytes it reads and
answers `none` when it refuses them. -/
def otrng_deserialize_ec_point (otrng_ec_point_decode : List Nat → Option (List Nat))
    (ser : List Nat) (ser_len : Nat) : Option (List Nat) :=
  if ser_len < ED448_POINT_BYTES then none
  else otrng_ec_point_decode (ser.take ED448_POINT_BYTES)

/-- The function `otrng_deserialize_public_key`: `none` is `OTRNG_ERROR`,
otherwise the point and the value written to `*read`. -/
def otrng_deserialize_public_key (otrng_ec_point_decode : List Nat → Option (List Nat))
    (ser : List Nat) (ser_len : Nat) : Option (List Nat × Nat) :=
  let cursor := ser
  if ser_len < ED448_PUBKEY_BYTES then none
  else
    match otrng_deserialize_uint16 cursor ser_len with
    | none => none
    | some (pubkey_type, r) =>
      let cursor := cursor.drop r
      let ser_len := to_size_t ((ser_len : Int) - (r : Int))
      if ED448_PUBKEY_TYPE ≠ pubkey_type then none
      else
        match otrng_deserialize_ec_point otrng_ec_point_decode cursor ser_len with
        | none => none
        | some pub => some (pub, ED448_PUBKEY_BYTES)

/-- The function `otrng_deserialize_forging_key`. -/
def otrng_deserialize_forging_key (otrng_ec_point_decode : List Nat → Option (List Nat))
    (ser : List Nat) (ser_len : Nat) : Option (List Nat × Nat) :=
  let cursor := ser
  if ser_len < ED448_PUBKEY_BYTES then none
  else
    match otrng_deserialize_uint16 cursor ser_len with
    | none => none
    | some (pubkey_type, r) =>
      let cursor := cursor.drop r
      let ser_len := to_size_t ((ser_len : Int) - (r : Int))
      if ED448_FORGINGKEY_TYPE ≠ pubkey_type then none
      else
        match otrng_deserialize_ec_point otrng_ec_point_decode cursor ser_len with
        | none => none
        | some pub => some (pub, ED448_PUBKEY_BYTES)

/-- The function `otrng_deserialize_shared_prekey`. -/
def otrng_deserialize_shared_prekey (otrng_ec_point_decode : List Nat → Option (List Nat))
    (ser : List Nat) (ser_len : Nat) : Option (List Nat × Nat) :=
  let cursor := ser
  if ser_len < ED448_PUBKEY_BYTES then none
  else
    match otrng_deserialize_uint16 cursor ser_len with
    | none => none
    | some (shared_prekey_type, r) =>
      let cursor := cursor.drop r
      let ser_len := to_size_t ((ser_len : Int) - (r : Int))
      if ED448_SHARED_PREKEY_TYPE ≠ shared_prekey_type then none
      else
        match otrng_deserialize_ec_point otrng_ec_point_decode cursor ser_len with
        | none => none
        | some shared_prekey => some (shared_prekey, ED448_SHARED_PREKEY_BYTES)

/-! ## `prekey_client.c`: types and collaborators -/

/-- The macro `OTRNG_PREKEY_CLIENT_MALFORMED_MSG`. -/
def OTRNG_PREKEY_CLIENT_MALFORMED_MSG : Nat := 1

/-- The macro `OTRNG_PREKEY_CLIENT_INVALID_DAKE2`. -/
def OTRNG_PREKEY_CLIENT_INVALID_DAKE2 : Nat := 2

/-- The macro `OTRNG_PREKEY_CLIENT_INVALID_STORAGE_STATUS`. -/
def OTRNG_PREKEY_CLIENT_INVALID_STORAGE_STATUS : Nat := 3

/-- The macro `OTRNG_PREKEY_CLIENT_INVALID_SUCCESS`. -/
def OTRNG_PREKEY_CLIENT_INVALID_SUCCESS : Nat := 4

/-- The macro `OTRNG_PREKEY_CLIENT_INVALID_FAILURE`. -/
def OTRNG_PREKEY_CLIENT_INVALID_FAILURE : Nat := 5

/-- Modelled from the spec: `OTRNG_PROTOCOL_VERSION_4` (`prekey_client.h` and
the other headers are absent from the sources), the wire version 0x0004. -/
def OTRNG_PROTOCOL_VERSION_4 : Nat := 0x0004

/-- Modelled from the spec: message type 0x09 DAKE2. -/
def OTRNG_PREKEY_DAKE2_MSG : Nat := 0x09

/-- Modelled from the spec: message type 0x0A DAKE3. -/
def OTRNG_PREKEY_DAKE3_MSG : Nat := 0x0A

/-- Modelled from the spec: message type 0x0B storage status. -/
def OTRNG_PREKEY_STORAGE_STATUS_MSG : Nat := 0x0B

/-- Modelled from the spec: message type 0x0C success. -/
def OTRNG_PREKEY_SUCCESS_MSG : Nat := 0x0C

/-- Modelled from the spec: message type 0x0D failure. -/
def OTRNG_PREKEY_FAILURE_MSG : Nat := 0x0D

/-- Modelled from the spec: message type 0x0E no prekey in storage. -/
def OTRNG_PREKEY_NO_PREKEY_IN_STORAGE_MSG : Nat := 0x0E

/-- Modelled from the spec: message type 0x0F prekey ensemble retrieval. -/
def OTRNG_PREKEY_ENSEMBLE_RETRIEVAL_MSG : Nat := 0x0F

/-- Modelled from the spec: message type 0x13 storage information request. -/
def OTRNG_PREKEY_STORAGE_INFO_REQ_MSG : Nat := 0x13

/-- Modelled from the spec: `HASH_BYTES`, the 64 bytes of a KDF output. -/
def HASH_BYTES : Nat := 64

/-- Modelled from the spec: `OTRNG_PREKEY_SUCCESS_MSG_LEN`, the length of a
success message: version, type, instance tag and MAC. -/
def OTRNG_PREKEY_SUCCESS_MSG_LEN : Nat := 2 + 1 + 4 + HASH_BYTES

/-- Modelled from the spec: `OTRNG_PREKEY_FAILURE_MSG_LEN`, the length of a
failure message: version, type, instance tag and MAC. -/
def OTRNG_PREKEY_FAILURE_MSG_LEN : Nat := 2 + 1 + 4 + HASH_BYTES

/-- Modelled from the spec: `OTRNG_DAKE3_MSG_LEN`, the length of a storage
information request: version, type and MAC. -/
def OTRNG_DAKE3_MSG_LEN : Nat := 2 + 1 + HASH_BYTES

/-- Modelled from the spec: `ED448_SCALAR_BYTES`, the 57 bytes of a scalar. -/
def ED448_SCALAR_BYTES : Nat := 57

/-- Modelled from the spec: `RING_SIG_BYTES`, six scalars. -/
def RING_SIG_BYTES : Nat := 6 * ED448_SCALAR_BYTES

/-- The constant `usage_auth`. -/
def usage_auth : Nat := 0x11

/-- The constant `prekey_hash_domain`. -/
def prekey_hash_domain : List Char := "OTR-Prekey-Server".toList

/-- Modelled from the spec: the enumeration `otrng_prekey_next_message` of
`prekey_client.h`; `OTRNG_PREKEY_NEXT_NONE` names its zero value. -/
inductive otrng_prekey_next_message where
  | OTRNG_PREKEY_NEXT_NONE
  | OTRNG_PREKEY_STORAGE_INFORMATION_REQUEST
  | OTRNG_PREKEY_PREKEY_PUBLICATION
  deriving DecidableEq, Repr

/-- The structure `otrng_prekey_publication_policy_s`. -/
structure otrng_prekey_publication_policy_s where
  max_published_prekey_message : Nat
  minimum_stored_prekey_message : Nat
  deriving DecidableEq, Repr

/-- A key pair (`ecdh_keypair_s`, `otrng_keypair_s`). -/
structure prekey_keypair_t where
  pub : List Nat
  priv : List Nat
  deriving DecidableEq, Repr

/-- The fields of `otrng_prekey_client_s` that `prekey_client.c` reads or
writes on the receiving side. The two identities are `NULL` until
`otrng_prekey_client_init` has run; profiles are kept as bytes. -/
structure otrng_prekey_client_s where
  instance_tag : Nat
  server_identity : Option (List Char)
  our_identity : Option (List Char)
  client_profile : List Nat
  keypair : prekey_keypair_t
  ephemeral_ecdh : prekey_keypair_t
  mac_key : List Nat
  after_dake : otrng_prekey_next_message
  publication_policy : otrng_prekey_publication_policy_s
  deriving DecidableEq, Repr

/-- The structure `otrng_prekey_storage_status_message_s`. -/
structure otrng_prekey_storage_status_message_s where
  client_instance_tag : Nat
  stored_prekeys : Nat
  mac : List Nat
  deriving DecidableEq, Repr

/-- A ring signature (`ring_sig_s`): six scalars. -/
structure ring_sig_s where
  c1 : List Nat
  r1 : List Nat
  c2 : List Nat
  r2 : List Nat
  c3 : List Nat
  r3 : List Nat
  deriving DecidableEq, Repr

/-- The structure `otrng_prekey_dake2_message_s`; the two buffers are `NULL`
(`none`) after `otrng_prekey_dake2_message_init`. -/
structure otrng_prekey_dake2_message_s where
  client_instance_tag : Nat
  composite_identity : Option (List Nat)
  composite_identity_len : Nat
  server_identity : Option (List Nat)
  server_identity_len : Nat
  server_pub_key : List Nat
  S : List Nat
  sigma : ring_sig_s
  deriving DecidableEq, Repr

/-- The structure `otrng_prekey_ensemble_retrieval_message_s`; an ensemble is
kept as bytes, an entry of the array may be `NULL`. -/
structure otrng_prekey_ensemble_retrieval_message_s where
  instance_tag : Nat
  ensembles : List (Option (List Nat))
  num_ensembles : Nat
  deriving DecidableEq, Repr

/-- A call made to the host through `prekey_client->callbacks`. -/
inductive prekey_callback_call where
  | notify_error (error : Nat)
  | storage_status_received (msg : otrng_prekey_storage_status_message_s)
  | success_received
  | failure_received
  | no_prekey_in_storage_received
  | low_prekey_messages_in_storage (server_identity : Option (List Char))
  | prekey_ensembles_received (ensembles : List (Option (List Nat))) (num_ensembles : Nat)
  | build_prekey_publication_message
  deriving DecidableEq, Repr

/-- The fields of `otrng_client_s` that `prekey_client.c` reads or writes:
`prekey_client` (not `NULL`, with a table of callbacks installed) and
`prekey_msgs_num_to_publish`. `calls` records, latest last, the calls made
through the table (it is not a field of the C structure); what the host does
inside a callback is outside the embedding. -/
structure otrng_client_s where
  prekey_client : otrng_prekey_client_s
  prekey_msgs_num_to_publish : Nat
  calls : List prekey_callback_call
  deriving DecidableEq, Repr

/-- The functions that `prekey_client.c` and `deserialize.c` call and whose
code lies in files absent from the sources (base64, SHAKE-256, ring
signatures, curve arithmetic, profiles, ensembles), taken as parameters. An
option is `none` when the C function reports failure. A hashing context is
kept as bytes. `build_prekey_publication_message` is the host callback of that
name: the publication message it fills, `none` when it returns 0. The last
field stands for `otrng_prekey_dake3_message_append_prekey_publication_message`,
a function of `prekey_client.c` that only assembles the bytes of the
publication message from serializations, KDF outputs and proofs: the bytes
left in `dake_3->msg`, `none` on error. -/
structure prekey_collaborators where
  otrl_base64_decode : List Char → List Nat
  otrl_base64_encode : List Nat → List Char
  hash_init_with_usage_and_domain_separation : Nat → List Char → Option (List Nat)
  hash_update : List Nat → List Nat → Option (List Nat)
  hash_final : List Nat → Nat → List Nat
  shake_256_prekey_server_kdf : Nat → Nat → List Nat → Option (List Nat)
  otrng_ec_point_decode : List Nat → Option (List Nat)
  otrng_ec_scalar_decode : List Nat → List Nat
  otrng_serialize_ec_point : List Nat → List Nat
  otrng_serialize_ring_sig : ring_sig_s → List Nat
  otrng_client_profile_serialize : List Nat → Option (List Nat)
  otrng_rsig_verify_with_usage_and_domain : Nat → List Char → ring_sig_s → List Nat →
    List Nat → List Nat → List Nat → Bool
  otrng_rsig_authenticate_with_usage_and_domain : Nat → List Char → List Nat → List Nat →
    List Nat → List Nat → List Nat → List Nat → Option ring_sig_s
  otrng_ecdh_shared_secret : List Nat → List Nat → Option (List Nat)
  otrng_prekey_ensemble_deserialize : List Nat → Nat → Option (List Nat × Nat)
  otrng_prekey_ensemble_validate : List Nat → Bool
  build_prekey_publication_message : otrng_client_s → otrng_prekey_publication_policy_s →
    Option (List Nat)
  append_prekey_publication_message : List Nat → List Nat → List Nat → Option (List Nat)

/-! ## `prekey_client.c`: receiving -/

/-- The function `notify_error_callback`. -/
def notify_error_callback (client : otrng_client_s) (error : Nat) : otrng_client_s :=
  { client with calls := client.calls ++ [prekey_callback_call.notify_error error] }

/-- The function `prekey_storage_status_received_callback`. -/
def prekey_storage_status_received_callback (client : otrng_client_s)
    (msg : otrng_prekey_storage_status_message_s) : otrng_client_s :=
  { client with calls := client.calls ++ [prekey_callback_call.storage_status_received msg] }

/-- The function `success_received_callback`. -/
def success_received_callback (client : otrng_client_s) : otrng_client_s :=
  { client with calls := client.calls ++ [prekey_callback_call.success_received] }

/-- The function `failure_received_callback`. -/
def failure_received_callback (client : otrng_client_s) : otrng_client_s :=
  { client with calls := client.calls ++ [prekey_callback_call.failure_received] }

/-- The function `no_prekey_in_storage_received_callback`. -/
def no_prekey_in_storage_received_callback (client : otrng_client_s) : otrng_client_s :=
  { client with
    calls := client.calls ++ [prekey_callback_call.no_prekey_in_storage_received] }

/-- The function `low_prekey_messages_in_storage_callback`. -/
def low_prekey_messages_in_storage_callback (client : otrng_client_s) : otrng_client_s :=
  { client with
    calls := client.calls ++
      [prekey_callback_call.low_prekey_messages_in_storage
        client.prekey_client.server_identity] }

/-- The function `prekey_ensembles_received_callback`. -/
def prekey_ensembles_received_callback (client : otrng_client_s)
    (ensembles : List (Option (List Nat))) (num_ensembles : Nat) : otrng_client_s :=
  { client with
    calls := client.calls ++
      [prekey_callback_call.prekey_ensembles_received ensembles num_ensembles] }

/-- The function `build_prekey_publication_message_callback`: the publication
message filled by the host (`none` when the callback returns 0) and the
client. -/
def build_prekey_publication_message_callback (env : prekey_collaborators)
    (client : otrng_client_s) : Option (List Nat) × otrng_client_s :=
  (env.build_prekey_publication_message client client.prekey_client.publication_policy,
    { client with
      calls := client.calls ++ [prekey_callback_call.build_prekey_publication_message] })

/-- The function `prekey_decode`: `none` is `OTRNG_ERROR`, otherwise the bytes
of `*buffer`, of which `*buff_len` is the number. The last character is read
only when the string is not empty. -/
def prekey_decode (env : prekey_collaborators) (msg : List Char) : Option (List Nat) :=
  let len := msg.length
  if len = 0 ∨ '.' ≠ msg.getD (len - 1) (Char.ofNat 0) then none
  else some (env.otrl_base64_decode (msg.take (len - 1)))

/-- The function `prekey_encode`. -/
def prekey_encode (env : prekey_collaborators) (buffer : List Nat) : List Char :=
  env.otrl_base64_encode buffer ++ ['.']

/-- The function `parse_header`: `none` is `OTRNG_ERROR`, otherwise the message
type and the count written to `*read`. -/
def parse_header (buf : List Nat) (buflen : Nat) : Option (Nat × Nat) :=
  let w := 0
  match otrng_deserialize_uint16 buf buflen with
  | none => none
  | some (protocol_version, r) =>
    let w := w + r
    if protocol_version ≠ OTRNG_PROTOCOL_VERSION_4 then none
    else
      match otrng_deserialize_uint8 (buf.drop w) (to_size_t ((buflen : Int) - (w : Int))) with
      | none => none
      | some (msg_type, r) => some (msg_type, w + r)

/-- Modelled from the spec: `otrng_serialize_uint32` of `serialize.c` (absent
from the sources): the four bytes written, most significant first. -/
def otrng_serialize_uint32 (data : Nat) : List Nat :=
  [data / 2 ^ 24 % 256, data / 2 ^ 16 % 256, data / 2 ^ 8 % 256, data % 256]

/-- Modelled from the spec: `otrng_serialize_uint16` of `serialize.c`. -/
def otrng_serialize_uint16 (data : Nat) : List Nat :=
  [data / 2 ^ 8 % 256, data % 256]

/-- Modelled from the spec: `otrng_serialize_uint8` of `serialize.c`. -/
def otrng_serialize_uint8 (data : Nat) : List Nat :=
  [data % 256]

/-- Modelled from the spec: `otrng_serialize_data` of `serialize.c`: a 4-byte
length and the `len` bytes. -/
def otrng_serialize_data (data : List Nat) (len : Nat) : List Nat :=
  otrng_serialize_uint32 len ++ data.take len

/-- Modelled from the spec: `otrl_mem_differ` of libotr (`mem.h`): non-zero
exactly when the first `len` bytes of the two buffers differ. -/
def otrl_mem_differ (buf1 buf2 : List Nat) (len : Nat) : Nat :=
  if buf1.take len = buf2.take len then 0 else 1

/-- The function `kdf_init_with_usage`: `none` is `OTRNG_ERROR`, otherwise the
context. -/
def kdf_init_with_usage (env : prekey_collaborators) (usage : Nat) : Option (List Nat) :=
  match env.hash_init_with_usage_and_domain_separation usage prekey_hash_domain with
  | none => none
  | some hash => some hash

/-- The function `receive_success`: the string returned (always `NULL`) and the
client. -/
def receive_success (env : prekey_collaborators) (decoded : List Nat) (decoded_len : Nat)
    (client : otrng_client_s) : Option (List Char) × otrng_client_s :=
  let usage_success_MAC := 0x0C
  if decoded_len < OTRNG_PREKEY_SUCCESS_MSG_LEN then
    (none, notify_error_callback client OTRNG_PREKEY_CLIENT_MALFORMED_MSG)
  else
    match otrng_deserialize_uint32 (decoded.drop 3)
        (to_size_t ((decoded_len : Int) - 3)) with
    | none => (none, notify_error_callback client OTRNG_PREKEY_CLIENT_MALFORMED_MSG)
    | some (instance_tag, _) =>
      if instance_tag ≠ client.prekey_client.instance_tag then (none, client)
      else
        match kdf_init_with_usage env usage_success_MAC with
        | none => (none, client)
        | some hash =>
          match env.hash_update hash (client.prekey_client.mac_key.take MAC_KEY_BYTES) with
          | none => (none, client)
          | some hash =>
            match env.hash_update hash ((decoded.drop 2).take 5) with
            | none => (none, client)
            | some hash =>
              let mac_tag := env.hash_final hash HASH_BYTES
              if otrl_mem_differ mac_tag (decoded.drop 7) HASH_BYTES ≠ 0 then
                (none, notify_error_callback client OTRNG_PREKEY_CLIENT_INVALID_SUCCESS)
              else (none, success_received_callback client)

/-- The function `receive_failure`. -/
def receive_failure (env : prekey_collaborators) (decoded : List Nat) (decoded_len : Nat)
    (client : otrng_client_s) : Option (List Char) × otrng_client_s :=
  let usage_failure_MAC := 0x0D
  if decoded_len < OTRNG_PREKEY_FAILURE_MSG_LEN then
    (none, notify_error_callback client OTRNG_PREKEY_CLIENT_MALFORMED_MSG)
  else
    match otrng_deserialize_uint32 (decoded.drop 3)
        (to_size_t ((decoded_len : Int) - 3)) with
    | none => (none, notify_error_callback client OTRNG_PREKEY_CLIENT_MALFORMED_MSG)
    | some (instance_tag, _) =>
      if instance_tag ≠ client.prekey_client.instance_tag then (none, client)
      else
        match kdf_init_with_usage env usage_failure_MAC with
        | none => (none, client)
        | some hash =>
          match env.hash_update hash (client.prekey_client.mac_key.take MAC_KEY_BYTES) with
          | none => (none, client)
          | some hash =>
            match env.hash_update hash ((decoded.drop 2).take 5) with
            | none => (none, client)
            | some hash =>
              let mac_tag := env.hash_final hash HASH_BYTES
              if otrl_mem_differ mac_tag (decoded.drop 7) HASH_BYTES ≠ 0 then
                (none, notify_error_callback client OTRNG_PREKEY_CLIENT_INVALID_SUCCESS)
              else (none, failure_received_callback client)

/-- The function `receive_no_prekey_in_storage`. -/
def receive_no_prekey_in_storage (decoded : List Nat) (decoded_len : Nat)
    (client : otrng_client_s) : Option (List Char) × otrng_client_s :=
  match otrng_deserialize_uint32 (decoded.drop 3) (to_size_t ((decoded_len : Int) - 3)) with
  | none => (none, notify_error_callback client OTRNG_PREKEY_CLIENT_MALFORMED_MSG)
  | some (instance_tag, _) =>
    if instance_tag ≠ client.prekey_client.instance_tag then (none, client)
    else (none, no_prekey_in_storage_received_callback client)

/-- The function `otrng_prekey_storage_status_message_valid`. -/
def otrng_prekey_storage_status_message_valid (env : prekey_collaborators)
    (msg : otrng_prekey_storage_status_message_s) (mac_key : List Nat) : Bool :=
  let usage_status_MAC := 0x0B
  let ser_tag := otrng_serialize_uint32 msg.client_instance_tag
  if ser_tag.length = 0 then false
  else
    let ser_stored := otrng_serialize_uint32 msg.stored_prekeys
    if ser_stored.length = 0 then false
    else
      let buf := [OTRNG_PREKEY_STORAGE_STATUS_MSG] ++ ser_tag ++ ser_stored
      match kdf_init_with_usage env usage_status_MAC with
      | none => false
      | some hmac =>
        match env.hash_update hmac (mac_key.take MAC_KEY_BYTES) with
        | none => false
        | some hmac =>
          match env.hash_update hmac buf with
          | none => false
          | some hmac =>
            let mac_tag := env.hash_final hmac HASH_BYTES
            if otrl_mem_differ mac_tag msg.mac HASH_BYTES ≠ 0 then false
            else true

/-- The function `process_received_storage_status`. The subtraction is made on
`unsigned int`. -/
def process_received_storage_status (env : prekey_collaborators)
    (msg : otrng_prekey_storage_status_message_s) (client : otrng_client_s) :
    Option (List Char) × otrng_client_s :=
  if msg.client_instance_tag ≠ client.prekey_client.instance_tag then (none, client)
  else if ¬ otrng_prekey_storage_status_message_valid env msg client.prekey_client.mac_key
      then
    (none, notify_error_callback client OTRNG_PREKEY_CLIENT_INVALID_STORAGE_STATUS)
  else
    let client :=
      if msg.stored_prekeys <
          client.prekey_client.publication_policy.minimum_stored_prekey_message then
        low_prekey_messages_in_storage_callback
          { client with
            prekey_msgs_num_to_publish :=
              to_unsigned
                ((client.prekey_client.publication_policy.max_published_prekey_message : Int)
                  - (msg.stored_prekeys : Int)) }
      else client
    (none, prekey_storage_status_received_callback client msg)

/-- The function `otrng_prekey_storage_status_message_deserialize`: `none` is
`OTRNG_ERROR`. -/
def otrng_prekey_storage_status_message_deserialize (ser : List Nat) (ser_len : Nat) :
    Option otrng_prekey_storage_status_message_s :=
  match parse_header ser ser_len with
  | none => none
  | some (msg_type, w) =>
    if msg_type ≠ OTRNG_PREKEY_STORAGE_STATUS_MSG then none
    else
      match otrng_deserialize_uint32 (ser.drop w) (to_size_t ((ser_len : Int) - (w : Int))) with
      | none => none
      | some (client_instance_tag, read) =>
        let w := w + read
        match otrng_deserialize_uint32 (ser.drop w)
            (to_size_t ((ser_len : Int) - (w : Int))) with
        | none => none
        | some (stored_prekeys, read) =>
          let w := w + read
          match otrng_deserialize_bytes_array DATA_MSG_MAC_BYTES (ser.drop w)
              (to_size_t ((ser_len : Int) - (w : Int))) with
          | none => none
          | some mac => some ⟨client_instance_tag, stored_prekeys, mac⟩

/-- The function `receive_storage_status`. -/
def receive_storage_status (env : prekey_collaborators) (decoded : List Nat)
    (decoded_len : Nat) (client : otrng_client_s) : Option (List Char) × otrng_client_s :=
  match otrng_prekey_storage_status_message_deserialize decoded decoded_len with
  | none => (none, notify_error_callback client OTRNG_PREKEY_CLIENT_MALFORMED_MSG)
  | some msg => process_received_storage_status env msg client

/-- The function `process_received_prekey_ensemble_retrieval`: an ensemble that
does not validate is destroyed and its entry set to `NULL`. -/
def process_received_prekey_ensemble_retrieval (env : prekey_collaborators)
    (msg : otrng_prekey_ensemble_retrieval_message_s) (client : otrng_client_s) :
    otrng_client_s :=
  if msg.instance_tag ≠ client.prekey_client.instance_tag then client
  else
    let ensembles := msg.ensembles.map (fun e =>
      match e with
      | none => none
      | some ensemble =>
        if ¬ env.otrng_prekey_ensemble_validate ensemble then none else some ensemble)
    prekey_ensembles_received_callback client ensembles msg.num_ensembles

/-- The loop of `otrng_prekey_ensemble_retrieval_message_deserialize` over the
`count` ensembles still to read from offset `w`: `none` when one of them does
not deserialize, otherwise the ensembles read. -/
def deserialize_ensembles (env : prekey_collaborators) (ser : List Nat) (ser_len : Nat) :
    Nat → Nat → Option (List (Option (List Nat)))
  | 0, _ => some []
  | count + 1, w =>
    match env.otrng_prekey_ensemble_deserialize (ser.drop w)
        (to_size_t ((ser_len : Int) - (w : Int))) with
    | none => none
    | some (ensemble, read) =>
      match deserialize_ensembles env ser ser_len count (w + read) with
      | none => none
      | some rest => some (some ensemble :: rest)

/-- The function `otrng_prekey_ensemble_retrieval_message_deserialize`: `none`
is `OTRNG_ERROR`. -/
def otrng_prekey_ensemble_retrieval_message_deserialize (env : prekey_collaborators)
    (ser : List Nat) (ser_len : Nat) : Option otrng_prekey_ensemble_retrieval_message_s :=
  match parse_header ser ser_len with
  | none => none
  | some (msg_type, w) =>
    if msg_type ≠ OTRNG_PREKEY_ENSEMBLE_RETRIEVAL_MSG then none
    else
      match otrng_deserialize_uint32 (ser.drop w) (to_size_t ((ser_len : Int) - (w : Int))) with
      | none => none
      | some (instance_tag, read) =>
        let w := w + read
        match otrng_deserialize_uint8 (ser.drop w)
            (to_size_t ((ser_len : Int) - (w : Int))) with
        | none => none
        | some (l, read) =>
          let w := w + read
          match deserialize_ensembles env ser ser_len l w with
          | none => none
          | some ensembles => some ⟨instance_tag, ensembles, l⟩

/-- The function `receive_prekey_ensemble_retrieval`. -/
def receive_prekey_ensemble_retrieval (env : prekey_collaborators) (decoded : List Nat)
    (decoded_len : Nat) (client : otrng_client_s) : Option (List Char) × otrng_client_s :=
  match otrng_prekey_ensemble_retrieval_message_deserialize env decoded decoded_len with
  | none => (none, notify_error_callback client OTRNG_PREKEY_CLIENT_MALFORMED_MSG)
  | some msg => (none, process_received_prekey_ensemble_retrieval env msg client)

/-- The function `otrng_deserialize_ec_scalar` of `deserialize.c`: `none` is
`OTRNG_ERROR`, otherwise the scalar that `otrng_ec_scalar_decode` reads from
`ED448_SCALAR_BYTES` bytes. -/
def otrng_deserialize_ec_scalar (env : prekey_collaborators) (ser : List Nat)
    (ser_len : Nat) : Option (List Nat) :=
  if ser_len < ED448_SCALAR_BYTES then none
  else some (env.otrng_ec_scalar_decode (ser.take ED448_SCALAR_BYTES))

/-- The function `otrng_deserialize_ring_sig` of `deserialize.c`: `none` is
`OTRNG_ERROR`. -/
def otrng_deserialize_ring_sig (env : prekey_collaborators) (ser : List Nat)
    (ser_len : Nat) : Option ring_sig_s :=
  let cursor := ser
  if ser_len < RING_SIG_BYTES then none
  else
    match otrng_deserialize_ec_scalar env cursor ser_len with
    | none => none
    | some c1 =>
      let cursor := cursor.drop ED448_SCALAR_BYTES
      let ser_len := to_size_t ((ser_len : Int) - (ED448_SCALAR_BYTES : Int))
      match otrng_deserialize_ec_scalar env cursor ser_len with
      | none => none
      | some r1 =>
        let cursor := cursor.drop ED448_SCALAR_BYTES
        let ser_len := to_size_t ((ser_len : Int) - (ED448_SCALAR_BYTES : Int))
        match otrng_deserialize_ec_scalar env cursor ser_len with
        | none => none
        | some c2 =>
          let cursor := cursor.drop ED448_SCALAR_BYTES
          let ser_len := to_size_t ((ser_len : Int) - (ED448_SCALAR_BYTES : Int))
          match otrng_deserialize_ec_scalar env cursor ser_len with
          | none => none
          | some r2 =>
            let cursor := cursor.drop ED448_SCALAR_BYTES
            let ser_len := to_size_t ((ser_len : Int) - (ED448_SCALAR_BYTES : Int))
            match otrng_deserialize_ec_scalar env cursor ser_len with
            | none => none
            | some c3 =>
              let cursor := cursor.drop ED448_SCALAR_BYTES
              let ser_len := to_size_t ((ser_len : Int) - (ED448_SCALAR_BYTES : Int))
              match otrng_deserialize_ec_scalar env cursor ser_len with
              | none => none
              | some r3 => some ⟨c1, r1, c2, r2, c3, r3⟩

/-- The function `otrng_prekey_dake2_message_deserialize`, on a message fresh
from `otrng_prekey_dake2_message_init` (`server_identity` is `NULL` and its
length 0): `none` is `OTRNG_ERROR`. -/
def otrng_prekey_dake2_message_deserialize (env : prekey_collaborators) (ser : List Nat)
    (ser_len : Nat) : Option otrng_prekey_dake2_message_s :=
  match parse_header ser ser_len with
  | none => none
  | some (msg_type, w) =>
    if msg_type ≠ OTRNG_PREKEY_DAKE2_MSG then none
    else
      match otrng_deserialize_uint32 (ser.drop w) (to_size_t ((ser_len : Int) - (w : Int))) with
      | none => none
      | some (client_instance_tag, read) =>
        let w := w + read
        let composite_identity_start := w
        let d := otrng_deserialize_data none 0 (ser.drop w)
          (to_size_t ((ser_len : Int) - (w : Int)))
        if d.result = otrng_result.OTRNG_ERROR then none
        else
          let w := w + d.read
          match otrng_deserialize_public_key env.otrng_ec_point_decode (ser.drop w)
              (to_size_t ((ser_len : Int) - (w : Int))) with
          | none => none
          | some (server_pub_key, read) =>
            let w := w + read
            let composite_identity_len := w - composite_identity_start
            let composite_identity :=
              (ser.drop composite_identity_start).take composite_identity_len
            match otrng_deserialize_ec_point env.otrng_ec_point_decode (ser.drop w)
                (to_size_t ((ser_len : Int) - (w : Int))) with
            | none => none
            | some S =>
              let w := w + ED448_POINT_BYTES
              match otrng_deserialize_ring_sig env (ser.drop w)
                  (to_size_t ((ser_len : Int) - (w : Int))) with
              | none => none
              | some sigma =>
                some
                  { client_instance_tag := client_instance_tag,
                    composite_identity := some composite_identity,
                    composite_identity_len := composite_identity_len,
                    server_identity := d.dst,
                    server_identity_len := d.dst_len,
                    server_pub_key := server_pub_key,
                    S := S,
                    sigma := sigma }

/-- The function `otrng_prekey_client_get_expected_composite_phi`: `none` is
`NULL`. -/
def otrng_prekey_client_get_expected_composite_phi (client : otrng_prekey_client_s) :
    Option (List Nat) :=
  match client.server_identity, client.our_identity with
  | some server_identity, some our_identity =>
    let first := otrng_serialize_data (our_identity.map Char.toNat) our_identity.length
    let second := otrng_serialize_data (server_identity.map Char.toNat)
      server_identity.length
    if second.length = 0 then none
    else some (first ++ second)
  | _, _ => none

/-- The function `otrng_prekey_dake2_message_valid`. -/
def otrng_prekey_dake2_message_valid (env : prekey_collaborators)
    (msg : otrng_prekey_dake2_message_s) (client : otrng_prekey_client_s) : Bool :=
  let usage_initator_client_profile := 0x02
  let usage_initiator_prekey_composite_identity := 0x03
  let usage_initiator_prekey_composite_phi := 0x04
  match otrng_prekey_client_get_expected_composite_phi client with
  | none => false
  | some composite_phi =>
    match env.otrng_client_profile_serialize client.client_profile with
    | none => false
    | some our_profile =>
      match env.shake_256_prekey_server_kdf HASH_BYTES usage_initator_client_profile
          our_profile with
      | none => false
      | some kdf1 =>
        match env.shake_256_prekey_server_kdf HASH_BYTES
            usage_initiator_prekey_composite_identity
            ((msg.composite_identity.getD []).take msg.composite_identity_len) with
        | none => false
        | some kdf2 =>
          match env.shake_256_prekey_server_kdf HASH_BYTES
              usage_initiator_prekey_composite_phi composite_phi with
          | none => false
          | some kdf3 =>
            let t := [0x0] ++ kdf1 ++ kdf2 ++
              env.otrng_serialize_ec_point client.ephemeral_ecdh.pub ++
              env.otrng_serialize_ec_point msg.S ++ kdf3
            env.otrng_rsig_verify_with_usage_and_domain usage_auth prekey_hash_domain
              msg.sigma client.keypair.pub msg.server_pub_key client.ephemeral_ecdh.pub t

/-- The function `otrng_prekey_dake3_message_append_storage_information_request`:
`none` is `OTRNG_ERROR`, otherwise the bytes of `dake_3->msg` and
`dake_3->msg_len`. -/
def otrng_prekey_dake3_message_append_storage_information_request
    (env : prekey_collaborators) (mac_key : List Nat) : Option (List Nat × Nat) :=
  let msg_type := OTRNG_PREKEY_STORAGE_INFO_REQ_MSG
  let usage_receiver_client_profile := 0x0A
  let head := otrng_serialize_uint16 OTRNG_PROTOCOL_VERSION_4 ++ otrng_serialize_uint8 msg_type
  match kdf_init_with_usage env usage_receiver_client_profile with
  | none => none
  | some hd =>
    match env.hash_update hd (mac_key.take MAC_KEY_BYTES) with
    | none => none
    | some hd =>
      match env.hash_update hd [msg_type] with
      | none => none
      | some hd => some (head ++ env.hash_final hd HASH_BYTES, OTRNG_DAKE3_MSG_LEN)

/-- The function `otrng_prekey_dake3_message_serialize` (it always succeeds):
the bytes of `*ser`. -/
def otrng_prekey_dake3_message_serialize (env : prekey_collaborators)
    (client_instance_tag : Nat) (sigma : ring_sig_s) (msg : List Nat) (msg_len : Nat) :
    List Nat :=
  otrng_serialize_uint16 OTRNG_PROTOCOL_VERSION_4 ++
    otrng_serialize_uint8 OTRNG_PREKEY_DAKE3_MSG ++
    otrng_serialize_uint32 client_instance_tag ++
    env.otrng_serialize_ring_sig sigma ++
    otrng_serialize_data msg msg_len

/-- The function `send_dake3`: the string returned (`none` is `NULL`) and the
client. -/
def send_dake3 (env : prekey_collaborators) (dake_2 : otrng_prekey_dake2_message_s)
    (client : otrng_client_s) : Option (List Char) × otrng_client_s :=
  let usage_receiver_client_profile := 0x05
  let usage_receiver_prekey_composite_identity := 0x06
  let usage_receiver_prekey_composite_phi := 0x07
  let usage_SK := 0x01
  let usage_preMAC_key := 0x08
  let usage_proof_context := 0x12
  let prekey_client := client.prekey_client
  let client_instance_tag := prekey_client.instance_tag
  match otrng_prekey_client_get_expected_composite_phi prekey_client with
  | none => (none, client)
  | some composite_phi =>
  match env.otrng_client_profile_serialize prekey_client.client_profile with
  | none => (none, client)
  | some our_profile =>
  match env.shake_256_prekey_server_kdf HASH_BYTES usage_receiver_client_profile
      our_profile with
  | none => (none, client)
  | some kdf1 =>
  match env.shake_256_prekey_server_kdf HASH_BYTES usage_receiver_prekey_composite_identity
      ((dake_2.composite_identity.getD []).take dake_2.composite_identity_len) with
  | none => (none, client)
  | some kdf2 =>
  match env.shake_256_prekey_server_kdf HASH_BYTES usage_receiver_prekey_composite_phi
      composite_phi with
  | none => (none, client)
  | some kdf3 =>
  let t := [0x1] ++ kdf1 ++ kdf2 ++
    env.otrng_serialize_ec_point prekey_client.ephemeral_ecdh.pub ++
    env.otrng_serialize_ec_point dake_2.S ++ kdf3
  match env.otrng_rsig_authenticate_with_usage_and_domain usage_auth prekey_hash_domain
      prekey_client.keypair.priv prekey_client.keypair.pub prekey_client.keypair.pub
      dake_2.server_pub_key dake_2.S t with
  | none => (none, client)
  | some sigma =>
  match env.otrng_ecdh_shared_secret prekey_client.ephemeral_ecdh.priv dake_2.S with
  | none => (none, client)
  | some ecdh_shared =>
  match env.shake_256_prekey_server_kdf HASH_BYTES usage_SK
      (ecdh_shared.take ED448_POINT_BYTES) with
  | none => (none, client)
  | some shared_secret =>
  match env.shake_256_prekey_server_kdf MAC_KEY_BYTES usage_preMAC_key
      (shared_secret.take HASH_BYTES) with
  | none => (none, client)
  | some mac_key =>
  let prekey_client := { prekey_client with mac_key := mac_key }
  let client := { client with prekey_client := prekey_client }
  let attached : Option (List Nat × Nat) × otrng_client_s :=
    match prekey_client.after_dake with
    | otrng_prekey_next_message.OTRNG_PREKEY_STORAGE_INFORMATION_REQUEST =>
      (otrng_prekey_dake3_message_append_storage_information_request env
        prekey_client.mac_key, client)
    | otrng_prekey_next_message.OTRNG_PREKEY_PREKEY_PUBLICATION =>
      match build_prekey_publication_message_callback env client with
      | (none, client) => (none, client)
      | (some pub_msg, client) =>
        match env.shake_256_prekey_server_kdf HASH_BYTES usage_proof_context
            (shared_secret.take HASH_BYTES) with
        | none => (none, client)
        | some mac =>
          match env.append_prekey_publication_message pub_msg prekey_client.mac_key mac with
          | none => (none, client)
          | some msg => (some (msg, msg.length), client)
    | otrng_prekey_next_message.OTRNG_PREKEY_NEXT_NONE => (none, client)
  match attached with
  | (none, client) => (none, client)
  | (some (msg, msg_len), client) =>
    let client :=
      { client with
        prekey_client :=
          { client.prekey_client with
            after_dake := otrng_prekey_next_message.OTRNG_PREKEY_NEXT_NONE } }
    let ser := otrng_prekey_dake3_message_serialize env client_instance_tag sigma msg msg_len
    (some (prekey_encode env ser), client)

/-- The function `process_received_dake2`. -/
def process_received_dake2 (env : prekey_collaborators)
    (msg : otrng_prekey_dake2_message_s) (client : otrng_client_s) :
    Option (List Char) × otrng_client_s :=
  if msg.client_instance_tag ≠ client.prekey_client.instance_tag then (none, client)
  else if ¬ otrng_prekey_dake2_message_valid env msg client.prekey_client then
    (none, notify_error_callback client OTRNG_PREKEY_CLIENT_INVALID_DAKE2)
  else send_dake3 env msg client

/-- The function `receive_dake2`. -/
def receive_dake2 (env : prekey_collaborators) (decoded : List Nat) (decoded_len : Nat)
    (client : otrng_client_s) : Option (List Char) × otrng_client_s :=
  match otrng_prekey_dake2_message_deserialize env decoded decoded_len with
  | none => (none, notify_error_callback client OTRNG_PREKEY_CLIENT_MALFORMED_MSG)
  | some msg => process_received_dake2 env msg client

/-- The function `receive_decoded`. -/
def receive_decoded (env : prekey_collaborators) (decoded : List Nat) (decoded_len : Nat)
    (client : otrng_client_s) : Option (List Char) × otrng_client_s :=
  match parse_header decoded decoded_len with
  | none => (none, notify_error_callback client OTRNG_PREKEY_CLIENT_MALFORMED_MSG)
  | some (msg_type, _) =>
    if msg_type = OTRNG_PREKEY_DAKE2_MSG then receive_dake2 env decoded decoded_len client
    else if msg_type = OTRNG_PREKEY_SUCCESS_MSG then
      receive_success env decoded decoded_len client
    else if msg_type = OTRNG_PREKEY_FAILURE_MSG then
      receive_failure env decoded decoded_len client
    else if msg_type = OTRNG_PREKEY_NO_PREKEY_IN_STORAGE_MSG then
      receive_no_prekey_in_storage decoded decoded_len client
    else if msg_type = OTRNG_PREKEY_ENSEMBLE_RETRIEVAL_MSG then
      receive_prekey_ensemble_retrieval env decoded decoded_len client
    else if msg_type = OTRNG_PREKEY_STORAGE_STATUS_MSG then
      receive_storage_status env decoded decoded_len client
    else (none, notify_error_callback client OTRNG_PREKEY_CLIENT_MALFORMED_MSG)

/-- What `otrng_prekey_client_receive` returns and leaves in `*to_send` and in
the client. -/
structure prekey_receive_t where
  result : otrng_result
  to_send : Option (List Char)
  client : otrng_client_s
  deriving DecidableEq, Repr

/-- The function `otrng_prekey_client_receive`, for a client and a prekey
client that are not `NULL` (the two assertions); `none` when
`server_identity` is `NULL`, which `strcmp` reads. -/
def otrng_prekey_client_receive (env : prekey_collaborators) (to_send : Option (List Char))
    (server : List Char) (msg : List Char) (client : otrng_client_s) :
    Option prekey_receive_t :=
  match client.prekey_client.server_identity with
  | none => none
  | some server_identity =>
    -- strcmp(server_identity, server) != 0
    if server_identity ≠ server then some ⟨otrng_result.OTRNG_ERROR, to_send, client⟩
    else
      match prekey_decode env msg with
      | none => some ⟨otrng_result.OTRNG_ERROR, to_send, client⟩
      | some ser =>
        let r := receive_decoded env ser ser.length client
        some ⟨otrng_result.OTRNG_SUCCESS, r.1, r.2⟩

/-! ## Definitions used to state the properties -/

/-- The frame of one piece as the specification words it: `"?OTR|"`, the sender
tag and the receiver tag as 8 lowercase hexadecimal digits separated by `|`,
then `,` K `,` N `,` payload `,` with K and N as 5 lowercase hexadecimal
digits. -/
def wire_piece (sender_tag receiver_tag k n : Nat) (payload : List Char) : List Char :=
  ['?', 'O', 'T', 'R', '|'] ++ hexFixed 8 sender_tag ++ ['|'] ++ hexFixed 8 receiver_tag ++
    [','] ++ hexFixed 5 k ++ [','] ++ hexFixed 5 n ++ [','] ++ payload ++ [',']

/-- The pieces numbered `cur`, `cur + 1`, ... (`count` of them) that frame the
consecutive chunks of `size` characters of `message`. -/
def pieces_from (sender_tag receiver_tag n size : Nat) :
    Nat → Nat → List Char → List (List Char)
  | 0, _, _ => []
  | count + 1, cur, message =>
    wire_piece sender_tag receiver_tag cur n (message.take size) ::
      pieces_from sender_tag receiver_tag n size count (cur + 1) (message.drop size)

/-- The value that `piece_len` takes in every iteration of the loop of
`otr4_fragment_message` (`index_len` is 0 at each test). -/
def loop_piece_len (msglen limit_piece : Nat) : Int :=
  if msglen < limit_piece then to_int ((msglen : Nat) : Int) else to_int (limit_piece : Int)

/-- A sample instance of the collaborators, used to evaluate the code on
concrete inputs: every call succeeds, keys and messages are a few bytes, and
the encoding writes one letter per byte after `?OTR:`. -/
def sample_collaborators : collaborators where
  otrv3_receive_message := fun to_send to_display tlvs _ conn =>
    (otr4_err_t.OTR4_SUCCESS, to_send, to_display, tlvs, conn)
  otrv3_send_message := fun to_send _ _ conn => (otr4_err_t.OTR4_SUCCESS, to_send, conn)
  key_manager_init := fun _ => key_manager_blank
  key_manager_destroy := fun k => k
  key_manager_generate_ephemeral_keys := fun k => { k with our_ecdh := [7], our_dh := 11 }
  key_manager_set_their_ecdh := fun y k => { k with their_ecdh := y }
  key_manager_set_their_dh := fun b k => { k with their_dh := b }
  key_manager_set_their_keys := fun y b k => { k with their_ecdh := y, their_dh := b }
  key_manager_ratchetting_init := fun _ k => (false, k)
  key_manager_ensure_on_ratchet := fun _ k => (true, k)
  key_manager_retrieve_receiving_message_keys := fun _ _ k => (false, [1], [2], k)
  key_manager_prepare_to_ratchet := fun k => k
  key_manager_prepare_next_chain_key := fun k => (false, k)
  key_manager_retrieve_sending_message_keys := fun k => (false, [1], [2], k)
  key_manager_old_mac_keys_serialize := fun l => l.flatten
  user_profile_build := fun versions keypair =>
    some ⟨keypair.pub, versions.map Char.toNat⟩
  user_profile_asprintf := fun p => p.map (fun q => q.pub_key ++ q.contents)
  dake_identity_message_new := fun p => p.map (fun q => ⟨0, 0, q, [], 0⟩)
  dake_identity_message_asprintf := fun m =>
    some ([0, 4, OTR_IDENTITY_MSG_TYPE, m.sender_instance_tag, m.receiver_instance_tag,
      m.B] ++ m.Y)
  dake_identity_message_deserialize := fun buff buflen =>
    if buflen < 7 then none
    else some ⟨buff.getD 3 0, buff.getD 4 0, ⟨[5], []⟩, buff.drop 6, buff.getD 5 0⟩
  valid_received_values := fun _ _ _ => true
  valid_dake_identity_message := fun _ => true
  dake_auth_r_asprintf := fun m =>
    some ([0, 4, OTR_AUTH_R_MSG_TYPE, m.sender_instance_tag, m.receiver_instance_tag,
      m.A] ++ m.X)
  dake_auth_r_deserialize := fun buff buff_len =>
    if buff_len < 7 then none
    else some ⟨buff.getD 3 0, buff.getD 4 0, ⟨[5], []⟩, buff.drop 6, buff.getD 5 0, []⟩
  dake_auth_i_asprintf := fun m =>
    some [0, 4, OTR_AUTH_I_MSG_TYPE, m.sender_instance_tag, m.receiver_instance_tag]
  dake_auth_i_deserialize := fun buff buff_len =>
    if buff_len < 5 then none else some ⟨buff.getD 3 0, buff.getD 4 0, []⟩
  serialize_ec_point := fun p => some p
  serialize_dh_public_key := fun n => some [n]
  snizkpk_authenticate := fun _ _ _ _ => some []
  snizkpk_verify := fun _ _ _ _ _ => otr4_err_t.OTR4_SUCCESS
  otr4_serialize_fingerprint := fun pub => (false, pub)
  otrl_base64_otr_encode := fun bytes =>
    ['?', 'O', 'T', 'R', ':'] ++ bytes.map (fun b => Char.ofNat (97 + b % 26)) ++ ['.']
  otrl_base64_otr_decode := fun message =>
    if ['?', 'O', 'T', 'R', ':'].isPrefixOf message then
      some (((message.drop 5).takeWhile (fun c => c ≠ '.')).map (fun c => c.toNat - 97))
    else none
  gcry_mpi_scan_our_dh := fun n => some n
  gcry_mpi_scan_point := fun p => some p.sum
  data_message_new := some ⟨0, 0, 0, 0, [], 0, [], [], 0, []⟩
  data_message_deserialize := fun msg buff buflen =>
    if buflen < 3 then none
    else msg.map (fun m => { m with enc_msg := buff.drop 3, enc_msg_len := buflen - 3 })
  data_message_body_asprintf := fun m => some ([0, 4, OTR_DATA_MSG_TYPE] ++ m.enc_msg)
  valid_data_message := fun _ _ => true
  crypto_stream_xor := fun message len _ _ => (0, message.take len)
  sha3_512_mac := fun _ _ => some (List.replicate 64 0)
  random_bytes := fun _ => [0]
  list_add := fun key keys => keys ++ [key]
  user_profile_copy := fun p => p.getD ⟨[], []⟩
  otrv4_parse_tlvs := fun _ _ => []
  process_smp_msg1 := fun _ smp => (otr4_smp_event_t.OTRV4_SMPEVENT_NONE, smp)
  process_smp_msg2 := fun _ smp => (otr4_smp_event_t.OTRV4_SMPEVENT_NONE, [], smp)
  process_smp_msg3 := fun _ smp => (otr4_smp_event_t.OTRV4_SMPEVENT_NONE, [], smp)
  process_smp_msg4 := fun _ smp => (otr4_smp_event_t.OTRV4_SMPEVENT_NONE, smp)

/-- A key pair for the concrete examples. -/
def sample_keypair : otrv4_keypair_t := ⟨[5], [6]⟩

/-- The big-endian reading of the first `w` bytes of a buffer: the sum of
`buffer[i] * 256 ^ (w - 1 - i)` for `i < w`. -/
def big_endian_value (w : Nat) (buffer : List Nat) : Nat :=
  ((List.range w).map (fun i => buffer.getD i 0 * 256 ^ (w - 1 - i))).sum

/-- The three key-record decoders of `deserialize.c` written once, with the
expected tag and the reported length as arguments. -/
def deserialize_key_record (otrng_ec_point_decode : List Nat → Option (List Nat))
    (expected_type reported : Nat) (ser : List Nat) (ser_len : Nat) :
    Option (List Nat × Nat) :=
  if ser_len < 59 then none
  else if expected_type ≠ big_endian_value 2 ser then none
  else (otrng_ec_point_decode ((ser.drop 2).take 57)).map (fun pub => (pub, reported))

/-- The key manager of a conversation that forgets its keys and answers the
Identity message `m` as the responder: `key_manager_destroy`,
`key_manager_init`, the peer's two public keys stored, fresh ephemeral keys. -/
def keys_after_restart (env : collaborators) (m : dake_identity_message_t)
    (keys : key_manager_t) : key_manager_t :=
  env.key_manager_generate_ephemeral_keys
    (env.key_manager_set_their_dh m.B
      (env.key_manager_set_their_ecdh m.Y
        (env.key_manager_init (env.key_manager_destroy keys))))

/-- The serialization of a chain of TLV records: for each record its type and
its length, two big-endian bytes each, then its data. -/
def tlvs_blob (ts : List tlv_t) : List Nat :=
  (ts.map (fun t => [t.type / 256, t.type % 256, t.len / 256, t.len % 256] ++ t.data)).flatten

/-- A sample instance of the prekey collaborators, used to evaluate the code on
concrete inputs: the encoding writes one letter per byte (`A` for 0), hashing
collects its input, every other call succeeds with a few bytes. -/
def sample_prekey_collaborators : prekey_collaborators where
  otrl_base64_decode := fun s => s.map (fun c => c.toNat - 65)
  otrl_base64_encode := fun bytes => bytes.map (fun b => Char.ofNat (65 + b % 64))
  hash_init_with_usage_and_domain_separation := fun usage _ => some [usage]
  hash_update := fun ctx bytes => some (ctx ++ bytes)
  hash_final := fun ctx len => (ctx ++ List.replicate len 0).take len
  shake_256_prekey_server_kdf := fun len usage bytes =>
    some (((usage :: bytes) ++ List.replicate len 0).take len)
  otrng_ec_point_decode := fun point => some point
  otrng_ec_scalar_decode := fun scalar => scalar
  otrng_serialize_ec_point := fun point => point
  otrng_serialize_ring_sig := fun sigma =>
    sigma.c1 ++ sigma.r1 ++ sigma.c2 ++ sigma.r2 ++ sigma.c3 ++ sigma.r3
  otrng_client_profile_serialize := fun profile => some profile
  otrng_rsig_verify_with_usage_and_domain := fun _ _ _ _ _ _ _ => true
  otrng_rsig_authenticate_with_usage_and_domain := fun _ _ _ _ _ _ _ _ =>
    some ⟨[], [], [], [], [], []⟩
  otrng_ecdh_shared_secret := fun priv point => some (priv ++ point)
  otrng_prekey_ensemble_deserialize := fun ser ser_len =>
    if ser_len < 1 then none else some (ser.take 1, 1)
  otrng_prekey_ensemble_validate := fun _ => true
  build_prekey_publication_message := fun _ _ => some []
  append_prekey_publication_message := fun pub_msg _ mac => some (pub_msg ++ mac)

/-- A client for the concrete examples: instance tag 0x101, prekey server
`prekeys.example.org`. -/
def sample_prekey_client : otrng_client_s :=
  { prekey_client :=
      { instance_tag := 0x101,
        server_identity := some "prekeys.example.org".toList,
        our_identity := some "alice@example.org".toList,
        client_profile := [1],
        keypair := ⟨[5], [6]⟩,
        ephemeral_ecdh := ⟨[7], [8]⟩,
        mac_key := List.replicate 64 9,
        after_dake := otrng_prekey_next_message.OTRNG_PREKEY_NEXT_NONE,
        publication_policy := ⟨100, 20⟩ },
    prekey_msgs_num_to_publish := 0,
    calls := [] }

/-- The authenticator that the prekey client computes for a response of the
server: the KDF with the usage byte `usage` over the 64-byte key `mac_key`
derived after the DAKE and over the fields of the message; `none` when a
hashing step fails. -/
def prekey_response_mac (env : prekey_collaborators) (usage : Nat)
    (mac_key fields : List Nat) : Option (List Nat) :=
  match kdf_init_with_usage env usage with
  | none => none
  | some hash =>
    match env.hash_update hash (mac_key.take MAC_KEY_BYTES) with
    | none => none
    | some hash =>
      match env.hash_update hash fields with
      | none => none
      | some hash => some (env.hash_final hash HASH_BYTES)

/-- The bytes `carried` begin with the 64-byte authenticator of `fields` under
`mac_key`. -/
def carries_valid_mac (env : prekey_collaborators) (usage : Nat)
    (mac_key fields carried : List Nat) : Bool :=
  match prekey_response_mac env usage mac_key fields with
  | none => false
  | some mac => decide (mac.take HASH_BYTES = carried.take HASH_BYTES)

/-- The calls that `receive_decoded` makes to the host while it handles one
message: those recorded after the ones the client already held. -/
def calls_made (env : prekey_collaborators) (decoded : List Nat) (decoded_len : Nat)
    (client : otrng_client_s) : List prekey_callback_call :=
  (receive_decoded env decoded decoded_len client).2.calls.drop client.calls.length

/-- What lies behind a call that `receive_decoded` makes for the message
`decoded`: a result callback is made for a message of its own type, and those
of success, failure and storage status for a message that carries the
authenticator of its fields under the client's `mac_key`; the remaining calls
carry no condition. -/
def call_justified (env : prekey_collaborators) (decoded : List Nat) (decoded_len : Nat)
    (client : otrng_client_s) : prekey_callback_call → Prop
  | prekey_callback_call.success_received =>
    (∃ w, parse_header decoded decoded_len = some (OTRNG_PREKEY_SUCCESS_MSG, w)) ∧
    carries_valid_mac env 0x0C client.prekey_client.mac_key ((decoded.drop 2).take 5)
      (decoded.drop 7) = true
  | prekey_callback_call.failure_received =>
    (∃ w, parse_header decoded decoded_len = some (OTRNG_PREKEY_FAILURE_MSG, w)) ∧
    carries_valid_mac env 0x0D client.prekey_client.mac_key ((decoded.drop 2).take 5)
      (decoded.drop 7) = true
  | prekey_callback_call.storage_status_received msg =>
    otrng_prekey_storage_status_message_deserialize decoded decoded_len = some msg ∧
    carries_valid_mac env 0x0B client.prekey_client.mac_key
      ([OTRNG_PREKEY_STORAGE_STATUS_MSG] ++ otrng_serialize_uint32 msg.client_instance_tag ++
        otrng_serialize_uint32 msg.stored_prekeys) msg.mac = true
  | prekey_callback_call.no_prekey_in_storage_received =>
    ∃ w, parse_header decoded decoded_len = some (OTRNG_PREKEY_NO_PREKEY_IN_STORAGE_MSG, w)
  | prekey_callback_call.prekey_ensembles_received _ _ =>
    ∃ w, parse_header decoded decoded_len = some (OTRNG_PREKEY_ENSEMBLE_RETRIEVAL_MSG, w)
  | _ => True

/-- The key manager that `otrv4_receive_data_message` has made by the time it
tests the authenticator of the data message `msg`: the peer's keys of the
message stored by `key_manager_set_their_keys`, then
`key_manager_ensure_on_ratchet` and
`key_manager_retrieve_receiving_message_keys` for the ratchet and message
numbers of the message. -/
def keys_at_mac_check (env : collaborators) (msg : data_message_t) (keys : key_manager_t) :
    key_manager_t :=
  (env.key_manager_retrieve_receiving_message_keys msg.ratchet_id msg.message_id
    (env.key_manager_ensure_on_ratchet msg.ratchet_id
      (env.key_manager_set_their_keys msg.ecdh msg.dh keys)).2).2.2.2

/-- The result of the two key-manager calls that `send_data_message` makes
once it has emptied `old_mac_keys`: `key_manager_prepare_next_chain_key`, then
`key_manager_retrieve_sending_message_keys`, which gives the return code, the
encryption key, the MAC key and the key manager. -/
def sending_message_keys (env : collaborators) (keys : key_manager_t) :
    Bool × List Nat × List Nat × key_manager_t :=
  env.key_manager_retrieve_sending_message_keys
    (env.key_manager_prepare_next_chain_key { keys with old_mac_keys := [] }).2

open otr4_err_t fragment_status

/-! ## Auxiliary facts: machine arithmetic -/

theorem to_size_t_of_range (x : Int) (h0 : 0 ≤ x) (h1 : x < 2 ^ 64) :
    to_size_t x = x.toNat := by
  unfold to_size_t SIZE_MOD
  rw [Int.emod_eq_of_lt h0 (by norm_num; exact h1)]

theorem to_size_t_neg_one : to_size_t (-1) = 2 ^ 64 - 1 := by decide

theorem to_int_of_range (x : Int) (h0 : 0 ≤ x) (h1 : x < 2 ^ 31) : to_int x = x := by
  unfold to_int UINT_MOD
  have h2 : x % ((2 ^ 32 : Nat) : Int) = x :=
    Int.emod_eq_of_lt h0 (by norm_num; omega)
  rw [h2, if_pos h1]

theorem to_unsigned_of_range (x : Int) (h0 : 0 ≤ x) (h1 : x < 2 ^ 32) :
    to_unsigned x = x.toNat := by
  unfold to_unsigned UINT_MOD
  rw [Int.emod_eq_of_lt h0 (by norm_num; exact h1)]

theorem to_unsigned_lt (x : Int) : to_unsigned x < 16 ^ 8 := by
  unfold to_unsigned UINT_MOD
  have h := Int.emod_lt_of_pos x (show (0 : Int) < ((2 ^ 32 : Nat) : Int) by norm_num)
  have h0 := Int.emod_nonneg x (show (((2 ^ 32 : Nat) : Int)) ≠ 0 by norm_num)
  norm_num at h h0 ⊢
  omega

/-! ## Auxiliary facts: hexadecimal output read back -/

theorem hexVal_hexDigit (d : Nat) (h : d < 16) : hexVal (hexDigit d) = some d := by
  interval_cases d <;> rfl

/-- A hexadecimal digit is neither white space, nor a sign, nor `x`. -/
theorem hexVal_not_delimiter (c : Char) (d : Nat) (h : hexVal c = some d) :
    c ∉ [' ', '\t', '\n', '\x0b', '\x0c', '\r', '-', '+', 'x', 'X', ','] := by
  intro hmem
  have hnone : ∀ x ∈ [' ', '\t', '\n', '\x0b', '\x0c', '\r', '-', '+', 'x', 'X', ','],
      hexVal x = none := by decide
  rw [hnone c hmem] at h
  exact Option.noConfusion h

theorem hexFixed_length (w v : Nat) : (hexFixed w v).length = w := by
  induction w generalizing v with
  | zero => rfl
  | succ w ih => simp [hexFixed, ih]

theorem scan_hex_digits_hexFixed (w j v : Nat) (rest : List Char) (acc cnt : Nat) :
    scan_hex_digits (w + j) (hexFixed w v ++ rest) acc cnt =
      scan_hex_digits j rest (acc * 16 ^ w + v % 16 ^ w) (cnt + w) := by
  induction w generalizing v j rest with
  | zero => simp [hexFixed, Nat.mod_one]
  | succ w ih =>
    have e1 : hexFixed (w + 1) v ++ rest = hexFixed w (v / 16) ++ (hexDigit (v % 16) :: rest) := by
      simp [hexFixed]
    have e2 : w + 1 + j = w + (j + 1) := by omega
    rw [e1, e2, ih]
    simp only [scan_hex_digits, hexVal_hexDigit (v % 16) (Nat.mod_lt _ (by norm_num))]
    have e3 : v % 16 ^ (w + 1) = v % 16 + 16 * (v / 16 % 16 ^ w) := by
      rw [pow_succ, mul_comm, Nat.mod_mul]
    rw [e3]
    congr 1
    · ring
    
theorem hexFixed_head (w v : Nat) :
    ∃ c tl, hexFixed (w + 1) v = c :: tl ∧ ∃ d, hexVal c = some d := by
  induction w generalizing v with
  | zero => exact ⟨hexDigit (v % 16), [], by simp [hexFixed], v % 16,
      hexVal_hexDigit _ (Nat.mod_lt _ (by norm_num))⟩
  | succ w ih =>
    obtain ⟨c, tl, h, hc⟩ := ih (v / 16)
    refine ⟨c, tl ++ [hexDigit (v % 16)], ?_, hc⟩
    rw [hexFixed, h]; rfl

theorem hexFixed_head2 (w v : Nat) :
    ∃ c1 c2 tl, hexFixed (w + 2) v = c1 :: c2 :: tl ∧
      (∃ d, hexVal c1 = some d) ∧ ∃ d, hexVal c2 = some d := by
  induction w generalizing v with
  | zero =>
    refine ⟨hexDigit (v / 16 % 16), hexDigit (v % 16), [], by simp [hexFixed],
      ⟨v / 16 % 16, ?_⟩, ⟨v % 16, ?_⟩⟩
    · exact hexVal_hexDigit _ (Nat.mod_lt _ (by norm_num))
    · exact hexVal_hexDigit _ (Nat.mod_lt _ (by norm_num))
  | succ w ih =>
    obtain ⟨c1, c2, tl, h, hc⟩ := ih (v / 16)
    refine ⟨c1, c2, tl ++ [hexDigit (v % 16)], ?_, hc⟩
    rw [hexFixed, h]; rfl

theorem scan_x_unsigned_plain (w : Nat) (s : List Char)
    (h1 : ∀ t, s ≠ '0' :: 'x' :: t) (h2 : ∀ t, s ≠ '0' :: 'X' :: t) :
    scan_x_unsigned w s =
      if (scan_hex_digits w s 0 0).2.1 = 0 then none
      else some ((scan_hex_digits w s 0 0).1, (scan_hex_digits w s 0 0).2.2) := by
  unfold scan_x_unsigned
  split
  · rename_i x t
    split_ifs with hx h3 h3
    · exfalso
      rcases hx.1 with rfl | rfl
      · exact h1 _ rfl
      · exact h2 _ rfl
    all_goals simp_all
  · simp

/-- Reading back `w + 2` hexadecimal digits written by `printf`. -/
theorem scan_x_hexFixed (w v : Nat) (rest : List Char) :
    scan_x (w + 2) (hexFixed (w + 2) v ++ rest) = some (v % 16 ^ (w + 2) % UINT_MOD, rest) := by
  obtain ⟨c1, c2, tl, h, ⟨d1, hd1⟩, ⟨d2, hd2⟩⟩ := hexFixed_head2 w v
  have hsp : isspace c1 = false := by
    cases hc : isspace c1
    · rfl
    · exfalso
      simp only [isspace, Bool.or_eq_true, decide_eq_true_eq] at hc
      have hn := hexVal_not_delimiter c1 d1 hd1
      rcases hc with ((((rfl | rfl) | rfl) | rfl) | rfl) | rfl <;> simp at hn
  have hscan := scan_hex_digits_hexFixed (w + 2) 0 v rest 0 0
  simp only [Nat.add_zero, scan_hex_digits, Nat.zero_mul, Nat.zero_add] at hscan
  have hplain : scan_x_unsigned (w + 2) (hexFixed (w + 2) v ++ rest) =
      some (v % 16 ^ (w + 2), rest) := by
    rw [scan_x_unsigned_plain, hscan]
    · simp
    · intro t ht; rw [h] at ht; simp at ht
      have hn := hexVal_not_delimiter c2 d2 hd2
      rw [ht.2.1] at hn; simp at hn
    · intro t ht; rw [h] at ht; simp at ht
      have hn := hexVal_not_delimiter c2 d2 hd2
      rw [ht.2.1] at hn; simp at hn
  unfold scan_x
  have hdw : List.dropWhile isspace (hexFixed (w + 2) v ++ rest) = hexFixed (w + 2) v ++ rest := by
    rw [h]; simp [List.dropWhile, hsp]
  rw [hdw]
  split
  · rename_i t ht; rw [h] at ht; simp at ht
    have hn := hexVal_not_delimiter c1 d1 hd1
    rw [ht.1] at hn; simp at hn
  · rename_i t ht; rw [h] at ht; simp at ht
    have hn := hexVal_not_delimiter c1 d1 hd1
    rw [ht.1] at hn; simp at hn
  · rw [hplain]

theorem scan_x_8 (v : Nat) (rest : List Char) :
    scan_x 8 (hexFixed 8 v ++ rest) = some (v % 16 ^ 8 % UINT_MOD, rest) :=
  scan_x_hexFixed 6 v rest

theorem scan_x_5 (v : Nat) (rest : List Char) :
    scan_x 5 (hexFixed 5 v ++ rest) = some (v % 16 ^ 5 % UINT_MOD, rest) :=
  scan_x_hexFixed 3 v rest

theorem dropWhile_not_comma (payload rest : List Char) (hc : ',' ∉ payload) :
    List.dropWhile (fun x => x != ',') (payload ++ ',' :: rest) = ',' :: rest := by
  induction payload with
  | nil => simp [List.dropWhile]
  | cons c cs ih =>
    have h1 : c ≠ ',' := fun h => hc (by simp [h])
    have h2 : ',' ∉ cs := fun h => hc (by simp [h])
    have h3 : (c != ',') = true := by simp [h1]
    simp only [List.cons_append, List.dropWhile_cons, h3, if_true]
    exact ih h2

theorem scan_not_comma_payload (payload rest : List Char) (hp : payload ≠ [])
    (hc : ',' ∉ payload) : scan_not_comma (payload ++ ',' :: rest) = some (',' :: rest) := by
  cases payload with
  | nil => exact absurd rfl hp
  | cons c cs =>
    have h1 : c ≠ ',' := fun h => hc (by simp [h])
    have h := dropWhile_not_comma (c :: cs) rest hc
    simp only [List.cons_append] at h
    simp [scan_not_comma, h1, h]

theorem wire_piece_cons (s r k n : Nat) (payload : List Char) :
    wire_piece s r k n payload =
      '?' :: 'O' :: 'T' :: 'R' :: '|' :: (hexFixed 8 s ++ '|' :: (hexFixed 8 r ++
        ',' :: (hexFixed 5 k ++ ',' :: (hexFixed 5 n ++ ',' :: (payload ++ [',']))))) := by
  simp [wire_piece]

theorem wire_piece_length (s r k n : Nat) (payload : List Char) :
    (wire_piece s r k n payload).length = 36 + payload.length := by
  simp [wire_piece, hexFixed_length]
  omega

theorem sscanf_wire_piece (s r k n : Nat) (payload : List Char) (hp : payload ≠ [])
    (hc : ',' ∉ payload) :
    sscanf_fragment (wire_piece s r k n payload) =
      ⟨s % 16 ^ 8 % UINT_MOD, r % 16 ^ 8 % UINT_MOD, k % 16 ^ 5 % UINT_MOD,
        n % 16 ^ 5 % UINT_MOD, 35, 36 + payload.length⟩ := by
  unfold sscanf_fragment
  rw [wire_piece_length, wire_piece_cons]
  simp only [scan_literal, if_true, scan_x_8, scan_x_5,
    scan_not_comma_payload payload [] hp hc, List.length_cons,
    List.length_append, List.length_nil]
  simp
  omega

theorem is_fragment_wire_piece (s r k n : Nat) (payload : List Char) :
    is_fragment (wire_piece s r k n payload) = true := by
  unfold is_fragment wire_piece
  simp only [List.append_assoc, List.cons_append, List.nil_append]
  rw [strstr]
  simp [List.isPrefixOf]

theorem drop_wire_piece (s r k n : Nat) (payload : List Char) :
    (wire_piece s r k n payload).drop 35 = payload ++ [','] := by
  have h : wire_piece s r k n payload =
      (['?', 'O', 'T', 'R', '|'] ++ hexFixed 8 s ++ ['|'] ++ hexFixed 8 r ++
        [','] ++ hexFixed 5 k ++ [','] ++ hexFixed 5 n ++ [',']) ++ (payload ++ [',']) := by
    simp [wire_piece]
  rw [h]
  apply List.drop_left'
  simp [hexFixed_length]

theorem mod_small (k : Nat) (hk : k < 16 ^ 5) : k % 16 ^ 5 % UINT_MOD = k := by
  rw [Nat.mod_eq_of_lt hk, Nat.mod_eq_of_lt (by unfold UINT_MOD; omega)]

/-- A well-formed first piece starts the accumulator afresh on any context. -/
theorem defragment_first (ctx : fragment_context_t) (s r n : Nat) (payload : List Char)
    (hn : n < 16 ^ 5) (hp : payload ≠ []) (hc : ',' ∉ payload) :
    otr4_defragment_message ctx (wire_piece s r 1 n payload) =
      some (defragment_finish
        { N := n, K := 1, fragment := string_ptr.heap payload,
          fragment_len := payload.length, status := OTR4_FRAGMENT_INCOMPLETE }) := by
  have hv := sscanf_wire_piece s r 1 n payload hp hc
  rw [mod_small n hn, mod_small 1 (by norm_num)] at hv
  have e1 : 36 + payload.length - 35 - 1 = payload.length := by omega
  unfold otr4_defragment_message
  rw [hv, is_fragment_wire_piece]
  dsimp only
  rw [if_neg (by simp), if_pos rfl, if_neg (by omega), drop_wire_piece, e1,
    List.take_left' rfl]

/-- A well-formed piece numbered one above the last accepted one is appended. -/
theorem defragment_next (ctx : fragment_context_t) (s r k n : Nat) (payload old : List Char)
    (hk : k < 16 ^ 5) (hk1 : k ≠ 1) (hK : k = ctx.K + 1) (hn : n < 16 ^ 5)
    (hp : payload ≠ []) (hc : ',' ∉ payload)
    (hf : ctx.fragment = string_ptr.heap old) (hl : ctx.fragment_len = old.length)
    (hsz : old.length + payload.length < 2 ^ 62) :
    otr4_defragment_message ctx (wire_piece s r k n payload) =
      some (defragment_finish
        { N := n, K := k, fragment := string_ptr.heap (old ++ payload),
          fragment_len := old.length + payload.length,
          status := OTR4_FRAGMENT_INCOMPLETE }) := by
  have hv := sscanf_wire_piece s r k n payload hp hc
  rw [mod_small n hn, mod_small k hk] at hv
  have hK' : k = (ctx.K + 1) % UINT_MOD := by
    rw [← hK, Nat.mod_eq_of_lt (by unfold UINT_MOD; omega)]
  have hbl : ((36 + payload.length : Nat) : Int) - ((35 : Nat) : Int) - 1 = (payload.length : Int) := by
    push_cast; ring
  have hsize : to_size_t ((old.length : Int) + (payload.length : Int) + 1) =
      old.length + payload.length + 1 := by
    rw [to_size_t_of_range _ (by positivity) (by omega)]
    omega
  have hpm : ¬ PTRDIFF_MAX < old.length + payload.length + 1 := by
    unfold PTRDIFF_MAX; omega
  unfold otr4_defragment_message
  rw [hv, is_fragment_wire_piece]
  dsimp only
  rw [if_neg (by simp), if_neg hk1, if_pos ⟨rfl, hK'⟩, hbl, hf, hl, hsize]
  dsimp only
  rw [if_neg hpm, if_neg (by simp [string_ptr.contents]), drop_wire_piece]
  simp [string_ptr.contents]

/-! ## Auxiliary facts: the fragmenting loop -/

theorem FRAGMENT_FORMAT_eq (a b k n : Nat) (payload : List Char) (ha : a < 16 ^ 8)
    (hb : b < 16 ^ 8) (hk : k < 16 ^ 5) (hn : n < 16 ^ 5) :
    FRAGMENT_FORMAT a b k n payload = wire_piece a b k n payload := by
  unfold FRAGMENT_FORMAT wire_piece printf_x
  rw [if_pos ha, if_pos hb, if_pos hk, if_pos hn]

theorem snprintf_wire_piece (H p a b k n : Nat) (payload : List Char) (hH : 37 ≤ H)
    (hp : payload.length ≤ p) :
    snprintf (p + H) (wire_piece a b k n payload) = wire_piece a b k n payload := by
  unfold snprintf
  apply List.take_of_length_le
  rw [wire_piece_length]
  omega

theorem fragment_loop_eq (H : Nat) (our their total : Int) (msglen limit p : Nat)
    (hH : 37 ≤ H) (ht0 : 0 ≤ total) (ht : total ≤ 65535)
    (hpl : loop_piece_len msglen limit = (p : Int)) (hp : (p : Int) + (H : Int) + 1 < 2 ^ 31) :
    ∀ (fuel cur : Nat) (msg : List Char), cur + fuel ≤ 65536 →
      fragment_loop H our their total msglen limit fuel (cur : Int) msg =
        some (pieces_from (to_unsigned our) (to_unsigned their) total.toNat p fuel cur msg) := by
  intro fuel
  induction fuel with
  | zero => intro cur msg _; rfl
  | succ fuel ih =>
    intro cur msg hcur
    have hpl' : (if msglen - 0 < limit then to_int (((msglen - 0 : Nat)) : Int)
        else to_int (limit : Int)) = (p : Int) := by
      simpa [loop_piece_len] using hpl
    have hih := ih (cur + 1) (msg.drop p) (by omega)
    have hcu : to_unsigned (cur : Int) = cur :=  by
      rw [to_unsigned_of_range _ (by positivity) (by omega)]; simp
    have htu : to_unsigned total = total.toNat := to_unsigned_of_range _ ht0 (by omega)
    unfold fragment_loop
    dsimp only
    rw [hpl', if_neg (by omega)]
    simp only [Int.toNat_ofNat]
    push_cast at hih
    rw [hih, hcu, htu, FRAGMENT_FORMAT_eq _ _ _ _ _ (to_unsigned_lt _) (to_unsigned_lt _)
      (by omega) (by omega), snprintf_wire_piece H p _ _ _ _ _ hH (by simp)]
    rfl

theorem malloc_pieces_ok (N : Nat) (hN : N ≤ 65535) :
    ¬ PTRDIFF_MAX < to_size_t (N : Int) * 8 % SIZE_MOD := by
  rw [to_size_t_of_range _ (by positivity) (by omega)]
  simp only [Int.toNat_ofNat]
  unfold PTRDIFF_MAX SIZE_MOD
  omega

theorem loop_piece_len_eq (len d : Nat) (hd31 : d < 2 ^ 31) :
    loop_piece_len len d = ((min len d : Nat) : Int) := by
  unfold loop_piece_len
  split_ifs with h
  · rw [to_int_of_range _ (by positivity) (by omega), Nat.min_eq_left (by omega)]
  · rw [to_int_of_range _ (by positivity) (by omega), Nat.min_eq_right (by omega)]

theorem total_le (len d : Nat) (hd1 : 1 ≤ d) (hlen : len ≤ d * 65535) :
    (len - 1) / d + 1 ≤ 65535 := by
  have : (len - 1) / d < 65535 := by
    rw [Nat.div_lt_iff_lt_mul (by omega)]
    omega
  omega

theorem fragment_message_eq (H : Nat) (mms our their : Int) (m : List Char)
    (hH : 37 ≤ H) (hlt : (H : Int) < mms) (hmms : mms + 1 < 2 ^ 31) (hne : m ≠ [])
    (hlen : m.length ≤ (mms - H).toNat * 65535) :
    otr4_fragment_message H mms our their m =
      some (OTR4_SUCCESS,
        ⟨(((m.length - 1) / (mms - H).toNat + 1 : Nat) : Int),
          pieces_from (to_unsigned our) (to_unsigned their)
            ((m.length - 1) / (mms - H).toNat + 1) (min m.length (mms - H).toNat)
            ((m.length - 1) / (mms - H).toNat + 1) 1 m⟩) := by
  obtain ⟨d, hd⟩ : ∃ d : Nat, mms - (H : Int) = (d : Int) := ⟨(mms - H).toNat, by omega⟩
  have hd1 : 1 ≤ d := by omega
  have hd31 : d + H + 1 < 2 ^ 31 := by omega
  have hlen1 : 1 ≤ m.length := by
    cases m with
    | nil => exact absurd rfl hne
    | cons c cs => simp
  rw [hd] at hlen ⊢
  simp only [Int.toNat_ofNat] at hlen ⊢
  have hN : (m.length - 1) / d + 1 ≤ 65535 := total_le _ _ hd1 hlen
  generalize hNdef : (m.length - 1) / d + 1 = N at hN ⊢
  have hlim : to_size_t (d : Int) = d := by
    rw [to_size_t_of_range _ (by positivity) (by omega)]; simp
  have hml : to_size_t ((m.length : Int) - 1) = m.length - 1 := by
    rw [to_size_t_of_range _ (by omega) (by omega)]; omega
  have hmod : N % SIZE_MOD = N := Nat.mod_eq_of_lt (by unfold SIZE_MOD; omega)
  have hti : to_int (N : Int) = (N : Int) := to_int_of_range _ (by positivity) (by omega)
  have hmal := malloc_pieces_ok N hN
  have hpl := loop_piece_len_eq m.length d (by omega)
  have hmin : min m.length d ≤ d := Nat.min_le_right _ _
  have hp31 : ((min m.length d : Nat) : Int) + (H : Int) + 1 < 2 ^ 31 := by
    have : ((min m.length d : Nat) : Int) ≤ (d : Int) := by exact_mod_cast hmin
    have h2 : ((d + H + 1 : Nat) : Int) < 2 ^ 31 := by exact_mod_cast hd31
    push_cast at h2
    linarith
  have hN0 : (0 : Int) ≤ (N : Int) := Int.ofNat_nonneg N
  have hN1 : (N : Int) ≤ 65535 := by exact_mod_cast hN
  have hN2 : 1 + N ≤ 65536 := by
    rw [Nat.add_comm]; exact Nat.succ_le_succ hN
  have hloop := fragment_loop_eq H our their (N : Int) m.length d (min m.length d) hH
    hN0 hN1 hpl hp31 N 1 m hN2
  unfold otr4_fragment_message
  dsimp only
  rw [hd, hlim, if_neg (Nat.pos_iff_ne_zero.mp hd1), hml, hNdef, hmod, hti,
    if_neg (not_lt.mpr hN1), if_neg hmal]
  simp only [Int.toNat_ofNat]
  simp only [Int.toNat_ofNat, Nat.cast_one] at hloop
  rw [hloop]

/-! ## Auxiliary facts: reassembling the pieces -/

theorem defragment_finish_fst (c : fragment_context_t) : (defragment_finish c).1 = OTR4_SUCCESS := by
  unfold defragment_finish; split_ifs <;> rfl

theorem defragment_finish_K (c : fragment_context_t) : (defragment_finish c).2.K = c.K := by
  unfold defragment_finish; split_ifs <;> rfl

theorem defragment_finish_N (c : fragment_context_t) : (defragment_finish c).2.N = c.N := by
  unfold defragment_finish; split_ifs <;> rfl

theorem defragment_finish_fragment (c : fragment_context_t) :
    (defragment_finish c).2.fragment = c.fragment := by
  unfold defragment_finish; split_ifs <;> rfl

theorem defragment_finish_fragment_len (c : fragment_context_t) :
    (defragment_finish c).2.fragment_len = c.fragment_len := by
  unfold defragment_finish; split_ifs <;> rfl

theorem defragment_finish_status (c : fragment_context_t) :
    (defragment_finish c).2.status =
      if 0 < c.N ∧ c.N = c.K then OTR4_FRAGMENT_COMPLETE else c.status := by
  unfold defragment_finish; split_ifs <;> rfl

theorem defragment_finish_eq (c : fragment_context_t) :
    defragment_finish c = (OTR4_SUCCESS, (defragment_finish c).2) := by
  unfold defragment_finish; split_ifs <;> rfl

theorem div_mul_lt (len d : Nat) (hlen : 1 ≤ len) : (len - 1) / d * d < len := by
  have h := Nat.div_mul_le_self (len - 1) d
  omega

theorem le_succ_div_mul (len d : Nat) (hd : 1 ≤ d) : len ≤ ((len - 1) / d + 1) * d := by
  have h1 := Nat.div_add_mod (len - 1) d
  have h2 := Nat.mod_lt (len - 1) (show 0 < d by omega)
  have h3 : ((len - 1) / d + 1) * d = d * ((len - 1) / d) + d := by ring
  omega

theorem defragment_all_pieces (a b n p : Nat) (hp : 0 < p) (hn : n < 16 ^ 5) :
    ∀ (f cur : Nat) (msg old : List Char) (ctx : fragment_context_t),
      2 ≤ cur → cur + f ≤ 16 ^ 5 → cur = ctx.K + 1 →
      ctx.fragment = string_ptr.heap old → ctx.fragment_len = old.length →
      ',' ∉ msg → (f ≠ 0 → (f - 1) * p < msg.length) →
      old.length + msg.length < 2 ^ 62 →
      ∃ ctx', defragment_all ctx (pieces_from a b n p f cur msg) =
          some (List.replicate f OTR4_SUCCESS, ctx') ∧
        ctx'.K + 1 = cur + f ∧
        ctx'.fragment = string_ptr.heap (old ++ msg.take (f * p)) ∧
        ctx'.fragment_len = (old ++ msg.take (f * p)).length ∧
        (f ≠ 0 → ctx'.N = n ∧
          ctx'.status = if 0 < n ∧ n = ctx'.K then OTR4_FRAGMENT_COMPLETE
            else OTR4_FRAGMENT_INCOMPLETE) := by
  intro f
  induction f with
  | zero =>
    intro cur msg old ctx _ _ hK hf hl _ _ _
    refine ⟨ctx, rfl, by omega, by simpa using hf, by simpa using hl, fun h => absurd rfl h⟩
  | succ f ih =>
    intro cur msg old ctx hcur hcf hK hf hl hc hne hsz
    have hmsg : 0 < msg.length := by
      have := hne (Nat.succ_ne_zero f)
      omega
    have hpay : msg.take p ≠ [] := by
      intro h
      have h0 := congrArg List.length h
      rw [List.length_take, List.length_nil] at h0
      have : min p msg.length = p ∨ min p msg.length = msg.length := by
        rcases Nat.le_total p msg.length with h1 | h1
        · exact Or.inl (Nat.min_eq_left h1)
        · exact Or.inr (Nat.min_eq_right h1)
      omega
    have hcp : ',' ∉ msg.take p := fun h => hc (List.mem_of_mem_take h)
    have hcd : ',' ∉ msg.drop p := fun h => hc (List.mem_of_mem_drop h)
    have htl : (msg.take p).length ≤ msg.length := by simp
    have hstep := defragment_next ctx a b cur n (msg.take p) old (by omega) (by omega) hK hn
      hpay hcp hf hl (by omega)
    rw [defragment_finish_eq] at hstep
    obtain ⟨ctx', h1, h2, h3, h4, h5⟩ := ih (cur + 1) (msg.drop p) (old ++ msg.take p)
      (defragment_finish
        { N := n, K := cur, fragment := string_ptr.heap (old ++ msg.take p),
          fragment_len := old.length + (msg.take p).length,
          status := OTR4_FRAGMENT_INCOMPLETE }).2
      (by omega) (by omega) (by rw [defragment_finish_K])
      (by rw [defragment_finish_fragment]) (by rw [defragment_finish_fragment_len]; simp)
      hcd
      (by
        intro hf0
        have : f * p < msg.length := by simpa using hne (Nat.succ_ne_zero f)
        have e : f * p = (f - 1) * p + p := by
          obtain ⟨g, rfl⟩ : ∃ g, f = g + 1 := ⟨f - 1, by omega⟩
          simp [Nat.add_mul]
        simp only [List.length_drop]
        omega)
      (by simp only [List.length_append, List.length_drop, List.length_take]; omega)
    have etake : old ++ msg.take p ++ (msg.drop p).take (f * p) = old ++ msg.take ((f + 1) * p) := by
      have : (f + 1) * p = p + f * p := by ring
      rw [this, List.take_add, List.append_assoc]
    refine ⟨ctx', ?_, by omega, by rw [h3, etake], by rw [h4, etake], fun _ => ?_⟩
    · simp only [pieces_from, defragment_all, hstep, h1, List.replicate_succ]
    · by_cases hf0 : f = 0
      · subst hf0
        simp only [pieces_from, defragment_all, List.replicate_zero, Option.some.injEq,
          Prod.mk.injEq, true_and] at h1
        subst h1
        rw [defragment_finish_N, defragment_finish_status, defragment_finish_K]
        exact ⟨rfl, rfl⟩
      · exact h5 hf0

theorem to_int_le (x : Nat) : to_int (x : Int) ≤ (x : Int) := by
  unfold to_int UINT_MOD
  have h0 : (0 : Int) ≤ (x : Int) := Int.ofNat_nonneg x
  have h1 : ((2 ^ 32 : Nat) : Int) = 4294967296 := by norm_num
  rw [h1]
  split_ifs <;> omega

theorem to_size_t_le (x : Int) (h0 : 0 ≤ x) : (to_size_t x : Int) ≤ x := by
  unfold to_size_t SIZE_MOD
  have h1 : ((2 ^ 64 : Nat) : Int) = 18446744073709551616 := by norm_num
  rw [h1]
  omega

theorem loop_piece_len_le (msglen limit : Nat) : loop_piece_len msglen limit ≤ (limit : Int) := by
  unfold loop_piece_len
  split_ifs with h
  · have := to_int_le msglen
    omega
  · exact to_int_le limit

theorem fragment_loop_succ (H : Nat) (our their total : Int) (msglen limit fuel : Nat)
    (cur : Int) (msg : List Char) :
    fragment_loop H our their total msglen limit (fuel + 1) cur msg =
      if loop_piece_len msglen limit < 0 ∨ 2 ^ 31 ≤ loop_piece_len msglen limit + (H : Int) + 1
      then none
      else
        match fragment_loop H our their total msglen limit fuel (cur + 1)
            (msg.drop (loop_piece_len msglen limit).toNat) with
        | none => none
        | some rest =>
          some (snprintf ((loop_piece_len msglen limit).toNat + H)
            (FRAGMENT_FORMAT (to_unsigned our) (to_unsigned their) (to_unsigned cur)
              (to_unsigned total) (msg.take (loop_piece_len msglen limit).toNat)) :: rest) := by
  rfl

theorem fragment_loop_length (H : Nat) (our their total : Int) (msglen limit : Nat) :
    ∀ (fuel : Nat) (cur : Int) (msg : List Char) (ps : List (List Char)),
      fragment_loop H our their total msglen limit fuel cur msg = some ps →
      ∀ x ∈ ps, (x.length : Int) + 1 ≤ loop_piece_len msglen limit + (H : Int) ∨ x = [] := by
  intro fuel
  induction fuel with
  | zero =>
    intro cur msg ps h x hx
    simp only [fragment_loop, Option.some.injEq] at h
    subst h
    simp at hx
  | succ fuel ih =>
    intro cur msg ps h x hx
    rw [fragment_loop_succ] at h
    by_cases hbad : loop_piece_len msglen limit < 0 ∨
        2 ^ 31 ≤ loop_piece_len msglen limit + (H : Int) + 1
    · rw [if_pos hbad] at h
      exact absurd h (by simp)
    · rw [if_neg hbad] at h
      push_neg at hbad
      cases hrest : fragment_loop H our their total msglen limit fuel (cur + 1)
          (msg.drop (loop_piece_len msglen limit).toNat) with
      | none => rw [hrest] at h; exact absurd h (by simp)
      | some rest =>
        rw [hrest] at h
        simp only [Option.some.injEq] at h
        subst h
        rcases List.mem_cons.mp hx with hx1 | hx1
        · by_cases hnil : x = []
          · exact Or.inr hnil
          · left
            have hpos : 0 < x.length := List.length_pos.mpr hnil
            have hl : x.length ≤ (loop_piece_len msglen limit).toNat + H - 1 := by
              rw [hx1]
              unfold snprintf
              rw [List.length_take]
              exact Nat.min_le_left _ _
            have h0 := hbad.1
            omega
        · exact ih _ _ _ hrest x hx1

theorem strstr_iff_occurs (haystack needle : List Char) :
    strstr haystack needle = true ↔ needle <:+: haystack := by
  induction haystack with
  | nil =>
    rw [strstr, List.isEmpty_iff, List.infix_nil]
  | cons c cs ih =>
    rw [strstr, Bool.or_eq_true, List.isPrefixOf_iff_prefix, ih, List.infix_cons_iff]

theorem strstr_eq_false_iff (haystack needle : List Char) :
    strstr haystack needle = false ↔ ¬ needle <:+: haystack := by
  rw [← strstr_iff_occurs, Bool.not_eq_true]

theorem strstr_append_mid (pre needle post : List Char) :
    strstr (pre ++ needle ++ post) needle = true :=
  (strstr_iff_occurs _ _).2 ⟨pre, post, rfl⟩

theorem strstr_of_part (haystack needle part : List Char)
    (hpart : part <:+: needle) (h : strstr haystack needle = true) :
    strstr haystack part = true :=
  (strstr_iff_occurs _ _).2 (hpart.trans ((strstr_iff_occurs _ _).1 h))

open otrv4_state otrv4_version otrv4_warning otrv4_in_message_type_t

theorem get_message_type_iff (message : List Char) :
    (get_message_type message = IN_MSG_TAGGED_PLAINTEXT ↔ tag_base <:+: message) ∧
    (get_message_type message = IN_MSG_QUERY_STRING ↔
      ¬ tag_base <:+: message ∧ query_header <:+: message) ∧
    (get_message_type message = IN_MSG_OTR_ENCODED ↔
      ¬ tag_base <:+: message ∧ ¬ query_header <:+: message ∧ otr_header <:+: message) ∧
    (get_message_type message = IN_MSG_PLAINTEXT ↔
      ¬ tag_base <:+: message ∧ ¬ query_header <:+: message ∧
        ¬ otr_header <:+: message) ∧
    get_message_type message ≠ IN_MSG_NONE := by
  unfold get_message_type message_contains_tag message_is_query message_is_otr_encoded
  rw [← strstr_iff_occurs, ← strstr_iff_occurs, ← strstr_iff_occurs]
  cases strstr message tag_base <;> cases strstr message query_header <;>
    cases strstr message otr_header <;> simp

/-! ## Auxiliary facts: the entry point for inbound messages -/

theorem otrv4_receive_message_not_commit (env : collaborators)
    (response : otrv4_response_t) (message : List Char) (otr : otrv4_t)
    (hver : otr.running_version ≠ OTRV4_VERSION_3)
    (hcommit : otr.running_version = OTRV4_VERSION_4 ∨
      allow_version otr OTRV4_ALLOW_V3 = 0 ∨
      strstr message ['?', 'O', 'T', 'R', ':', 'A', 'A', 'M', 'C'] = false) :
    otrv4_receive_message env response message otr =
      receive_message_v4_only env
        { to_display := none, to_send := none, warning := response.warning,
          tlvs := response.tlvs } message otr := by
  have hif : ¬ (otr.running_version = OTRV4_VERSION_NONE ∧
      allow_version otr OTRV4_ALLOW_V3 ≠ 0 ∧
      strstr message ['?', 'O', 'T', 'R', ':', 'A', 'A', 'M', 'C'] = true) := by
    rintro ⟨h1, h2, h3⟩
    rcases hcommit with h | h | h
    · rw [h1] at h; exact otrv4_version.noConfusion h
    · exact h2 h
    · rw [h3] at h; exact Bool.noConfusion h
  unfold otrv4_receive_message
  simp only [if_neg hif, set_to_display, otrv4_strndup]
  cases hv : otr.running_version with
  | OTRV4_VERSION_3 => exact absurd hv hver
  | OTRV4_VERSION_4 => rfl
  | OTRV4_VERSION_NONE => rfl

theorem strstr_commit_false (message : List Char)
    (henc : ¬ otr_header <:+: message) :
    strstr message ['?', 'O', 'T', 'R', ':', 'A', 'A', 'M', 'C'] = false := by
  rw [strstr_eq_false_iff]
  intro h
  exact henc (List.IsInfix.trans ⟨[], ['A', 'A', 'M', 'C'], rfl⟩ h)

theorem otrv4_build_whitespace_tag_eq (message : List Char) (otr : otrv4_t) :
    otrv4_build_whitespace_tag message otr =
      (OTR4_SUCCESS,
        some (tag_base ++
          (if allow_version otr OTRV4_ALLOW_V4 ≠ 0 then tag_version_v4 else []) ++
          (if allow_version otr OTRV4_ALLOW_V3 ≠ 0 then tag_version_v3 else []) ++
          message)) := by
  unfold otrv4_build_whitespace_tag stpncpy tag_base tag_version_v4 tag_version_v3
    WHITESPACE_TAG_BASE_BYTES WHITESPACE_TAG_VERSION_BYTES
  by_cases h4 : allow_version otr OTRV4_ALLOW_V4 ≠ 0 <;>
    by_cases h3 : allow_version otr OTRV4_ALLOW_V3 ≠ 0 <;>
    simp [h4, h3] <;>
    rw [if_neg (by omega), List.take_of_length_le (by omega)]

theorem start_dake_state (env : collaborators) (response : otrv4_response_t)
    (otr : otrv4_t) :
    (start_dake env response otr).otr.state = OTRV4_STATE_WAITING_AUTH_R ∧
    (start_dake env response otr).otr.running_version = otr.running_version ∧
    (start_dake env response otr).response.to_display = response.to_display := by
  refine ⟨rfl, rfl, ?_⟩
  unfold start_dake reply_with_identity_msg
  dsimp only
  split
  · rfl
  · split_ifs <;> rfl

theorem call_otrv3_receive_message_state (env : collaborators)
    (response : otrv4_response_t) (message : List Char) (otr : otrv4_t) :
    (call_otrv3_receive_message env response message otr).otr.state = otr.state ∧
    (call_otrv3_receive_message env response message otr).otr.running_version =
      otr.running_version := by
  unfold call_otrv3_receive_message
  exact ⟨rfl, rfl⟩

theorem set_running_version_from_tag_state (otr : otrv4_t) (message : List Char) :
    (set_running_version_from_tag otr message).state = otr.state := by
  unfold set_running_version_from_tag
  split_ifs <;> rfl

theorem set_running_version_from_query_msg_state (otr : otrv4_t) (message : List Char) :
    (set_running_version_from_query_msg otr message).state = otr.state := by
  unfold set_running_version_from_query_msg
  split_ifs <;> rfl

theorem receive_tagged_plaintext_state (env : collaborators)
    (response : otrv4_response_t) (message : List Char) (otr : otrv4_t) :
    (receive_tagged_plaintext env response message otr).otr.state = otr.state ∨
    ((receive_tagged_plaintext env response message otr).otr.state =
        OTRV4_STATE_WAITING_AUTH_R ∧
      (receive_tagged_plaintext env response message otr).otr.running_version =
        OTRV4_VERSION_4) := by
  have hs := set_running_version_from_tag_state otr message
  unfold receive_tagged_plaintext
  dsimp only
  cases hv : (set_running_version_from_tag otr message).running_version with
  | OTRV4_VERSION_NONE => exact Or.inl hs
  | OTRV4_VERSION_3 =>
    exact Or.inl ((call_otrv3_receive_message_state env response message _).1.trans hs)
  | OTRV4_VERSION_4 =>
    dsimp only
    split_ifs
    · exact Or.inl hs
    · exact Or.inr ⟨(start_dake_state env _ _).1, (start_dake_state env _ _).2.1.trans hv⟩

theorem receive_query_message_state (env : collaborators)
    (response : otrv4_response_t) (message : List Char) (otr : otrv4_t) :
    (receive_query_message env response message otr).otr.state = otr.state ∨
    ((receive_query_message env response message otr).otr.state =
        OTRV4_STATE_WAITING_AUTH_R ∧
      (receive_query_message env response message otr).otr.running_version =
        OTRV4_VERSION_4) := by
  have hs := set_running_version_from_query_msg_state otr message
  unfold receive_query_message
  dsimp only
  cases hv : (set_running_version_from_query_msg otr message).running_version with
  | OTRV4_VERSION_NONE => exact Or.inl hs
  | OTRV4_VERSION_3 =>
    exact Or.inl ((call_otrv3_receive_message_state env response message _).1.trans hs)
  | OTRV4_VERSION_4 =>
    exact Or.inr ⟨(start_dake_state env _ _).1, (start_dake_state env _ _).2.1.trans hv⟩

theorem receive_identity_message_finished (env : collaborators)
    (dst : Option (List Char)) (buff : List Nat) (buflen : Nat) (otr : otrv4_t)
    (hstate : otr.state = OTRV4_STATE_FINISHED) :
    ∃ d, receive_identity_message env dst buff buflen otr = some d ∧
      d.otr.state = OTRV4_STATE_FINISHED := by
  unfold receive_identity_message
  cases env.dake_identity_message_deserialize buff buflen with
  | none => exact ⟨_, rfl, hstate⟩
  | some m =>
    dsimp only
    have hs : (received_instance_tag m.sender_instance_tag otr).state =
        OTRV4_STATE_FINISHED := hstate
    by_cases hv : env.valid_received_values m.Y m.B m.profile = true
    · rw [if_neg (not_not.2 hv), hs]
      exact ⟨_, rfl, hs⟩
    · rw [if_pos hv]
      exact ⟨_, rfl, hs⟩

theorem receive_decoded_message_finished (env : collaborators)
    (response : otrv4_response_t) (decoded : List Nat) (dec_len : Nat) (otr : otrv4_t)
    (hstate : otr.state = OTRV4_STATE_FINISHED) :
    ∃ r, receive_decoded_message env response decoded dec_len otr = some r ∧
      r.otr.state = OTRV4_STATE_FINISHED := by
  unfold receive_decoded_message
  cases extract_header decoded dec_len with
  | none => exact ⟨_, rfl, hstate⟩
  | some header =>
    dsimp only
    by_cases h1 : allow_version otr header.version = 0
    · rw [if_pos h1]; exact ⟨_, rfl, hstate⟩
    rw [if_neg h1]
    by_cases h2 : header.version ≠ OTRV4_ALLOW_V4
    · rw [if_pos h2]; exact ⟨_, rfl, hstate⟩
    rw [if_neg h2]
    by_cases h3 : header.type = OTR_IDENTITY_MSG_TYPE
    · rw [if_pos h3]
      obtain ⟨d, hd, hs⟩ := receive_identity_message_finished env response.to_send decoded
        dec_len { otr with running_version := OTRV4_VERSION_4 } hstate
      rw [hd]
      exact ⟨_, rfl, hs⟩
    rw [if_neg h3]
    by_cases h4 : header.type = OTR_AUTH_R_MSG_TYPE
    · rw [if_pos h4]
      unfold receive_auth_r
      rw [if_pos (by rw [hstate]; decide)]
      exact ⟨_, rfl, hstate⟩
    rw [if_neg h4]
    by_cases h5 : header.type = OTR_AUTH_I_MSG_TYPE
    · rw [if_pos h5]
      unfold receive_auth_i
      rw [if_pos (by rw [hstate]; decide)]
      exact ⟨_, rfl, hstate⟩
    rw [if_neg h5]
    by_cases h6 : header.type = OTR_DATA_MSG_TYPE
    · rw [if_pos h6]
      unfold otrv4_receive_data_message
      rw [if_pos (by rw [hstate]; decide)]
      exact ⟨_, rfl, hstate⟩
    rw [if_neg h6]
    exact ⟨_, rfl, hstate⟩

theorem receive_message_v4_only_finished (env : collaborators)
    (response : otrv4_response_t) (message : List Char) (otr : otrv4_t)
    (hstate : otr.state = OTRV4_STATE_FINISHED) :
    ∃ r, receive_message_v4_only env response message otr = some r ∧
      (r.otr.state = OTRV4_STATE_FINISHED ∨
        (r.otr.state = OTRV4_STATE_WAITING_AUTH_R ∧
          r.otr.running_version = OTRV4_VERSION_4 ∧
          (tag_base <:+: message ∨ query_header <:+: message))) := by
  have hiff := get_message_type_iff message
  unfold receive_message_v4_only
  cases htype : get_message_type message with
  | IN_MSG_NONE => exact ⟨_, rfl, Or.inl hstate⟩
  | IN_MSG_PLAINTEXT => exact ⟨_, rfl, Or.inl hstate⟩
  | IN_MSG_TAGGED_PLAINTEXT =>
    refine ⟨_, rfl, ?_⟩
    rcases receive_tagged_plaintext_state env response message otr with h | h
    · exact Or.inl (h.trans hstate)
    · exact Or.inr ⟨h.1, h.2, Or.inl (hiff.1.1 htype)⟩
  | IN_MSG_QUERY_STRING =>
    refine ⟨_, rfl, ?_⟩
    rcases receive_query_message_state env response message otr with h | h
    · exact Or.inl (h.trans hstate)
    · exact Or.inr ⟨h.1, h.2, Or.inr (hiff.2.1.1 htype).2⟩
  | IN_MSG_OTR_ENCODED =>
    dsimp only
    unfold receive_encoded_message
    cases env.otrl_base64_otr_decode message with
    | none => exact ⟨_, rfl, Or.inl hstate⟩
    | some decoded =>
      obtain ⟨r, hr, hs⟩ :=
        receive_decoded_message_finished env response decoded decoded.length otr hstate
      exact ⟨r, hr, Or.inl hs⟩

/-! ## Auxiliary facts: the start of the key exchange -/

theorem receive_tagged_plaintext_v4 (env : collaborators) (response : otrv4_response_t)
    (message : List Char) (otr : otrv4_t)
    (h4 : allow_version otr OTRV4_ALLOW_V4 ≠ 0)
    (hv4 : strstr message tag_version_v4 = true) (hlen : 24 ≤ message.length) :
    receive_tagged_plaintext env response message otr =
      start_dake env { response with to_display := some (message.drop 24) }
        { otr with running_version := OTRV4_VERSION_4 } := by
  have htake : List.take (message.length - 24)
      (List.take (message.length - 24) (List.drop 24 message)) = List.drop 24 message := by
    rw [List.take_take, Nat.min_self, List.take_of_length_le]
    rw [List.length_drop]
  unfold receive_tagged_plaintext set_running_version_from_tag
  rw [if_pos ⟨h4, hv4⟩]
  dsimp only
  unfold message_to_display_without_tag WHITESPACE_TAG_BASE_BYTES
    WHITESPACE_TAG_VERSION_BYTES
  dsimp only
  rw [if_neg (Nat.not_lt.2 hlen), if_neg (by simp)]
  unfold set_to_display otrv4_strndup
  dsimp only
  rw [htake]

theorem receive_query_message_v4 (env : collaborators) (response : otrv4_response_t)
    (message : List Char) (otr : otrv4_t)
    (h4 : allow_version otr OTRV4_ALLOW_V4 ≠ 0)
    (hv4 : strstr message ['4'] = true) :
    receive_query_message env response message otr =
      start_dake env response { otr with running_version := OTRV4_VERSION_4 } := by
  unfold receive_query_message set_running_version_from_query_msg
  rw [if_pos ⟨h4, hv4⟩]

theorem start_dake_success (env : collaborators) (response : otrv4_response_t)
    (otr : otrv4_t) (m : dake_identity_message_t) (buff : List Nat)
    (hnew : env.dake_identity_message_new otr.profile = some m)
    (hser : env.dake_identity_message_asprintf
      { m with
        sender_instance_tag := otr.our_instance_tag,
        receiver_instance_tag := otr.their_instance_tag,
        Y := (env.key_manager_generate_ephemeral_keys otr.keys).our_ecdh,
        B := (env.key_manager_generate_ephemeral_keys otr.keys).our_dh } = some buff) :
    start_dake env response otr =
      ⟨OTR4_SUCCESS, { response with to_send := some (env.otrl_base64_otr_encode buff) },
        { otr with
          keys := env.key_manager_generate_ephemeral_keys otr.keys,
          state := OTRV4_STATE_WAITING_AUTH_R }⟩ := by
  unfold start_dake reply_with_identity_msg serialize_and_encode_identity_message
  dsimp only
  rw [hnew]
  dsimp only
  rw [hser]
  dsimp only
  rw [if_neg (by simp)]

theorem allow_version_otrv4_new (env : collaborators) (keypair : otrv4_keypair_t)
    (allows version : Nat) :
    allow_version (otrv4_new env keypair allows) version = allows &&& version := rfl

theorem receive_whitespace_tagged_new (env : collaborators) (keypair : otrv4_keypair_t)
    (rest : List Char) :
    ∃ r, otrv4_receive_message env otrv4_response_new
        (tag_base ++ tag_version_v4 ++ rest) (otrv4_new env keypair OTRV4_ALLOW_V4) =
        some r ∧
      r.response.to_display = some rest := by
  have h3 : allow_version (otrv4_new env keypair OTRV4_ALLOW_V4) OTRV4_ALLOW_V3 = 0 := by
    rw [allow_version_otrv4_new]; decide
  have h4 : allow_version (otrv4_new env keypair OTRV4_ALLOW_V4) OTRV4_ALLOW_V4 ≠ 0 := by
    rw [allow_version_otrv4_new]; decide
  have hver : (otrv4_new env keypair OTRV4_ALLOW_V4).running_version ≠ OTRV4_VERSION_3 := by
    intro h; exact otrv4_version.noConfusion h
  have htype : get_message_type (tag_base ++ tag_version_v4 ++ rest) =
      IN_MSG_TAGGED_PLAINTEXT :=
    (get_message_type_iff _).1.2 ⟨[], tag_version_v4 ++ rest, by simp⟩
  have hv4 : strstr (tag_base ++ tag_version_v4 ++ rest) tag_version_v4 = true :=
    strstr_append_mid tag_base tag_version_v4 rest
  have hlen : 24 ≤ (tag_base ++ tag_version_v4 ++ rest).length := by
    rw [List.length_append, List.length_append]
    exact Nat.le_add_right 24 rest.length
  have hdrop : List.drop 24 (tag_base ++ tag_version_v4 ++ rest) = rest :=
    List.drop_left' rfl
  rw [otrv4_receive_message_not_commit env _ _ _ hver (Or.inr (Or.inl h3))]
  unfold receive_message_v4_only
  rw [htype]
  dsimp only
  rw [receive_tagged_plaintext_v4 env _ _ _ h4 hv4 hlen]
  refine ⟨_, rfl, ?_⟩
  rw [(start_dake_state env _ _).2.2, hdrop]

/-! ## Auxiliary facts: the decoders of `deserialize.c` -/

theorem or_shiftLeft_eq (a b k : Nat) (ha : a < 2 ^ k) :
    a ||| (b <<< k) = b * 2 ^ k + a := by
  rw [Nat.shiftLeft_eq, Nat.or_comm, Nat.mul_comm, ← Nat.mul_add_lt_is_or ha]

theorem getD_lt_256 (l : List Nat) (h : ∀ b ∈ l, b < 256) (i : Nat) :
    l.getD i 0 < 256 := by
  rw [List.getD_eq_getElem?_getD]
  cases hi : l[i]? with
  | none => exact Nat.zero_lt_succ 255
  | some b => exact h b (List.getElem?_mem hi)

theorem getD_take_of_lt (l : List Nat) (i w : Nat) (hi : i < w) :
    (l.take w).getD i 0 = l.getD i 0 := by
  rw [List.getD_eq_getElem?_getD, List.getD_eq_getElem?_getD, List.getElem?_take_of_lt hi]

theorem uint16_value (b0 b1 : Nat) (h0 : b0 < 256) (h1 : b1 < 256) :
    (b1 ||| (b0 <<< 8)) % 2 ^ 16 = b0 * 256 + b1 := by
  rw [or_shiftLeft_eq b1 b0 8 h1]
  exact Nat.mod_eq_of_lt (by omega)

theorem uint32_value (b0 b1 b2 b3 : Nat) (h0 : b0 < 256) (h1 : b1 < 256) (h2 : b2 < 256)
    (h3 : b3 < 256) :
    (b3 % 2 ^ 32 ||| (b2 <<< 8) % 2 ^ 32 ||| (b1 <<< 16) % 2 ^ 32 |||
      (b0 <<< 24) % 2 ^ 32) =
      b0 * 256 ^ 3 + b1 * 256 ^ 2 + b2 * 256 + b3 := by
  rw [Nat.shiftLeft_eq, Nat.shiftLeft_eq, Nat.shiftLeft_eq,
    Nat.mod_eq_of_lt (show b3 < 2 ^ 32 by omega),
    Nat.mod_eq_of_lt (show b2 * 2 ^ 8 < 2 ^ 32 by omega),
    Nat.mod_eq_of_lt (show b1 * 2 ^ 16 < 2 ^ 32 by omega),
    Nat.mod_eq_of_lt (show b0 * 2 ^ 24 < 2 ^ 32 by omega),
    ← Nat.shiftLeft_eq, ← Nat.shiftLeft_eq, ← Nat.shiftLeft_eq,
    or_shiftLeft_eq b3 b2 8 h3,
    or_shiftLeft_eq _ b1 16 (by omega),
    or_shiftLeft_eq _ b0 24 (by omega)]
  omega

theorem uint64_value (b0 b1 b2 b3 b4 b5 b6 b7 : Nat) (h0 : b0 < 256) (h1 : b1 < 256)
    (h2 : b2 < 256) (h3 : b3 < 256) (h4 : b4 < 256) (h5 : b5 < 256) (h6 : b6 < 256)
    (h7 : b7 < 256) :
    (b7 % 2 ^ 64 ||| (b6 <<< 8) % 2 ^ 64 ||| (b5 <<< 16) % 2 ^ 64 |||
      (b4 <<< 24) % 2 ^ 64 ||| (b3 <<< 32) % 2 ^ 64 ||| (b2 <<< 40) % 2 ^ 64 |||
      (b1 <<< 48) % 2 ^ 64 ||| (b0 <<< 56) % 2 ^ 64) =
      b0 * 256 ^ 7 + b1 * 256 ^ 6 + b2 * 256 ^ 5 + b3 * 256 ^ 4 + b4 * 256 ^ 3 +
        b5 * 256 ^ 2 + b6 * 256 + b7 := by
  rw [Nat.shiftLeft_eq, Nat.shiftLeft_eq, Nat.shiftLeft_eq, Nat.shiftLeft_eq,
    Nat.shiftLeft_eq, Nat.shiftLeft_eq, Nat.shiftLeft_eq,
    Nat.mod_eq_of_lt (show b7 < 2 ^ 64 by omega),
    Nat.mod_eq_of_lt (show b6 * 2 ^ 8 < 2 ^ 64 by omega),
    Nat.mod_eq_of_lt (show b5 * 2 ^ 16 < 2 ^ 64 by omega),
    Nat.mod_eq_of_lt (show b4 * 2 ^ 24 < 2 ^ 64 by omega),
    Nat.mod_eq_of_lt (show b3 * 2 ^ 32 < 2 ^ 64 by omega),
    Nat.mod_eq_of_lt (show b2 * 2 ^ 40 < 2 ^ 64 by omega),
    Nat.mod_eq_of_lt (show b1 * 2 ^ 48 < 2 ^ 64 by omega),
    Nat.mod_eq_of_lt (show b0 * 2 ^ 56 < 2 ^ 64 by omega),
    ← Nat.shiftLeft_eq, ← Nat.shiftLeft_eq, ← Nat.shiftLeft_eq, ← Nat.shiftLeft_eq,
    ← Nat.shiftLeft_eq, ← Nat.shiftLeft_eq, ← Nat.shiftLeft_eq,
    or_shiftLeft_eq b7 b6 8 h7,
    or_shiftLeft_eq _ b5 16 (by omega),
    or_shiftLeft_eq _ b4 24 (by omega),
    or_shiftLeft_eq _ b3 32 (by omega),
    or_shiftLeft_eq _ b2 40 (by omega),
    or_shiftLeft_eq _ b1 48 (by omega),
    or_shiftLeft_eq _ b0 56 (by omega)]
  omega

theorem otrng_deserialize_uint8_eq (buffer : List Nat) (buff_len : Nat) :
    otrng_deserialize_uint8 buffer buff_len =
      if buff_len < 1 then none else some (big_endian_value 1 buffer, 1) := by
  unfold otrng_deserialize_uint8 big_endian_value
  simp [List.range_succ]

theorem otrng_deserialize_uint16_eq (buffer : List Nat) (buff_len : Nat)
    (hbytes : ∀ b ∈ buffer, b < 256) :
    otrng_deserialize_uint16 buffer buff_len =
      if buff_len < 2 then none else some (big_endian_value 2 buffer, 2) := by
  unfold otrng_deserialize_uint16 big_endian_value
  rw [uint16_value _ _ (getD_lt_256 buffer hbytes 0) (getD_lt_256 buffer hbytes 1)]
  simp [List.range_succ]

theorem otrng_deserialize_uint32_eq (buffer : List Nat) (buff_len : Nat)
    (hbytes : ∀ b ∈ buffer, b < 256) :
    otrng_deserialize_uint32 buffer buff_len =
      if buff_len < 4 then none else some (big_endian_value 4 buffer, 4) := by
  unfold otrng_deserialize_uint32 big_endian_value
  rw [uint32_value _ _ _ _ (getD_lt_256 buffer hbytes 0) (getD_lt_256 buffer hbytes 1)
    (getD_lt_256 buffer hbytes 2) (getD_lt_256 buffer hbytes 3)]
  simp [List.range_succ, Nat.add_assoc]

theorem otrng_deserialize_uint64_eq (buffer : List Nat) (buff_len : Nat)
    (hbytes : ∀ b ∈ buffer, b < 256) :
    otrng_deserialize_uint64 buffer buff_len =
      if buff_len < 8 then none else some (big_endian_value 8 buffer, 8) := by
  unfold otrng_deserialize_uint64 big_endian_value
  rw [uint64_value _ _ _ _ _ _ _ _ (getD_lt_256 buffer hbytes 0)
    (getD_lt_256 buffer hbytes 1) (getD_lt_256 buffer hbytes 2)
    (getD_lt_256 buffer hbytes 3) (getD_lt_256 buffer hbytes 4)
    (getD_lt_256 buffer hbytes 5) (getD_lt_256 buffer hbytes 6)
    (getD_lt_256 buffer hbytes 7)]
  simp [List.range_succ, Nat.add_assoc]

theorem to_size_t_sub (a b : Nat) (hb : b ≤ a) (ha : a < 2 ^ 64) :
    to_size_t ((a : Int) - (b : Int)) = a - b := by
  rw [to_size_t_of_range _ (by omega) (by omega)]
  omega

theorem to_size_t_add (a b : Nat) (h : a + b < 2 ^ 64) :
    to_size_t ((a : Int) + (b : Int)) = a + b := by
  rw [to_size_t_of_range _ (by omega) (by omega)]
  omega

theorem otrng_deserialize_data_eq (dst : Option (List Nat)) (dst_len : Nat)
    (buffer : List Nat) (buff_len : Nat) (hbytes : ∀ b ∈ buffer, b < 256)
    (hsize : buff_len < 2 ^ 64) :
    otrng_deserialize_data dst dst_len buffer buff_len =
      if buff_len < 4 then ⟨otrng_result.OTRNG_ERROR, dst, dst_len, 0⟩
      else if big_endian_value 4 buffer = 0 then
        ⟨otrng_result.OTRNG_SUCCESS, dst, dst_len, 4⟩
      else if buff_len - 4 < big_endian_value 4 buffer then
        ⟨otrng_result.OTRNG_ERROR, dst, dst_len, 4⟩
      else
        ⟨otrng_result.OTRNG_SUCCESS,
          some ((buffer.drop 4).take (big_endian_value 4 buffer)),
          big_endian_value 4 buffer, 4 + big_endian_value 4 buffer⟩ := by
  unfold otrng_deserialize_data
  rw [otrng_deserialize_uint32_eq buffer buff_len hbytes]
  by_cases h4 : buff_len < 4
  · rw [if_pos h4, if_pos h4]
  · rw [if_neg h4, if_neg h4]
    dsimp only
    rw [to_size_t_sub buff_len 4 (by omega) hsize]
    by_cases h0 : big_endian_value 4 buffer = 0
    · rw [if_pos h0, if_pos h0]
    · rw [if_neg h0, if_neg h0]
      by_cases hs : buff_len - 4 < big_endian_value 4 buffer
      · rw [if_pos hs, if_pos hs]
      · rw [if_neg hs, if_neg hs, to_size_t_add 4 _ (by omega)]

theorem key_record_eq (otrng_ec_point_decode : List Nat → Option (List Nat))
    (ser : List Nat) (ser_len : Nat) (hbytes : ∀ b ∈ ser, b < 256)
    (hsize : ser_len < 2 ^ 64) :
    otrng_deserialize_public_key otrng_ec_point_decode ser ser_len =
        deserialize_key_record otrng_ec_point_decode 0x0010 59 ser ser_len ∧
      otrng_deserialize_forging_key otrng_ec_point_decode ser ser_len =
        deserialize_key_record otrng_ec_point_decode 0x0011 59 ser ser_len ∧
      otrng_deserialize_shared_prekey otrng_ec_point_decode ser ser_len =
        deserialize_key_record otrng_ec_point_decode 0x0012 59 ser ser_len := by
  unfold otrng_deserialize_public_key otrng_deserialize_forging_key
    otrng_deserialize_shared_prekey deserialize_key_record otrng_deserialize_ec_point
    ED448_PUBKEY_BYTES ED448_SHARED_PREKEY_BYTES ED448_POINT_BYTES ED448_PUBKEY_TYPE
    ED448_FORGINGKEY_TYPE ED448_SHARED_PREKEY_TYPE
  dsimp only
  rw [otrng_deserialize_uint16_eq ser ser_len hbytes]
  by_cases h : ser_len < 59
  · simp only [Nat.reduceAdd, if_pos h, and_self]
  · have h2 : ¬ ser_len < 2 := by omega
    have h57 : ¬ ser_len - 2 < 57 := by omega
    simp only [Nat.reduceAdd, if_neg h, if_neg h2, to_size_t_sub ser_len 2 (by omega) hsize,
      if_neg h57]
    refine ⟨?_, ?_, ?_⟩ <;> split_ifs <;>
      cases otrng_ec_point_decode (List.take 57 (List.drop 2 ser)) <;> rfl

/-! ## Auxiliary facts: headers and data messages -/

theorem extract_header_eq (buffer : List Nat) (bufflen : Nat)
    (hbytes : ∀ b ∈ buffer, b < 256) :
    extract_header buffer bufflen =
      if bufflen < 3 then none
      else some ⟨if big_endian_value 2 buffer = 0x04 then OTRV4_ALLOW_V4
          else if big_endian_value 2 buffer = 0x03 then OTRV4_ALLOW_V3
          else OTRV4_ALLOW_NONE,
        buffer.getD 2 0⟩ := by
  unfold extract_header deserialize_uint16 deserialize_uint8 otrng_deserialize_uint8
  rw [otrng_deserialize_uint16_eq buffer bufflen hbytes]
  by_cases h2 : bufflen < 2
  · rw [if_pos h2, if_pos (by omega)]
  · rw [if_neg h2]
    dsimp only
    by_cases h3 : bufflen < 3
    · rw [if_pos (by omega), if_pos h3]
    · rw [if_neg (by omega), if_neg h3]
      dsimp only
      rw [List.getD_eq_getElem?_getD, List.getD_eq_getElem?_getD, List.getElem?_drop]

theorem takeWhile_ne_zero (a b : List Nat) (ha : ∀ x ∈ a, x ≠ 0) :
    (a ++ 0 :: b).takeWhile (fun x => x ≠ 0) = a := by
  induction a with
  | nil => simp
  | cons x xs ih =>
    have hx : x ≠ 0 := ha x (List.mem_cons_self x xs)
    have hxs : ∀ y ∈ xs, y ≠ 0 := fun y hy => ha y (List.mem_cons_of_mem x hy)
    rw [List.cons_append, List.takeWhile_cons, if_pos (by simpa using hx), ih hxs]

theorem serlialize_tlvs_eq (ts : List tlv_t)
    (hts : ∀ t ∈ ts, t.type < 65536 ∧ t.len < 65536 ∧ t.data.length = t.len)
    (hsize : ¬ PTRDIFF_MAX < (ts.map (fun t => t.len + 4)).sum) :
    serlialize_tlvs ts = some (tlvs_blob ts) := by
  unfold serlialize_tlvs tlvs_blob
  by_cases h0 : ts = []
  · rw [if_pos h0, h0]; rfl
  · rw [if_neg h0]
    dsimp only
    rw [if_neg hsize]
    congr 2
    apply List.map_congr_left
    intro t ht
    obtain ⟨h1, h2, h3⟩ := hts t ht
    unfold serialize_uint16 serialize_bytes_array
    rw [Nat.mod_eq_of_lt (Nat.div_lt_of_lt_mul (by omega : t.type < 256 * 256)),
      Nat.mod_eq_of_lt (Nat.div_lt_of_lt_mul (by omega : t.len < 256 * 256)),
      List.take_of_length_le (Nat.le_of_eq h3)]
    rfl

theorem tlvs_blob_length (ts : List tlv_t) (hts : ∀ t ∈ ts, t.data.length = t.len) :
    (tlvs_blob ts).length = (ts.map (fun t => t.len + 4)).sum := by
  unfold tlvs_blob
  induction ts with
  | nil => rfl
  | cons t rest ih =>
    have ht : t.data.length = t.len := hts t (List.mem_cons_self t rest)
    have hrest : ∀ u ∈ rest, u.data.length = u.len :=
      fun u hu => hts u (List.mem_cons_of_mem t hu)
    simp only [List.map_cons, List.flatten_cons, List.length_append, List.sum_cons,
      List.length_cons, List.length_nil, ih hrest, ht]
    omega

/-! ## Auxiliary facts: the prekey client -/

theorem prekey_decode_eq_none_iff (env : prekey_collaborators) (msg : List Char) :
    prekey_decode env msg = none ↔ (msg = [] ∨ msg.getLast? ≠ some '.') := by
  unfold prekey_decode
  dsimp only
  by_cases h0 : msg = []
  · subst h0
    simp
  · have hlen : msg.length ≠ 0 := fun h => h0 (List.length_eq_zero.1 h)
    have hlt : msg.length - 1 < msg.length := Nat.sub_lt (Nat.pos_of_ne_zero hlen) Nat.one_pos
    have hlast : msg.getLast? = some (msg.getD (msg.length - 1) (Char.ofNat 0)) := by
      rw [List.getLast?_eq_getElem?, List.getD_eq_getElem?_getD, List.getElem?_eq_getElem hlt]
      rfl
    rw [hlast]
    by_cases hdot : '.' = msg.getD (msg.length - 1) (Char.ofNat 0)
    · rw [if_neg (by rintro (h | h); exact hlen h; exact h hdot)]
      constructor
      · intro h; cases h
      · rintro (h | h)
        · exact absurd h h0
        · exact absurd (by rw [← hdot]) h
    · rw [if_pos (Or.inr hdot)]
      constructor
      · intro _
        refine Or.inr ?_
        intro h
        exact hdot (Option.some.inj h).symm
      · intro _; rfl

/-! ## Auxiliary facts: dispatch in the prekey client -/

theorem receive_decoded_of_header (env : prekey_collaborators) (decoded : List Nat)
    (decoded_len : Nat) (client : otrng_client_s) (msg_type w : Nat)
    (h : parse_header decoded decoded_len = some (msg_type, w)) :
    receive_decoded env decoded decoded_len client =
      if msg_type = OTRNG_PREKEY_DAKE2_MSG then receive_dake2 env decoded decoded_len client
      else if msg_type = OTRNG_PREKEY_SUCCESS_MSG then
        receive_success env decoded decoded_len client
      else if msg_type = OTRNG_PREKEY_FAILURE_MSG then
        receive_failure env decoded decoded_len client
      else if msg_type = OTRNG_PREKEY_NO_PREKEY_IN_STORAGE_MSG then
        receive_no_prekey_in_storage decoded decoded_len client
      else if msg_type = OTRNG_PREKEY_ENSEMBLE_RETRIEVAL_MSG then
        receive_prekey_ensemble_retrieval env decoded decoded_len client
      else if msg_type = OTRNG_PREKEY_STORAGE_STATUS_MSG then
        receive_storage_status env decoded decoded_len client
      else (none, notify_error_callback client OTRNG_PREKEY_CLIENT_MALFORMED_MSG) := by
  unfold receive_decoded
  rw [h]

theorem dake2_deserialize_header (env : prekey_collaborators) (ser : List Nat)
    (ser_len : Nat) (msg : otrng_prekey_dake2_message_s)
    (h : otrng_prekey_dake2_message_deserialize env ser ser_len = some msg) :
    ∃ w, parse_header ser ser_len = some (OTRNG_PREKEY_DAKE2_MSG, w) := by
  unfold otrng_prekey_dake2_message_deserialize at h
  cases hp : parse_header ser ser_len with
  | none => rw [hp] at h; cases h
  | some p =>
    obtain ⟨msg_type, w⟩ := p
    rw [hp] at h
    dsimp only at h
    by_cases ht : msg_type = OTRNG_PREKEY_DAKE2_MSG
    · exact ⟨w, by rw [ht]⟩
    · rw [if_pos ht] at h
      cases h

theorem storage_status_deserialize_header (ser : List Nat) (ser_len : Nat)
    (msg : otrng_prekey_storage_status_message_s)
    (h : otrng_prekey_storage_status_message_deserialize ser ser_len = some msg) :
    ∃ w, parse_header ser ser_len = some (OTRNG_PREKEY_STORAGE_STATUS_MSG, w) := by
  unfold otrng_prekey_storage_status_message_deserialize at h
  cases hp : parse_header ser ser_len with
  | none => rw [hp] at h; cases h
  | some p =>
    obtain ⟨msg_type, w⟩ := p
    rw [hp] at h
    dsimp only at h
    by_cases ht : msg_type = OTRNG_PREKEY_STORAGE_STATUS_MSG
    · exact ⟨w, by rw [ht]⟩
    · rw [if_pos ht] at h
      cases h

theorem ensemble_retrieval_deserialize_header (env : prekey_collaborators) (ser : List Nat)
    (ser_len : Nat) (msg : otrng_prekey_ensemble_retrieval_message_s)
    (h : otrng_prekey_ensemble_retrieval_message_deserialize env ser ser_len = some msg) :
    ∃ w, parse_header ser ser_len = some (OTRNG_PREKEY_ENSEMBLE_RETRIEVAL_MSG, w) := by
  unfold otrng_prekey_ensemble_retrieval_message_deserialize at h
  cases hp : parse_header ser ser_len with
  | none => rw [hp] at h; cases h
  | some p =>
    obtain ⟨msg_type, w⟩ := p
    rw [hp] at h
    dsimp only at h
    by_cases ht : msg_type = OTRNG_PREKEY_ENSEMBLE_RETRIEVAL_MSG
    · exact ⟨w, by rw [ht]⟩
    · rw [if_pos ht] at h
      cases h

theorem send_dake3_calls (env : prekey_collaborators) (dake_2 : otrng_prekey_dake2_message_s)
    (client : otrng_client_s) :
    (send_dake3 env dake_2 client).2.calls = client.calls ∨
    (send_dake3 env dake_2 client).2.calls =
      client.calls ++ [prekey_callback_call.build_prekey_publication_message] := by
  unfold send_dake3
  dsimp only
  iterate 9
    split
    · exact Or.inl rfl
  cases hnext : client.prekey_client.after_dake
  · exact Or.inl rfl
  · dsimp only
    generalize otrng_prekey_dake3_message_append_storage_information_request env _ = a
    rcases a with _ | ⟨msg, msg_len⟩
    · exact Or.inl rfl
    · exact Or.inl rfl
  · dsimp only [build_prekey_publication_message_callback]
    generalize env.build_prekey_publication_message _ _ = b
    rcases b with _ | pub_msg
    · exact Or.inr rfl
    · dsimp only
      generalize env.shake_256_prekey_server_kdf HASH_BYTES _ _ = m
      rcases m with _ | mac
      · exact Or.inr rfl
      · dsimp only
        generalize env.append_prekey_publication_message _ _ _ = p
        rcases p with _ | msg
        · exact Or.inr rfl
        · exact Or.inr rfl

theorem otrl_mem_differ_eq_zero (buf1 buf2 : List Nat) (len : Nat)
    (h : ¬ otrl_mem_differ buf1 buf2 len ≠ 0) : buf1.take len = buf2.take len := by
  unfold otrl_mem_differ at h
  by_cases he : buf1.take len = buf2.take len
  · exact he
  · rw [if_neg he] at h
    exact absurd (by decide) h

theorem carries_valid_mac_of_steps (env : prekey_collaborators) (usage : Nat)
    (mac_key fields carried h1 h2 h3 : List Nat)
    (e1 : kdf_init_with_usage env usage = some h1)
    (e2 : env.hash_update h1 (mac_key.take MAC_KEY_BYTES) = some h2)
    (e3 : env.hash_update h2 fields = some h3)
    (e4 : ¬ otrl_mem_differ (env.hash_final h3 HASH_BYTES) carried HASH_BYTES ≠ 0) :
    carries_valid_mac env usage mac_key fields carried = true := by
  unfold carries_valid_mac prekey_response_mac
  rw [e1]
  dsimp only
  rw [e2]
  dsimp only
  rw [e3]
  dsimp only
  exact decide_eq_true (otrl_mem_differ_eq_zero _ _ _ e4)

theorem receive_success_calls (env : prekey_collaborators) (decoded : List Nat)
    (decoded_len : Nat) (client : otrng_client_s) :
    ∃ added, (receive_success env decoded decoded_len client).2.calls = client.calls ++ added ∧
      ∀ c ∈ added, (∃ e, c = prekey_callback_call.notify_error e) ∨
        (c = prekey_callback_call.success_received ∧
          carries_valid_mac env 0x0C client.prekey_client.mac_key ((decoded.drop 2).take 5)
            (decoded.drop 7) = true) := by
  have hnone : ∀ e, ∃ added, (notify_error_callback client e).calls = client.calls ++ added ∧
      ∀ c ∈ added, (∃ e, c = prekey_callback_call.notify_error e) ∨
        (c = prekey_callback_call.success_received ∧
          carries_valid_mac env 0x0C client.prekey_client.mac_key ((decoded.drop 2).take 5)
            (decoded.drop 7) = true) := fun e =>
    ⟨[prekey_callback_call.notify_error e], rfl, fun c hc =>
      Or.inl ⟨e, List.mem_singleton.1 hc⟩⟩
  have hsame : ∃ added, client.calls = client.calls ++ added ∧
      ∀ c ∈ added, (∃ e, c = prekey_callback_call.notify_error e) ∨
        (c = prekey_callback_call.success_received ∧
          carries_valid_mac env 0x0C client.prekey_client.mac_key ((decoded.drop 2).take 5)
            (decoded.drop 7) = true) :=
    ⟨[], (List.append_nil _).symm, fun c hc => absurd hc (List.not_mem_nil c)⟩
  unfold receive_success
  dsimp only
  by_cases hlen : decoded_len < OTRNG_PREKEY_SUCCESS_MSG_LEN
  · rw [if_pos hlen]
    exact hnone _
  rw [if_neg hlen]
  cases hread : otrng_deserialize_uint32 (decoded.drop 3)
      (to_size_t ((decoded_len : Int) - 3)) with
  | none => exact hnone _
  | some p =>
    obtain ⟨instance_tag, read⟩ := p
    dsimp only
    by_cases htag : instance_tag ≠ client.prekey_client.instance_tag
    · rw [if_pos htag]
      exact hsame
    rw [if_neg htag]
    cases e1 : kdf_init_with_usage env 0x0C with
    | none => exact hsame
    | some h1 =>
      dsimp only
      cases e2 : env.hash_update h1 (client.prekey_client.mac_key.take MAC_KEY_BYTES) with
      | none => exact hsame
      | some h2 =>
        dsimp only
        cases e3 : env.hash_update h2 ((decoded.drop 2).take 5) with
        | none => exact hsame
        | some h3 =>
          dsimp only
          by_cases e4 : otrl_mem_differ (env.hash_final h3 HASH_BYTES) (decoded.drop 7)
              HASH_BYTES ≠ 0
          · rw [if_pos e4]
            exact hnone _
          · rw [if_neg e4]
            exact ⟨[prekey_callback_call.success_received], rfl, fun c hc =>
              Or.inr ⟨List.mem_singleton.1 hc,
                carries_valid_mac_of_steps env 0x0C _ _ _ h1 h2 h3 e1 e2 e3 e4⟩⟩

theorem receive_failure_calls (env : prekey_collaborators) (decoded : List Nat)
    (decoded_len : Nat) (client : otrng_client_s) :
    ∃ added, (receive_failure env decoded decoded_len client).2.calls = client.calls ++ added ∧
      ∀ c ∈ added, (∃ e, c = prekey_callback_call.notify_error e) ∨
        (c = prekey_callback_call.failure_received ∧
          carries_valid_mac env 0x0D client.prekey_client.mac_key ((decoded.drop 2).take 5)
            (decoded.drop 7) = true) := by
  have hnone : ∀ e, ∃ added, (notify_error_callback client e).calls = client.calls ++ added ∧
      ∀ c ∈ added, (∃ e, c = prekey_callback_call.notify_error e) ∨
        (c = prekey_callback_call.failure_received ∧
          carries_valid_mac env 0x0D client.prekey_client.mac_key ((decoded.drop 2).take 5)
            (decoded.drop 7) = true) := fun e =>
    ⟨[prekey_callback_call.notify_error e], rfl, fun c hc =>
      Or.inl ⟨e, List.mem_singleton.1 hc⟩⟩
  have hsame : ∃ added, client.calls = client.calls ++ added ∧
      ∀ c ∈ added, (∃ e, c = prekey_callback_call.notify_error e) ∨
        (c = prekey_callback_call.failure_received ∧
          carries_valid_mac env 0x0D client.prekey_client.mac_key ((decoded.drop 2).take 5)
            (decoded.drop 7) = true) :=
    ⟨[], (List.append_nil _).symm, fun c hc => absurd hc (List.not_mem_nil c)⟩
  unfold receive_failure
  dsimp only
  by_cases hlen : decoded_len < OTRNG_PREKEY_FAILURE_MSG_LEN
  · rw [if_pos hlen]
    exact hnone _
  rw [if_neg hlen]
  cases hread : otrng_deserialize_uint32 (decoded.drop 3)
      (to_size_t ((decoded_len : Int) - 3)) with
  | none => exact hnone _
  | some p =>
    obtain ⟨instance_tag, read⟩ := p
    dsimp only
    by_cases htag : instance_tag ≠ client.prekey_client.instance_tag
    · rw [if_pos htag]
      exact hsame
    rw [if_neg htag]
    cases e1 : kdf_init_with_usage env 0x0D with
    | none => exact hsame
    | some h1 =>
      dsimp only
      cases e2 : env.hash_update h1 (client.prekey_client.mac_key.take MAC_KEY_BYTES) with
      | none => exact hsame
      | some h2 =>
        dsimp only
        cases e3 : env.hash_update h2 ((decoded.drop 2).take 5) with
        | none => exact hsame
        | some h3 =>
          dsimp only
          by_cases e4 : otrl_mem_differ (env.hash_final h3 HASH_BYTES) (decoded.drop 7)
              HASH_BYTES ≠ 0
          · rw [if_pos e4]
            exact hnone _
          · rw [if_neg e4]
            exact ⟨[prekey_callback_call.failure_received], rfl, fun c hc =>
              Or.inr ⟨List.mem_singleton.1 hc,
                carries_valid_mac_of_steps env 0x0D _ _ _ h1 h2 h3 e1 e2 e3 e4⟩⟩

theorem storage_status_valid_mac (env : prekey_collaborators)
    (msg : otrng_prekey_storage_status_message_s) (mac_key : List Nat)
    (h : otrng_prekey_storage_status_message_valid env msg mac_key = true) :
    carries_valid_mac env 0x0B mac_key
      ([OTRNG_PREKEY_STORAGE_STATUS_MSG] ++ otrng_serialize_uint32 msg.client_instance_tag ++
        otrng_serialize_uint32 msg.stored_prekeys) msg.mac = true := by
  unfold otrng_prekey_storage_status_message_valid at h
  dsimp only at h
  rw [if_neg (by simp [otrng_serialize_uint32]), if_neg (by simp [otrng_serialize_uint32])] at h
  cases e1 : kdf_init_with_usage env 0x0B with
  | none => rw [e1] at h; cases h
  | some h1 =>
    rw [e1] at h
    dsimp only at h
    cases e2 : env.hash_update h1 (mac_key.take MAC_KEY_BYTES) with
    | none => rw [e2] at h; cases h
    | some h2 =>
      rw [e2] at h
      dsimp only at h
      cases e3 : env.hash_update h2 ([OTRNG_PREKEY_STORAGE_STATUS_MSG] ++
          otrng_serialize_uint32 msg.client_instance_tag ++
          otrng_serialize_uint32 msg.stored_prekeys) with
      | none => rw [e3] at h; cases h
      | some h3 =>
        rw [e3] at h
        dsimp only at h
        by_cases e4 : otrl_mem_differ (env.hash_final h3 HASH_BYTES) msg.mac HASH_BYTES ≠ 0
        · rw [if_pos e4] at h
          cases h
        · exact carries_valid_mac_of_steps env 0x0B _ _ _ h1 h2 h3 e1 e2 e3 e4

theorem receive_storage_status_calls (env : prekey_collaborators) (decoded : List Nat)
    (decoded_len : Nat) (client : otrng_client_s) :
    ∃ added,
      (receive_storage_status env decoded decoded_len client).2.calls = client.calls ++ added ∧
      ∀ c ∈ added, (∃ e, c = prekey_callback_call.notify_error e) ∨
        (∃ s, c = prekey_callback_call.low_prekey_messages_in_storage s) ∨
        (∃ msg, c = prekey_callback_call.storage_status_received msg ∧
          otrng_prekey_storage_status_message_deserialize decoded decoded_len = some msg ∧
          carries_valid_mac env 0x0B client.prekey_client.mac_key
            ([OTRNG_PREKEY_STORAGE_STATUS_MSG] ++
              otrng_serialize_uint32 msg.client_instance_tag ++
              otrng_serialize_uint32 msg.stored_prekeys) msg.mac = true) := by
  unfold receive_storage_status
  cases hmsg : otrng_prekey_storage_status_message_deserialize decoded decoded_len with
  | none =>
    exact ⟨[prekey_callback_call.notify_error _], rfl, fun c hc =>
      Or.inl ⟨_, List.mem_singleton.1 hc⟩⟩
  | some msg =>
    dsimp only
    unfold process_received_storage_status
    dsimp only
    by_cases htag : msg.client_instance_tag ≠ client.prekey_client.instance_tag
    · rw [if_pos htag]
      exact ⟨[], (List.append_nil _).symm, fun c hc => absurd hc (List.not_mem_nil c)⟩
    rw [if_neg htag]
    by_cases hvalid :
        ¬ otrng_prekey_storage_status_message_valid env msg client.prekey_client.mac_key = true
    · rw [if_pos hvalid]
      exact ⟨[prekey_callback_call.notify_error _], rfl, fun c hc =>
        Or.inl ⟨_, List.mem_singleton.1 hc⟩⟩
    rw [if_neg hvalid]
    have hmac := storage_status_valid_mac env msg client.prekey_client.mac_key
      (not_not.1 hvalid)
    by_cases hlow : msg.stored_prekeys <
        client.prekey_client.publication_policy.minimum_stored_prekey_message
    · rw [if_pos hlow]
      refine ⟨[prekey_callback_call.low_prekey_messages_in_storage
          client.prekey_client.server_identity,
        prekey_callback_call.storage_status_received msg], ?_, ?_⟩
      · simp [prekey_storage_status_received_callback,
          low_prekey_messages_in_storage_callback]
      · intro c hc
        rcases List.mem_cons.1 hc with h | h
        · exact Or.inr (Or.inl ⟨_, h⟩)
        · exact Or.inr (Or.inr ⟨msg, List.mem_singleton.1 h, rfl, hmac⟩)
    · rw [if_neg hlow]
      exact ⟨[prekey_callback_call.storage_status_received msg], rfl, fun c hc =>
        Or.inr (Or.inr ⟨msg, List.mem_singleton.1 hc, rfl, hmac⟩)⟩

theorem receive_no_prekey_in_storage_calls (decoded : List Nat) (decoded_len : Nat)
    (client : otrng_client_s) :
    ∃ added,
      (receive_no_prekey_in_storage decoded decoded_len client).2.calls =
        client.calls ++ added ∧
      ∀ c ∈ added, (∃ e, c = prekey_callback_call.notify_error e) ∨
        c = prekey_callback_call.no_prekey_in_storage_received := by
  unfold receive_no_prekey_in_storage
  cases hread : otrng_deserialize_uint32 (decoded.drop 3)
      (to_size_t ((decoded_len : Int) - 3)) with
  | none =>
    exact ⟨[prekey_callback_call.notify_error _], rfl, fun c hc =>
      Or.inl ⟨_, List.mem_singleton.1 hc⟩⟩
  | some p =>
    obtain ⟨instance_tag, read⟩ := p
    dsimp only
    by_cases htag : instance_tag ≠ client.prekey_client.instance_tag
    · rw [if_pos htag]
      exact ⟨[], (List.append_nil _).symm, fun c hc => absurd hc (List.not_mem_nil c)⟩
    · rw [if_neg htag]
      exact ⟨[prekey_callback_call.no_prekey_in_storage_received], rfl, fun c hc =>
        Or.inr (List.mem_singleton.1 hc)⟩

theorem receive_prekey_ensemble_retrieval_calls (env : prekey_collaborators)
    (decoded : List Nat) (decoded_len : Nat) (client : otrng_client_s) :
    ∃ added,
      (receive_prekey_ensemble_retrieval env decoded decoded_len client).2.calls =
        client.calls ++ added ∧
      ∀ c ∈ added, (∃ e, c = prekey_callback_call.notify_error e) ∨
        ∃ ensembles num_ensembles,
          c = prekey_callback_call.prekey_ensembles_received ensembles num_ensembles := by
  unfold receive_prekey_ensemble_retrieval
  cases hmsg : otrng_prekey_ensemble_retrieval_message_deserialize env decoded decoded_len with
  | none =>
    exact ⟨[prekey_callback_call.notify_error _], rfl, fun c hc =>
      Or.inl ⟨_, List.mem_singleton.1 hc⟩⟩
  | some msg =>
    dsimp only
    unfold process_received_prekey_ensemble_retrieval
    dsimp only
    by_cases htag : msg.instance_tag ≠ client.prekey_client.instance_tag
    · rw [if_pos htag]
      exact ⟨[], (List.append_nil _).symm, fun c hc => absurd hc (List.not_mem_nil c)⟩
    · rw [if_neg htag]
      exact ⟨[prekey_callback_call.prekey_ensembles_received _ _], rfl, fun c hc =>
        Or.inr ⟨_, _, List.mem_singleton.1 hc⟩⟩

theorem receive_dake2_calls (env : prekey_collaborators) (decoded : List Nat)
    (decoded_len : Nat) (client : otrng_client_s) :
    ∃ added, (receive_dake2 env decoded decoded_len client).2.calls = client.calls ++ added ∧
      ∀ c ∈ added, (∃ e, c = prekey_callback_call.notify_error e) ∨
        c = prekey_callback_call.build_prekey_publication_message := by
  unfold receive_dake2
  cases hmsg : otrng_prekey_dake2_message_deserialize env decoded decoded_len with
  | none =>
    exact ⟨[prekey_callback_call.notify_error _], rfl, fun c hc =>
      Or.inl ⟨_, List.mem_singleton.1 hc⟩⟩
  | some msg =>
    dsimp only
    unfold process_received_dake2
    by_cases htag : msg.client_instance_tag ≠ client.prekey_client.instance_tag
    · rw [if_pos htag]
      exact ⟨[], (List.append_nil _).symm, fun c hc => absurd hc (List.not_mem_nil c)⟩
    rw [if_neg htag]
    by_cases hvalid : ¬ otrng_prekey_dake2_message_valid env msg client.prekey_client = true
    · rw [if_pos hvalid]
      exact ⟨[prekey_callback_call.notify_error _], rfl, fun c hc =>
        Or.inl ⟨_, List.mem_singleton.1 hc⟩⟩
    rw [if_neg hvalid]
    rcases send_dake3_calls env msg client with h | h
    · exact ⟨[], by rw [h, List.append_nil], fun c hc => absurd hc (List.not_mem_nil c)⟩
    · exact ⟨[prekey_callback_call.build_prekey_publication_message], h, fun c hc =>
        Or.inr (List.mem_singleton.1 hc)⟩

theorem calls_made_justified (env : prekey_collaborators) (decoded : List Nat)
    (decoded_len : Nat) (client : otrng_client_s) :
    ∀ c ∈ calls_made env decoded decoded_len client,
      call_justified env decoded decoded_len client c := by
  unfold calls_made
  cases hp : parse_header decoded decoded_len with
  | none =>
    have hr : receive_decoded env decoded decoded_len client =
        (none, notify_error_callback client OTRNG_PREKEY_CLIENT_MALFORMED_MSG) := by
      unfold receive_decoded
      rw [hp]
    rw [hr]
    show ∀ c ∈ (client.calls ++ [prekey_callback_call.notify_error _]).drop client.calls.length,
      call_justified env decoded decoded_len client c
    rw [List.drop_left]
    intro c hc
    rw [List.mem_singleton.1 hc]
    trivial
  | some p =>
    obtain ⟨msg_type, w⟩ := p
    rw [receive_decoded_of_header env decoded decoded_len client msg_type w hp]
    by_cases h1 : msg_type = OTRNG_PREKEY_DAKE2_MSG
    · rw [if_pos h1]
      obtain ⟨added, hcalls, hQ⟩ := receive_dake2_calls env decoded decoded_len client
      rw [hcalls, List.drop_left]
      intro c hc
      rcases hQ c hc with ⟨e, rfl⟩ | rfl <;> trivial
    rw [if_neg h1]
    by_cases h2 : msg_type = OTRNG_PREKEY_SUCCESS_MSG
    · rw [if_pos h2]
      obtain ⟨added, hcalls, hQ⟩ := receive_success_calls env decoded decoded_len client
      rw [hcalls, List.drop_left]
      intro c hc
      rcases hQ c hc with ⟨e, rfl⟩ | ⟨rfl, hmac⟩
      · trivial
      · exact ⟨⟨w, by rw [← h2]; exact hp⟩, hmac⟩
    rw [if_neg h2]
    by_cases h3 : msg_type = OTRNG_PREKEY_FAILURE_MSG
    · rw [if_pos h3]
      obtain ⟨added, hcalls, hQ⟩ := receive_failure_calls env decoded decoded_len client
      rw [hcalls, List.drop_left]
      intro c hc
      rcases hQ c hc with ⟨e, rfl⟩ | ⟨rfl, hmac⟩
      · trivial
      · exact ⟨⟨w, by rw [← h3]; exact hp⟩, hmac⟩
    rw [if_neg h3]
    by_cases h4 : msg_type = OTRNG_PREKEY_NO_PREKEY_IN_STORAGE_MSG
    · rw [if_pos h4]
      obtain ⟨added, hcalls, hQ⟩ :=
        receive_no_prekey_in_storage_calls decoded decoded_len client
      rw [hcalls, List.drop_left]
      intro c hc
      rcases hQ c hc with ⟨e, rfl⟩ | rfl
      · trivial
      · exact ⟨w, by rw [← h4]; exact hp⟩
    rw [if_neg h4]
    by_cases h5 : msg_type = OTRNG_PREKEY_ENSEMBLE_RETRIEVAL_MSG
    · rw [if_pos h5]
      obtain ⟨added, hcalls, hQ⟩ :=
        receive_prekey_ensemble_retrieval_calls env decoded decoded_len client
      rw [hcalls, List.drop_left]
      intro c hc
      rcases hQ c hc with ⟨e, rfl⟩ | ⟨ensembles, num_ensembles, rfl⟩
      · trivial
      · exact ⟨w, by rw [← h5]; exact hp⟩
    rw [if_neg h5]
    by_cases h6 : msg_type = OTRNG_PREKEY_STORAGE_STATUS_MSG
    · rw [if_pos h6]
      obtain ⟨added, hcalls, hQ⟩ := receive_storage_status_calls env decoded decoded_len client
      rw [hcalls, List.drop_left]
      intro c hc
      rcases hQ c hc with ⟨e, rfl⟩ | ⟨s, rfl⟩ | ⟨msg, rfl, hmsg, hmac⟩
      · trivial
      · trivial
      · exact ⟨hmsg, hmac⟩
    rw [if_neg h6]
    show ∀ c ∈ (client.calls ++ [prekey_callback_call.notify_error _]).drop client.calls.length,
      call_justified env decoded decoded_len client c
    rw [List.drop_left]
    intro c hc
    rw [List.mem_singleton.1 hc]
    trivial

/-! ## Auxiliary facts: closing and the SMP context -/

theorem send_data_message_with_smp (env : collaborators) (to_send : Option (List Char))
    (message : List Nat) (message_len : Nat) (otr : otrv4_t) (smp : smp_context_t) :
    send_data_message env to_send message message_len { otr with smp := smp } =
      ⟨(send_data_message env to_send message message_len otr).err,
        (send_data_message env to_send message message_len otr).dst,
        { (send_data_message env to_send message message_len otr).otr with smp := smp }⟩ := by
  unfold send_data_message generate_data_msg
  dsimp only
  split_ifs <;> first | rfl | (split <;> first | rfl | (split_ifs <;> rfl))

theorem otrv4_close_encrypted (env : collaborators) (to_send : Option (List Char))
    (otr : otrv4_t) (hs : otr.state = OTRV4_STATE_ENCRYPTED_MESSAGES)
    (hv : otr.running_version = OTRV4_VERSION_4) :
    otrv4_close env to_send otr =
      ⟨if (send_data_message env to_send [0x00, 0x00, 0x01, 0x00, 0x00] 5 otr).err =
          OTR4_SUCCESS then OTR4_SUCCESS else OTR4_ERROR,
        (send_data_message env to_send [0x00, 0x00, 0x01, 0x00, 0x00] 5 otr).dst,
        gone_insecure_cb
          { forget_our_keys env
              (send_data_message env to_send [0x00, 0x00, 0x01, 0x00, 0x00] 5 otr).otr with
            state := OTRV4_STATE_START }⟩ := by
  have happ : append_tlvs [] otrv4_disconnected_tlv_new =
      some ([0x00, 0x00, 0x01, 0x00, 0x00], 5) := by decide
  have hsend : otrv4_send_message env to_send [] otrv4_disconnected_tlv_new otr =
      send_data_message env to_send [0x00, 0x00, 0x01, 0x00, 0x00] 5 otr := by
    unfold otrv4_send_message send_otrv4_message
    rw [hv]
    simp only [hs, happ]
    rw [if_neg (by decide), if_neg (by simp)]
  have hne : otrv4_disconnected_tlv_new ≠ [] := by decide
  unfold otrv4_close
  rw [if_neg (fun h => h hs), if_neg hne, hsend]

/-! ## Auxiliary facts: when a new key exchange starts -/

theorem receive_tagged_plaintext_state_eq (env : collaborators)
    (response : otrv4_response_t) (message : List Char) (otr : otrv4_t) :
    (receive_tagged_plaintext env response message otr).otr.state =
      if (set_running_version_from_tag otr message).running_version = OTRV4_VERSION_4 ∧
          24 ≤ message.length then OTRV4_STATE_WAITING_AUTH_R
      else otr.state := by
  have hs := set_running_version_from_tag_state otr message
  by_cases hc : (set_running_version_from_tag otr message).running_version =
      OTRV4_VERSION_4 ∧ 24 ≤ message.length
  · rw [if_pos hc]
    have hdisp : (message_to_display_without_tag response message tag_version_v4
        message.length).1 = OTR4_SUCCESS := by
      unfold message_to_display_without_tag WHITESPACE_TAG_BASE_BYTES
        WHITESPACE_TAG_VERSION_BYTES
      dsimp only
      rw [if_neg (Nat.not_lt.2 hc.2)]
    unfold receive_tagged_plaintext
    dsimp only
    rw [hc.1]
    dsimp only
    rw [if_neg (not_not.2 hdisp)]
    exact (start_dake_state env _ _).1
  · rw [if_neg hc]
    unfold receive_tagged_plaintext
    dsimp only
    cases hv : (set_running_version_from_tag otr message).running_version with
    | OTRV4_VERSION_NONE => exact hs
    | OTRV4_VERSION_3 =>
      exact (call_otrv3_receive_message_state env response message _).1.trans hs
    | OTRV4_VERSION_4 =>
      have hlen : message.length < 16 + 8 := Nat.not_le.1 (fun h => hc ⟨hv, h⟩)
      have hdisp : (message_to_display_without_tag response message tag_version_v4
          message.length).1 ≠ OTR4_SUCCESS := by
        unfold message_to_display_without_tag WHITESPACE_TAG_BASE_BYTES
          WHITESPACE_TAG_VERSION_BYTES
        dsimp only
        rw [if_pos hlen]
        exact fun h => otr4_err_t.noConfusion h
      dsimp only
      rw [if_pos hdisp]
      exact hs

theorem receive_query_message_state_eq (env : collaborators)
    (response : otrv4_response_t) (message : List Char) (otr : otrv4_t) :
    (receive_query_message env response message otr).otr.state =
      if (set_running_version_from_query_msg otr message).running_version =
          OTRV4_VERSION_4 then OTRV4_STATE_WAITING_AUTH_R
      else otr.state := by
  have hs := set_running_version_from_query_msg_state otr message
  by_cases hc : (set_running_version_from_query_msg otr message).running_version =
      OTRV4_VERSION_4
  · rw [if_pos hc]
    unfold receive_query_message
    dsimp only
    rw [hc]
    exact (start_dake_state env _ _).1
  · rw [if_neg hc]
    unfold receive_query_message
    dsimp only
    cases hv : (set_running_version_from_query_msg otr message).running_version with
    | OTRV4_VERSION_NONE => exact hs
    | OTRV4_VERSION_3 =>
      exact (call_otrv3_receive_message_state env response message _).1.trans hs
    | OTRV4_VERSION_4 => exact absurd hv hc

theorem receive_message_v4_only_finished_iff (env : collaborators)
    (response : otrv4_response_t) (message : List Char) (otr : otrv4_t)
    (hstate : otr.state = OTRV4_STATE_FINISHED) :
    ∃ r, receive_message_v4_only env response message otr = some r ∧
      (r.otr.state = OTRV4_STATE_FINISHED ∨ r.otr.state = OTRV4_STATE_WAITING_AUTH_R) ∧
      (r.otr.state = OTRV4_STATE_WAITING_AUTH_R ↔
        ((tag_base <:+: message ∧
            (set_running_version_from_tag otr message).running_version = OTRV4_VERSION_4 ∧
            24 ≤ message.length) ∨
          (¬ tag_base <:+: message ∧ query_header <:+: message ∧
            (set_running_version_from_query_msg otr message).running_version =
              OTRV4_VERSION_4))) := by
  have hiff := get_message_type_iff message
  have hne : OTRV4_STATE_FINISHED ≠ OTRV4_STATE_WAITING_AUTH_R := by decide
  have hkeep : ∀ r : receive_result, r.otr.state = OTRV4_STATE_FINISHED →
      (tag_base <:+: message → False) → (query_header <:+: message → False) →
      (r.otr.state = OTRV4_STATE_FINISHED ∨ r.otr.state = OTRV4_STATE_WAITING_AUTH_R) ∧
      (r.otr.state = OTRV4_STATE_WAITING_AUTH_R ↔
        ((tag_base <:+: message ∧
            (set_running_version_from_tag otr message).running_version = OTRV4_VERSION_4 ∧
            24 ≤ message.length) ∨
          (¬ tag_base <:+: message ∧ query_header <:+: message ∧
            (set_running_version_from_query_msg otr message).running_version =
              OTRV4_VERSION_4))) := by
    intro r hr ht hq
    refine ⟨Or.inl hr, ?_⟩
    constructor
    · intro h
      rw [hr] at h
      exact absurd h hne
    · rintro (⟨h, _⟩ | ⟨_, h, _⟩)
      · exact absurd h ht
      · exact absurd h hq
  unfold receive_message_v4_only
  cases htype : get_message_type message with
  | IN_MSG_NONE => exact absurd htype hiff.2.2.2.2
  | IN_MSG_PLAINTEXT =>
    have h := hiff.2.2.2.1.1 htype
    exact ⟨_, rfl, hkeep _ hstate h.1 h.2.1⟩
  | IN_MSG_TAGGED_PLAINTEXT =>
    have hbase := hiff.1.1 htype
    refine ⟨_, rfl, ?_⟩
    dsimp only
    rw [receive_tagged_plaintext_state_eq, hstate]
    by_cases hc : (set_running_version_from_tag otr message).running_version =
        OTRV4_VERSION_4 ∧ 24 ≤ message.length
    · rw [if_pos hc]
      exact ⟨Or.inr rfl, fun _ => Or.inl ⟨hbase, hc.1, hc.2⟩, fun _ => rfl⟩
    · rw [if_neg hc]
      refine ⟨Or.inl rfl, fun h => absurd h hne, ?_⟩
      rintro (⟨_, h1, h2⟩ | ⟨h, _⟩)
      · exact absurd ⟨h1, h2⟩ hc
      · exact absurd hbase h
  | IN_MSG_QUERY_STRING =>
    have hq := hiff.2.1.1 htype
    refine ⟨_, rfl, ?_⟩
    dsimp only
    rw [receive_query_message_state_eq, hstate]
    by_cases hc : (set_running_version_from_query_msg otr message).running_version =
        OTRV4_VERSION_4
    · rw [if_pos hc]
      exact ⟨Or.inr rfl, fun _ => Or.inr ⟨hq.1, hq.2, hc⟩, fun _ => rfl⟩
    · rw [if_neg hc]
      refine ⟨Or.inl rfl, fun h => absurd h hne, ?_⟩
      rintro (⟨h, _⟩ | ⟨_, _, h⟩)
      · exact absurd h hq.1
      · exact absurd h hc
  | IN_MSG_OTR_ENCODED =>
    have h := hiff.2.2.1.1 htype
    dsimp only
    unfold receive_encoded_message
    cases env.otrl_base64_otr_decode message with
    | none => exact ⟨_, rfl, hkeep _ hstate h.1 h.2.1⟩
    | some decoded =>
      obtain ⟨r, hr, hs⟩ :=
        receive_decoded_message_finished env response decoded decoded.length otr hstate
      exact ⟨r, hr, hkeep r hs h.1 h.2.1⟩

theorem serialize_and_encode_data_msg_success (env : collaborators)
    (dst : Option (List Char)) (mac_key to_reveal_mac_keys : List Nat)
    (to_reveal_mac_keys_len : Nat) (data_msg : data_message_t)
    (h : (serialize_and_encode_data_msg env dst mac_key to_reveal_mac_keys
      to_reveal_mac_keys_len data_msg).1 = OTR4_SUCCESS) :
    ∃ body mac, env.data_message_body_asprintf data_msg = some body ∧
      env.sha3_512_mac mac_key body = some mac ∧
      (serialize_and_encode_data_msg env dst mac_key to_reveal_mac_keys
        to_reveal_mac_keys_len data_msg).2 =
        some (env.otrl_base64_otr_encode
          (body ++ mac.take MAC_KEY_BYTES ++
            serialize_bytes_array to_reveal_mac_keys to_reveal_mac_keys_len)) := by
  unfold serialize_and_encode_data_msg at h ⊢
  cases hb : env.data_message_body_asprintf data_msg with
  | none => rw [hb] at h; cases h
  | some body =>
    rw [hb] at h
    dsimp only at h ⊢
    by_cases hlen : PTRDIFF_MAX < body.length + MAC_KEY_BYTES + to_reveal_mac_keys_len
    · rw [if_pos hlen] at h; cases h
    · rw [if_neg hlen] at h ⊢
      cases hm : env.sha3_512_mac mac_key body with
      | none => rw [hm] at h; cases h
      | some mac => exact ⟨body, mac, rfl, hm, rfl⟩

/-! ## The claims -/

/-- C1 (as stated, refuted): with `FRAGMENT_HEADER_LEN = 37` and `mms = 47` the
message `a,b` is fragmented into one piece; feeding that piece to
`otr4_defragment_message` on a fresh context succeeds with status COMPLETE but
leaves `a` in the accumulator, not `a,b`. -/
theorem C1_counterexample :
    otr4_fragment_message 37 47 1 2 ['a', ',', 'b'] =
      some (OTR4_SUCCESS, ⟨1, ["?OTR|00000001|00000002,00001,00001,a,b,".toList]⟩) ∧
    defragment_all fragment_context_new
        ["?OTR|00000001|00000002,00001,00001,a,b,".toList] =
      some ([OTR4_SUCCESS], ⟨1, 1, string_ptr.heap ['a'], 1, OTR4_FRAGMENT_COMPLETE⟩) ∧
    string_ptr.heap ['a'] ≠ string_ptr.heap ['a', ',', 'b'] := by
  refine ⟨by decide, by decide, by decide⟩

/-- C1 (amended): for `FRAGMENT_HEADER_LEN = H ≥ 37`, `H < mms < INT_MAX` and a
non-empty message `m` without `,` of length at most `(mms - H) * 65535`,
`otr4_fragment_message` succeeds, and feeding its pieces in order to
`otr4_defragment_message` on a fresh context returns success for every piece,
ends with status COMPLETE and leaves the accumulated fragment equal to `m`. -/
theorem C1_fragment_defragment_roundtrip (H : Nat) (mms our_instance their_instance : Int)
    (m : List Char) (hH : 37 ≤ H) (hlt : (H : Int) < mms) (hmms : mms + 1 < 2 ^ 31)
    (hne : m ≠ []) (hc : ',' ∉ m) (hlen : m.length ≤ (mms - H).toNat * 65535) :
    ∃ r ctx,
      otr4_fragment_message H mms our_instance their_instance m = some (OTR4_SUCCESS, r) ∧
      r.pieces ≠ [] ∧
      defragment_all fragment_context_new r.pieces =
        some (List.replicate r.pieces.length OTR4_SUCCESS, ctx) ∧
      ctx.status = OTR4_FRAGMENT_COMPLETE ∧
      ctx.fragment = string_ptr.heap m ∧ ctx.fragment_len = m.length := by
  have hfrag := fragment_message_eq H mms our_instance their_instance m hH hlt hmms hne hlen
  obtain ⟨d, hd⟩ : ∃ d : Nat, mms - (H : Int) = (d : Int) := ⟨(mms - H).toNat, by omega⟩
  have hd1 : 1 ≤ d := by omega
  have hd31 : d < 2 ^ 31 := by omega
  have hlen1 : 1 ≤ m.length := by
    cases m with
    | nil => exact absurd rfl hne
    | cons c cs => simp
  rw [hd] at hlen hfrag
  simp only [Int.toNat_ofNat] at hlen hfrag
  have hN := total_le _ _ hd1 hlen
  have hdiv := div_mul_lt m.length d hlen1
  have hcov := le_succ_div_mul m.length d hd1
  generalize hq : (m.length - 1) / d = q at hfrag hN hdiv hcov
  -- the chunk size and the number of pieces
  have hp : min m.length d = d ∨ (min m.length d = m.length ∧ q = 0) := by
    rcases Nat.lt_or_ge m.length d with h | h
    · right
      refine ⟨Nat.min_eq_left (by omega), ?_⟩
      rw [← hq]; exact Nat.div_eq_of_lt (by omega)
    · left; exact Nat.min_eq_right h
  generalize hpdef : min m.length d = p at hfrag hp
  have hp0 : 0 < p := by omega
  have hqp : q * p < m.length := by
    rcases hp with h | ⟨_, h⟩
    · rw [h]; exact hdiv
    · rw [h]; omega
  have hcovp : m.length ≤ (q + 1) * p := by
    rcases hp with h | ⟨h, h0⟩
    · rw [h]; exact hcov
    · rw [h, h0]; omega
  have hltot : m.length < 2 ^ 48 := by
    have : d * 65535 < 2 ^ 31 * 65535 := Nat.mul_lt_mul_of_pos_right hd31 (by norm_num)
    omega
  have hpay : m.take p ≠ [] := by
    intro h
    have h0 := congrArg List.length h
    rw [List.length_take, List.length_nil] at h0
    have : min p m.length = p ∨ min p m.length = m.length := by
      rcases Nat.le_total p m.length with h1 | h1
      · exact Or.inl (Nat.min_eq_left h1)
      · exact Or.inr (Nat.min_eq_right h1)
    omega
  have htl : (m.take p).length ≤ m.length := by simp
  have hfirst := defragment_first fragment_context_new (to_unsigned our_instance)
    (to_unsigned their_instance) (q + 1) (m.take p) (by omega) hpay
    (fun h => hc (List.mem_of_mem_take h))
  rw [defragment_finish_eq] at hfirst
  obtain ⟨ctx', h1, h2, h3, h4, h5⟩ := defragment_all_pieces (to_unsigned our_instance)
    (to_unsigned their_instance) (q + 1) p hp0 (by omega) q 2 (m.drop p) (m.take p)
    (defragment_finish
      { N := q + 1, K := 1, fragment := string_ptr.heap (m.take p),
        fragment_len := (m.take p).length, status := OTR4_FRAGMENT_INCOMPLETE }).2
    (le_refl 2) (by omega) (by rw [defragment_finish_K])
    (by rw [defragment_finish_fragment]) (by rw [defragment_finish_fragment_len])
    (fun h => hc (List.mem_of_mem_drop h))
    (by
      intro hq0
      have e : q * p = (q - 1) * p + p := by
        obtain ⟨g, rfl⟩ : ∃ g, q = g + 1 := ⟨q - 1, by omega⟩
        simp [Nat.add_mul]
      simp only [List.length_drop]
      omega)
    (by simp only [List.length_drop, List.length_take]; omega)
  have hall : m.take p ++ (m.drop p).take (q * p) = m := by
    have e : (q + 1) * p = p + q * p := by ring
    rw [← List.take_add, ← e]
    exact List.take_of_length_le hcovp
  have hlenp : ∀ f cur msg, (pieces_from (to_unsigned our_instance)
      (to_unsigned their_instance) (q + 1) p f cur msg).length = f := by
    intro f
    induction f with
    | zero => intro _ _; rfl
    | succ f ih => intro cur msg; simp [pieces_from, ih]
  refine ⟨_, ctx', hfrag, ?_, ?_, ?_, by rw [h3, hall], by rw [h4, hall]⟩
  · simp [pieces_from]
  · simp only [pieces_from, defragment_all, hfirst, h1, List.length_cons, hlenp,
      List.replicate_succ]
  · by_cases hq0 : q = 0
    · subst hq0
      simp only [pieces_from, defragment_all, List.replicate_zero, Option.some.injEq,
        Prod.mk.injEq, true_and] at h1
      subst h1
      rw [defragment_finish_status]
      simp
    · have hK : ctx'.K = q + 1 := by omega
      rw [(h5 hq0).2, hK]
      simp

/-- C1 (amended), instance: `"A" × 100` with `FRAGMENT_HEADER_LEN = 37`, MTU 40 and
tags `0x12345678`, `0x87654321`. -/
theorem C1_fragment_defragment_roundtrip_witness :
    ∃ r ctx,
      otr4_fragment_message 37 40 0x12345678 0x87654321 (List.replicate 100 'A') =
        some (OTR4_SUCCESS, r) ∧
      r.pieces ≠ [] ∧
      defragment_all fragment_context_new r.pieces =
        some (List.replicate r.pieces.length OTR4_SUCCESS, ctx) ∧
      ctx.status = OTR4_FRAGMENT_COMPLETE ∧
      ctx.fragment = string_ptr.heap (List.replicate 100 'A') ∧
      ctx.fragment_len = (List.replicate 100 'A').length :=
  C1_fragment_defragment_roundtrip 37 40 0x12345678 0x87654321 (List.replicate 100 'A')
    (by decide) (by decide) (by decide) (by decide) (by decide) (by decide)

/-- C2: for `mms > FRAGMENT_HEADER_LEN`, every piece that a successful
`otr4_fragment_message` call produces has length at most `mms` (whatever the
value of `FRAGMENT_HEADER_LEN`, in particular when it is at least 37). -/
theorem C2_piece_length_le_mms (H : Nat) (mms our_instance their_instance : Int)
    (m : List Char) (r : fragment_message_t) (hlt : (H : Int) < mms)
    (hs : otr4_fragment_message H mms our_instance their_instance m = some (OTR4_SUCCESS, r)) :
    ∀ piece ∈ r.pieces, (piece.length : Int) ≤ mms := by
  intro piece hpiece
  unfold otr4_fragment_message at hs
  dsimp only at hs
  by_cases h1 : to_size_t (mms - (H : Int)) = 0
  · rw [if_pos h1] at hs; exact absurd hs (by simp)
  rw [if_neg h1] at hs
  by_cases h2 : to_int (((to_size_t ((m.length : Int) - 1) / to_size_t (mms - (H : Int)) + 1) %
      SIZE_MOD : Nat) : Int) > 65535
  · rw [if_pos h2] at hs; exact absurd hs (by simp)
  rw [if_neg h2] at hs
  by_cases h3 : PTRDIFF_MAX < to_size_t (to_int (((to_size_t ((m.length : Int) - 1) /
      to_size_t (mms - (H : Int)) + 1) % SIZE_MOD : Nat) : Int)) * 8 % SIZE_MOD
  · rw [if_pos h3] at hs; exact absurd hs (by simp)
  rw [if_neg h3] at hs
  cases hloop : fragment_loop H our_instance their_instance
      (to_int (((to_size_t ((m.length : Int) - 1) / to_size_t (mms - (H : Int)) + 1) %
        SIZE_MOD : Nat) : Int)) m.length (to_size_t (mms - (H : Int)))
      (to_int (((to_size_t ((m.length : Int) - 1) / to_size_t (mms - (H : Int)) + 1) %
        SIZE_MOD : Nat) : Int)).toNat 1 m with
  | none => rw [hloop] at hs; exact absurd hs (by simp)
  | some pieces =>
    rw [hloop] at hs
    simp only [Option.some.injEq, Prod.mk.injEq, true_and] at hs
    subst hs
    have hlim := to_size_t_le (mms - (H : Int)) (by omega)
    have hpl := loop_piece_len_le m.length (to_size_t (mms - (H : Int)))
    rcases fragment_loop_length H _ _ _ _ _ _ _ _ _ hloop piece hpiece with h | h
    · omega
    · subst h
      simp only [List.length_nil, Nat.cast_zero]
      omega

/-- C2, instance: the first piece of `"A" × 100` with `FRAGMENT_HEADER_LEN = 37`
and MTU 40. -/
theorem C2_piece_length_le_mms_witness :
    ((37 : Nat) : Int) < 40 ∧
    (("?OTR|12345678|87654321,00001,00022,AAA,".toList.length : Nat) : Int) ≤ 40 :=
  ⟨by decide,
    C2_piece_length_le_mms 37 40 0x12345678 0x87654321 (List.replicate 100 'A')
      ⟨34, pieces_from 0x12345678 0x87654321 34 3 34 1 (List.replicate 100 'A')⟩
      (by decide) (by decide) "?OTR|12345678|87654321,00001,00022,AAA,".toList (by decide)⟩

/-- C4 (failing input): with `FRAGMENT_HEADER_LEN = 37` and `mms = 40` the empty
message makes `msglen - 1` wrap, `total` becomes 1431655766 and the call returns
an error, although `ceil(0 / 3) = 0` does not exceed 65535. -/
theorem C4_empty_message_error (our_instance their_instance : Int) :
    otr4_fragment_message 37 40 our_instance their_instance [] =
      some (OTR4_ERROR, ⟨1431655766, []⟩) := by
  rfl

/-- C5 (failing input): a context that has accepted piece 1 of 3 (payload `ab`)
receives piece 2 announcing a total of 5; the piece is appended and the stored
total overwritten, where the claim has the piece discarded and the context
reset. -/
theorem C5_mismatched_total_appended :
    otr4_defragment_message fragment_context_new
        "?OTR|00000001|00000002,00001,00003,ab,".toList =
      some (OTR4_SUCCESS, ⟨3, 1, string_ptr.heap ['a', 'b'], 2, OTR4_FRAGMENT_INCOMPLETE⟩) ∧
    otr4_defragment_message ⟨3, 1, string_ptr.heap ['a', 'b'], 2, OTR4_FRAGMENT_INCOMPLETE⟩
        "?OTR|00000001|00000002,00002,00005,cd,".toList =
      some (OTR4_SUCCESS,
        ⟨5, 2, string_ptr.heap ['a', 'b', 'c', 'd'], 4, OTR4_FRAGMENT_INCOMPLETE⟩) := by
  constructor <;> decide

/-- C6 (as stated, refuted): a context that has accepted piece 1 of 2 with tags
(1, 2) appends piece 2 of 2 carrying the tags (3, 4). -/
theorem C6_counterexample :
    otr4_defragment_message fragment_context_new
        "?OTR|00000001|00000002,00001,00002,ab,".toList =
      some (OTR4_SUCCESS, ⟨2, 1, string_ptr.heap ['a', 'b'], 2, OTR4_FRAGMENT_INCOMPLETE⟩) ∧
    otr4_defragment_message ⟨2, 1, string_ptr.heap ['a', 'b'], 2, OTR4_FRAGMENT_INCOMPLETE⟩
        "?OTR|00000003|00000004,00002,00002,cd,".toList =
      some (OTR4_SUCCESS,
        ⟨2, 2, string_ptr.heap ['a', 'b', 'c', 'd'], 4, OTR4_FRAGMENT_COMPLETE⟩) := by
  constructor <;> decide

/-- C6 (amended): `otr4_defragment_message` does not inspect the instance tags: on
every context, two well-formed pieces that differ only in their tag pair are
handled identically (same return code, same resulting context). -/
theorem C6_tags_not_inspected (ctx : fragment_context_t)
    (sender_tag receiver_tag sender_tag' receiver_tag' k n : Nat) (payload : List Char)
    (hp : payload ≠ []) (hc : ',' ∉ payload) :
    otr4_defragment_message ctx (wire_piece sender_tag receiver_tag k n payload) =
      otr4_defragment_message ctx (wire_piece sender_tag' receiver_tag' k n payload) := by
  unfold otr4_defragment_message
  rw [sscanf_wire_piece sender_tag receiver_tag k n payload hp hc,
    sscanf_wire_piece sender_tag' receiver_tag' k n payload hp hc,
    is_fragment_wire_piece, is_fragment_wire_piece]
  simp only [not_true_eq_false, if_false, drop_wire_piece]

/-- C6 (amended), instance: piece 2 of 2 with payload `cd` under the tag pairs
(1, 2) and (3, 4), on the context that accepted piece 1 under (1, 2). -/
theorem C6_tags_not_inspected_witness :
    otr4_defragment_message ⟨2, 1, string_ptr.heap ['a', 'b'], 2, OTR4_FRAGMENT_INCOMPLETE⟩
        (wire_piece 1 2 2 2 ['c', 'd']) =
      otr4_defragment_message ⟨2, 1, string_ptr.heap ['a', 'b'], 2, OTR4_FRAGMENT_INCOMPLETE⟩
        (wire_piece 3 4 2 2 ['c', 'd']) :=
  C6_tags_not_inspected _ 1 2 3 4 2 2 ['c', 'd'] (by decide) (by decide)

/-- C7 (failing input): on a fresh context, a message with a complete fragment
header (K = 2) and no trailing `,` makes `otr4_defragment_message` return
success (the piece is dropped and the context reset), not an error. -/
theorem C7_missing_comma_not_rejected :
    otr4_defragment_message fragment_context_new
        "?OTR|00000001|00000002,00002,00002,abc".toList =
      some (OTR4_SUCCESS,
        ⟨0, 0, string_ptr.literal [], 0, OTR4_FRAGMENT_INCOMPLETE⟩) := by
  decide

/-- C8: after every successful `otr4_defragment_message` call on a fragment, the
status is COMPLETE if and only if `K == N` and `N > 0`, and INCOMPLETE
otherwise; here `K` counts the pieces accepted since the last piece numbered
1 (the call leaves it at 1 for a first piece, one above its former value for
an appended piece, and 0 with `N = 0` after a reset). -/
theorem C8_status_complete_iff (ctx ctx' : fragment_context_t) (message : List Char)
    (hfrag : is_fragment message = true)
    (hs : otr4_defragment_message ctx message = some (OTR4_SUCCESS, ctx')) :
    (ctx'.status = OTR4_FRAGMENT_COMPLETE ↔ ctx'.K = ctx'.N ∧ 0 < ctx'.N) ∧
    (¬ (ctx'.K = ctx'.N ∧ 0 < ctx'.N) → ctx'.status = OTR4_FRAGMENT_INCOMPLETE) ∧
    (ctx'.K = 1 ∨ ctx'.K = (ctx.K + 1) % UINT_MOD ∨ (ctx'.K = 0 ∧ ctx'.N = 0)) := by
  have hfin : ∀ c : fragment_context_t, c.status = OTR4_FRAGMENT_INCOMPLETE →
      some (defragment_finish c) = some (OTR4_SUCCESS, ctx') →
      (ctx'.status = OTR4_FRAGMENT_COMPLETE ↔ ctx'.K = ctx'.N ∧ 0 < ctx'.N) ∧
      (¬ (ctx'.K = ctx'.N ∧ 0 < ctx'.N) → ctx'.status = OTR4_FRAGMENT_INCOMPLETE) ∧
      ctx'.K = c.K ∧ ctx'.N = c.N := by
    intro c hc h
    simp only [Option.some.injEq] at h
    have h2 : ctx' = (defragment_finish c).2 := by rw [h]
    rw [h2, defragment_finish_status, defragment_finish_K, defragment_finish_N, hc]
    by_cases hcond : 0 < c.N ∧ c.N = c.K
    · rw [if_pos hcond]
      exact ⟨⟨fun _ => ⟨hcond.2.symm, hcond.1⟩, fun _ => rfl⟩,
        fun hn => absurd ⟨hcond.2.symm, hcond.1⟩ hn, rfl, rfl⟩
    · rw [if_neg hcond]
      refine ⟨⟨fun h => absurd h (by decide), fun h => absurd ⟨h.2, h.1.symm⟩ hcond⟩,
        fun _ => rfl, rfl, rfl⟩
  unfold otr4_defragment_message at hs
  rw [if_neg (by simp [hfrag])] at hs
  dsimp only at hs
  by_cases hk : (sscanf_fragment message).k = 1
  · rw [if_pos hk] at hs
    by_cases he : (sscanf_fragment message).end_ ≤ (sscanf_fragment message).start
    · rw [if_pos he] at hs; exact absurd hs (by simp)
    · rw [if_neg he] at hs
      obtain ⟨h1, h2, h3, _⟩ := hfin _ rfl hs
      exact ⟨h1, h2, Or.inl (h3.trans hk)⟩
  · rw [if_neg hk] at hs
    by_cases hn : (sscanf_fragment message).n = (sscanf_fragment message).n ∧
        (sscanf_fragment message).k = (ctx.K + 1) % UINT_MOD
    · rw [if_pos hn] at hs
      split at hs
      · exact absurd hs (by simp)
      · split_ifs at hs with hx hy
        · exact absurd hs (by simp)
        · obtain ⟨h1, h2, h3, _⟩ := hfin _ rfl hs
          exact ⟨h1, h2, Or.inr (Or.inl (h3.trans hn.2))⟩
    · rw [if_neg hn] at hs
      split at hs
      · exact absurd hs (by simp)
      · obtain ⟨h1, h2, h3, h4⟩ := hfin _ rfl hs
        exact ⟨h1, h2, Or.inr (Or.inr ⟨h3, h4⟩)⟩

/-- C8, instance: the second and last piece of a two-piece message. -/
theorem C8_status_complete_iff_witness :
    ((⟨2, 2, string_ptr.heap ['a', 'b', 'c', 'd'], 4, OTR4_FRAGMENT_COMPLETE⟩ :
        fragment_context_t).status = OTR4_FRAGMENT_COMPLETE ↔
      (⟨2, 2, string_ptr.heap ['a', 'b', 'c', 'd'], 4, OTR4_FRAGMENT_COMPLETE⟩ :
        fragment_context_t).K =
      (⟨2, 2, string_ptr.heap ['a', 'b', 'c', 'd'], 4, OTR4_FRAGMENT_COMPLETE⟩ :
        fragment_context_t).N ∧
      0 < (⟨2, 2, string_ptr.heap ['a', 'b', 'c', 'd'], 4, OTR4_FRAGMENT_COMPLETE⟩ :
        fragment_context_t).N) :=
  (C8_status_complete_iff
    ⟨2, 1, string_ptr.heap ['a', 'b'], 2, OTR4_FRAGMENT_INCOMPLETE⟩
    ⟨2, 2, string_ptr.heap ['a', 'b', 'c', 'd'], 4, OTR4_FRAGMENT_COMPLETE⟩
    "?OTR|00000001|00000002,00002,00002,cd,".toList (by decide) (by decide)).1

/-- C9: for every message and every policy, `otrv4_build_query_message` succeeds
and yields `"?OTRv"`, then `4` if version 4 is allowed, then `3` if version 3 is
allowed, then `"? "` and the message; the error branch is never taken. Policy
{4} gives `"?OTRv4? " ++ m` and policy {3, 4} gives `"?OTRv43? " ++ m`. -/
theorem C9_build_query_message (message : List Char) (otr : otrv4_t) :
    otrv4_build_query_message message otr =
      (OTR4_SUCCESS,
        some (['?', 'O', 'T', 'R', 'v'] ++
          (if allow_version otr OTRV4_ALLOW_V4 ≠ 0 then ['4'] else []) ++
          (if allow_version otr OTRV4_ALLOW_V3 ≠ 0 then ['3'] else []) ++
          ['?', ' '] ++ message)) ∧
    otrv4_build_query_message message { otr with supported_versions := OTRV4_ALLOW_V4 } =
      (OTR4_SUCCESS, some ("?OTRv4? ".toList ++ message)) ∧
    otrv4_build_query_message message
        { otr with supported_versions := OTRV4_ALLOW_V3 ||| OTRV4_ALLOW_V4 } =
      (OTR4_SUCCESS, some ("?OTRv43? ".toList ++ message)) := by
  have key : ∀ o : otrv4_t, otrv4_build_query_message message o =
      (OTR4_SUCCESS,
        some (['?', 'O', 'T', 'R', 'v'] ++
          (if allow_version o OTRV4_ALLOW_V4 ≠ 0 then ['4'] else []) ++
          (if allow_version o OTRV4_ALLOW_V3 ≠ 0 then ['3'] else []) ++
          ['?', ' '] ++ message)) := by
    intro o
    unfold otrv4_build_query_message allowed_versions stpncpy query_header
      QUERY_MESSAGE_TAG_BYTES
    by_cases h4 : allow_version o OTRV4_ALLOW_V4 ≠ 0 <;>
      by_cases h3 : allow_version o OTRV4_ALLOW_V3 ≠ 0 <;>
      simp [h4, h3] <;>
      rw [if_neg (by omega), List.take_of_length_le (by omega)]
  refine ⟨key otr, ?_, ?_⟩
  · rw [key]
    have h4 : allow_version { otr with supported_versions := OTRV4_ALLOW_V4 }
        OTRV4_ALLOW_V4 = 2 := by
      unfold allow_version; dsimp only; decide
    have h3 : allow_version { otr with supported_versions := OTRV4_ALLOW_V4 }
        OTRV4_ALLOW_V3 = 0 := by
      unfold allow_version; dsimp only; decide
    rw [h4, h3]; rfl
  · rw [key]
    have h4 : allow_version { otr with supported_versions := OTRV4_ALLOW_V3 ||| OTRV4_ALLOW_V4 }
        OTRV4_ALLOW_V4 = 2 := by
      unfold allow_version; dsimp only; decide
    have h3 : allow_version { otr with supported_versions := OTRV4_ALLOW_V3 ||| OTRV4_ALLOW_V4 }
        OTRV4_ALLOW_V3 = 1 := by
      unfold allow_version; dsimp only; decide
    rw [h4, h3]; rfl

/-- C10: for every message and every policy, `otrv4_build_whitespace_tag`
succeeds and yields the 16-byte base tag, then the 8-byte version-4 tag if
version 4 is allowed, then the 8-byte version-3 tag if version 3 is allowed,
then the message unchanged; its length is 16, plus 8 per allowed version, plus
the length of the message. -/
theorem C10_build_whitespace_tag (message : List Char) (otr : otrv4_t) :
    otrv4_build_whitespace_tag message otr =
      (OTR4_SUCCESS,
        some ([' ', '\t', ' ', ' ', '\t', '\t', '\t', '\t',
            ' ', '\t', ' ', '\t', ' ', '\t', ' ', ' '] ++
          (if allow_version otr OTRV4_ALLOW_V4 ≠ 0
            then [' ', ' ', '\t', '\t', ' ', '\t', ' ', ' '] else []) ++
          (if allow_version otr OTRV4_ALLOW_V3 ≠ 0
            then [' ', ' ', '\t', '\t', ' ', ' ', '\t', '\t'] else []) ++
          message)) ∧
    ([' ', '\t', ' ', ' ', '\t', '\t', '\t', '\t',
          ' ', '\t', ' ', '\t', ' ', '\t', ' ', ' '] ++
        (if allow_version otr OTRV4_ALLOW_V4 ≠ 0
          then [' ', ' ', '\t', '\t', ' ', '\t', ' ', ' '] else []) ++
        (if allow_version otr OTRV4_ALLOW_V3 ≠ 0
          then [' ', ' ', '\t', '\t', ' ', ' ', '\t', '\t'] else []) ++
        message).length =
      16 + 8 * ((if allow_version otr OTRV4_ALLOW_V4 ≠ 0 then 1 else 0) +
        (if allow_version otr OTRV4_ALLOW_V3 ≠ 0 then 1 else 0)) + message.length := by
  constructor
  · unfold otrv4_build_whitespace_tag stpncpy tag_base tag_version_v4 tag_version_v3
      WHITESPACE_TAG_BASE_BYTES WHITESPACE_TAG_VERSION_BYTES
    by_cases h4 : allow_version otr OTRV4_ALLOW_V4 ≠ 0 <;>
      by_cases h3 : allow_version otr OTRV4_ALLOW_V3 ≠ 0 <;>
      simp [h4, h3] <;>
      rw [if_neg (by omega), List.take_of_length_le (by omega)]
  · by_cases h4 : allow_version otr OTRV4_ALLOW_V4 ≠ 0 <;>
      by_cases h3 : allow_version otr OTRV4_ALLOW_V3 ≠ 0 <;>
      simp [h4, h3] <;> omega

/-- C11 (the code diverges): for every message `m`, a new conversation whose
policy allows version 4 that receives the whitespace-tagged message built
under the sender policy {4} displays `m`; but when the sender policy is
{3, 4} the built message carries the version 3 tag after the version 4 tag,
and the receiver displays the 8 bytes of the version 3 tag followed by `m`:
only the first 24 tag bytes are removed. -/
theorem C11_version_3_tag_left_in_display (env : collaborators)
    (keypair : otrv4_keypair_t) (message : List Char) (sender : otrv4_t) :
    (∃ r, otrv4_build_whitespace_tag message
          { sender with supported_versions := OTRV4_ALLOW_V4 } =
          (OTR4_SUCCESS, some (tag_base ++ tag_version_v4 ++ message)) ∧
        otrv4_receive_message env otrv4_response_new (tag_base ++ tag_version_v4 ++ message)
          (otrv4_new env keypair OTRV4_ALLOW_V4) = some r ∧
        r.response.to_display = some message) ∧
    (∃ r, otrv4_build_whitespace_tag message
          { sender with supported_versions := OTRV4_ALLOW_V3 ||| OTRV4_ALLOW_V4 } =
          (OTR4_SUCCESS, some (tag_base ++ tag_version_v4 ++ (tag_version_v3 ++ message))) ∧
        otrv4_receive_message env otrv4_response_new
          (tag_base ++ tag_version_v4 ++ (tag_version_v3 ++ message))
          (otrv4_new env keypair OTRV4_ALLOW_V4) = some r ∧
        r.response.to_display = some (tag_version_v3 ++ message)) := by
  constructor
  · obtain ⟨r, hr, hd⟩ := receive_whitespace_tagged_new env keypair message
    refine ⟨r, ?_, hr, hd⟩
    rw [otrv4_build_whitespace_tag_eq]
    have h4 : allow_version { sender with supported_versions := OTRV4_ALLOW_V4 }
        OTRV4_ALLOW_V4 ≠ 0 := by
      unfold allow_version; dsimp only; decide
    have h3 : ¬ allow_version { sender with supported_versions := OTRV4_ALLOW_V4 }
        OTRV4_ALLOW_V3 ≠ 0 := by
      unfold allow_version; dsimp only; decide
    rw [if_pos h4, if_neg h3, List.append_nil]
  · obtain ⟨r, hr, hd⟩ := receive_whitespace_tagged_new env keypair (tag_version_v3 ++ message)
    refine ⟨r, ?_, hr, hd⟩
    rw [otrv4_build_whitespace_tag_eq]
    have h4 : allow_version
        { sender with supported_versions := OTRV4_ALLOW_V3 ||| OTRV4_ALLOW_V4 }
        OTRV4_ALLOW_V4 ≠ 0 := by
      unfold allow_version; dsimp only; decide
    have h3 : allow_version
        { sender with supported_versions := OTRV4_ALLOW_V3 ||| OTRV4_ALLOW_V4 }
        OTRV4_ALLOW_V3 ≠ 0 := by
      unfold allow_version; dsimp only; decide
    rw [if_pos h4, if_pos h3, List.append_assoc (tag_base ++ tag_version_v4)]

/-- C12 as stated fails. A new conversation with policy {4} receives the 22
characters made of the base tag and the last 6 characters of the version 4
tag, whose first two characters are the last two of the base tag: the message
contains both tags, and the call returns an error with the state still START
and nothing to send. A new conversation with policy {3, 4} receives the base
tag, the version 4 tag and `?OTR:AAMC`: the message is handed to the version 3
bridge, the running version is 3 and the state START. A new conversation with
policy {4} receives the query `?OTRv4?` followed by the base tag and a text:
the message is handled as a tagged plaintext without version 4 tag and is
ignored, with no running version and the state START. -/
theorem C12_counterexample :
    tag_base <:+: tag_base ++ tag_version_v4.drop 2 ∧
    tag_version_v4 <:+: tag_base ++ tag_version_v4.drop 2 ∧
    (otrv4_receive_message sample_collaborators otrv4_response_new
        (tag_base ++ tag_version_v4.drop 2)
        (otrv4_new sample_collaborators sample_keypair OTRV4_ALLOW_V4)).map
        (fun r => (r.err, r.otr.state, r.response.to_send)) =
      some (OTR4_ERROR, OTRV4_STATE_START, none) ∧
    (otrv4_receive_message sample_collaborators otrv4_response_new
        (tag_base ++ tag_version_v4 ++ "?OTR:AAMC".toList)
        (otrv4_new sample_collaborators sample_keypair
          (OTRV4_ALLOW_V3 ||| OTRV4_ALLOW_V4))).map
        (fun r => (r.otr.running_version, r.otr.state, r.response.to_send)) =
      some (OTRV4_VERSION_3, OTRV4_STATE_START, none) ∧
    (otrv4_receive_message sample_collaborators otrv4_response_new
        ("?OTRv4?".toList ++ tag_base ++ "hello there".toList)
        (otrv4_new sample_collaborators sample_keypair OTRV4_ALLOW_V4)).map
        (fun r => (r.otr.running_version, r.otr.state, r.response.to_send)) =
      some (OTRV4_VERSION_NONE, OTRV4_STATE_START, none) := by
  refine ⟨⟨[], tag_version_v4.drop 2, by decide⟩, ⟨tag_base.take 14, [], by decide⟩,
    by decide, by decide, by decide⟩

/-- C12, amended: for every conversation with no running version whose policy
allows version 4, in state START as in any other state, a message that is not
handed to the version 3 bridge as a DH-Commit (version 3 is not allowed, or
`?OTR:AAMC` does not occur in it) and that either contains the base whitespace
tag and the version 4 tag, anywhere, and is at least 24 characters long, or
contains no base tag and contains a query `?OTRv<versions>?` whose version list
contains `4`, makes `otrv4_receive_message` succeed, set the running version
to 4, move the state to WAITING_AUTH_R and leave in `to_send` the encoding of
the one Identity message built from our instance tags and our fresh ephemeral
public keys. Assumed: the Identity message is allocated and serialized. -/
theorem C12_version_4_offer_starts_dake (env : collaborators)
    (response : otrv4_response_t) (message : List Char) (otr : otrv4_t)
    (m : dake_identity_message_t) (buff : List Nat)
    (hver : otr.running_version = OTRV4_VERSION_NONE)
    (h4 : allow_version otr OTRV4_ALLOW_V4 ≠ 0)
    (hoffer : (tag_base <:+: message ∧ tag_version_v4 <:+: message ∧ 24 ≤ message.length) ∨
      (¬ tag_base <:+: message ∧
        ∃ pre versions text, message = pre ++ query_header ++ versions ++ ['?'] ++ text ∧
          '4' ∈ versions))
    (hcommit : allow_version otr OTRV4_ALLOW_V3 = 0 ∨
      ¬ ['?', 'O', 'T', 'R', ':', 'A', 'A', 'M', 'C'] <:+: message)
    (hnew : env.dake_identity_message_new otr.profile = some m)
    (hser : env.dake_identity_message_asprintf
      { m with
        sender_instance_tag := otr.our_instance_tag,
        receiver_instance_tag := otr.their_instance_tag,
        Y := (env.key_manager_generate_ephemeral_keys otr.keys).our_ecdh,
        B := (env.key_manager_generate_ephemeral_keys otr.keys).our_dh } = some buff) :
    ∃ r, otrv4_receive_message env response message otr = some r ∧
      r.err = OTR4_SUCCESS ∧
      r.otr.running_version = OTRV4_VERSION_4 ∧
      r.otr.state = OTRV4_STATE_WAITING_AUTH_R ∧
      r.response.to_send = some (env.otrl_base64_otr_encode buff) := by
  have hver3 : otr.running_version ≠ OTRV4_VERSION_3 := by
    rw [hver]; decide
  have hc : otr.running_version = OTRV4_VERSION_4 ∨
      allow_version otr OTRV4_ALLOW_V3 = 0 ∨
      strstr message ['?', 'O', 'T', 'R', ':', 'A', 'A', 'M', 'C'] = false := by
    rcases hcommit with h | h
    · exact Or.inr (Or.inl h)
    · exact Or.inr (Or.inr ((strstr_eq_false_iff _ _).2 h))
  have hstart := start_dake_success env
    { to_display := none, to_send := none, warning := response.warning,
      tlvs := response.tlvs }
    { otr with running_version := OTRV4_VERSION_4 } m buff hnew hser
  rw [otrv4_receive_message_not_commit env response message otr hver3 hc]
  unfold receive_message_v4_only
  rcases hoffer with ⟨hbase, htag4, hlen⟩ | ⟨hnotag, pre, versions, text, hm, hmem⟩
  · have htype : get_message_type message = IN_MSG_TAGGED_PLAINTEXT :=
      (get_message_type_iff message).1.2 hbase
    have hv4 : strstr message tag_version_v4 = true := (strstr_iff_occurs _ _).2 htag4
    rw [htype]
    dsimp only
    rw [receive_tagged_plaintext_v4 env _ message otr h4 hv4 hlen]
    have hstart2 := start_dake_success env
      { to_display := some (message.drop 24), to_send := none, warning := response.warning,
        tlvs := response.tlvs }
      { otr with running_version := OTRV4_VERSION_4 } m buff hnew hser
    rw [hstart2]
    exact ⟨_, rfl, rfl, rfl, rfl, rfl⟩
  · have htype : get_message_type message = IN_MSG_QUERY_STRING := by
      apply (get_message_type_iff message).2.1.2
      refine ⟨hnotag, ?_⟩
      rw [hm]
      exact ⟨pre, versions ++ ['?'] ++ text, by simp⟩
    have hv4 : strstr message ['4'] = true := by
      rw [hm, strstr_iff_occurs]
      obtain ⟨s, t, hst⟩ := List.append_of_mem hmem
      rw [hst]
      exact ⟨pre ++ query_header ++ s, t ++ ['?'] ++ text, by simp⟩
    rw [htype]
    dsimp only
    rw [receive_query_message_v4 env _ message otr h4 hv4, hstart]
    exact ⟨_, rfl, rfl, rfl, rfl, rfl⟩

/-- C12, amended, on an instance: a new conversation with policy {4} receives
the base tag, the version 3 tag, the version 4 tag and `hi`, and answers with
an Identity message. -/
theorem C12_version_4_offer_starts_dake_witness :
    ∃ r, otrv4_receive_message sample_collaborators otrv4_response_new
        (tag_base ++ tag_version_v3 ++ tag_version_v4 ++ "hi".toList)
        (otrv4_new sample_collaborators sample_keypair OTRV4_ALLOW_V4) = some r ∧
      r.err = OTR4_SUCCESS ∧
      r.otr.running_version = OTRV4_VERSION_4 ∧
      r.otr.state = OTRV4_STATE_WAITING_AUTH_R ∧
      r.response.to_send =
        some (sample_collaborators.otrl_base64_otr_encode [0, 4, 0x35, 0, 0, 11, 7]) :=
  C12_version_4_offer_starts_dake sample_collaborators otrv4_response_new
    (tag_base ++ tag_version_v3 ++ tag_version_v4 ++ "hi".toList)
    (otrv4_new sample_collaborators sample_keypair OTRV4_ALLOW_V4)
    ⟨0, 0, ⟨[5], [52]⟩, [], 0⟩ [0, 4, 0x35, 0, 0, 11, 7]
    rfl (by decide)
    (Or.inl ⟨⟨[], tag_version_v3 ++ tag_version_v4 ++ "hi".toList, by decide⟩,
      ⟨tag_base ++ tag_version_v3, "hi".toList, by decide⟩, by decide⟩)
    (Or.inl (by decide)) rfl rfl

/-- C13 (the code diverges): the text after the version list decides the
outcome. A new conversation with policy {4} that receives `?OTRv3? room 4`, a
query that advertises version 3 only, sets its running version to 4 and
starts the key exchange, because the digit is searched in the whole message;
with the text `room 5` instead the running version stays NONE and the state
START. -/
theorem C13_text_selects_version (env : collaborators) (response : otrv4_response_t)
    (keypair : otrv4_keypair_t) :
    (∃ r, otrv4_receive_message env response "?OTRv3? room 4".toList
        (otrv4_new env keypair OTRV4_ALLOW_V4) = some r ∧
      r.otr.running_version = OTRV4_VERSION_4 ∧
      r.otr.state = OTRV4_STATE_WAITING_AUTH_R) ∧
    (∃ r, otrv4_receive_message env response "?OTRv3? room 5".toList
        (otrv4_new env keypair OTRV4_ALLOW_V4) = some r ∧
      r.otr.running_version = OTRV4_VERSION_NONE ∧
      r.otr.state = OTRV4_STATE_START) := by
  have h3 : allow_version (otrv4_new env keypair OTRV4_ALLOW_V4) OTRV4_ALLOW_V3 = 0 := by
    rw [allow_version_otrv4_new]; decide
  have h4 : allow_version (otrv4_new env keypair OTRV4_ALLOW_V4) OTRV4_ALLOW_V4 ≠ 0 := by
    rw [allow_version_otrv4_new]; decide
  have hver : (otrv4_new env keypair OTRV4_ALLOW_V4).running_version ≠ OTRV4_VERSION_3 := by
    intro h; exact otrv4_version.noConfusion h
  constructor
  · have htype : get_message_type "?OTRv3? room 4".toList = IN_MSG_QUERY_STRING := by
      decide
    rw [otrv4_receive_message_not_commit env response _ _ hver (Or.inr (Or.inl h3))]
    unfold receive_message_v4_only
    rw [htype]
    dsimp only
    rw [receive_query_message_v4 env _ _ _ h4 (by decide)]
    exact ⟨_, rfl, (start_dake_state env _ _).2.1, (start_dake_state env _ _).1⟩
  · have htype : get_message_type "?OTRv3? room 5".toList = IN_MSG_QUERY_STRING := by
      decide
    have hq4 : ¬ (allow_version (otrv4_new env keypair OTRV4_ALLOW_V4) OTRV4_ALLOW_V4 ≠ 0 ∧
        strstr "?OTRv3? room 5".toList ['4'] = true) := by
      rintro ⟨_, h⟩
      revert h
      decide
    have hq3 : ¬ (allow_version (otrv4_new env keypair OTRV4_ALLOW_V4) OTRV4_ALLOW_V3 ≠ 0 ∧
        strstr "?OTRv3? room 5".toList ['3'] = true) := by
      rintro ⟨h, _⟩
      exact h h3
    rw [otrv4_receive_message_not_commit env response _ _ hver (Or.inr (Or.inl h3))]
    unfold receive_message_v4_only
    rw [htype]
    dsimp only
    unfold receive_query_message set_running_version_from_query_msg
    rw [if_neg hq4, if_neg hq3]
    exact ⟨_, rfl, rfl, rfl⟩

/-- C14 (as stated, refuted): the string made of `?OTR:` followed by the base
whitespace tag starts with `?OTR:` and is classified as tagged plaintext, not
as encoded; and `hello ?OTRv4?` is classified as a query although it does not
start with `?OTRv`. -/
theorem C14_counterexample :
    get_message_type ("?OTR:".toList ++ tag_base) = IN_MSG_TAGGED_PLAINTEXT ∧
    get_message_type "hello ?OTRv4?".toList = IN_MSG_QUERY_STRING := by
  decide

/-- C14 (amended): `get_message_type` probes for the base whitespace tag, then
for `?OTRv`, then for `?OTR:`, each searched anywhere in the string: the result
is TAGGED_PLAINTEXT exactly when the string contains the base tag,
QUERY_STRING exactly when it contains `?OTRv` but not the tag, OTR_ENCODED
exactly when it contains `?OTR:` but neither of the former, PLAINTEXT exactly
when it contains none of the three, and never IN_MSG_NONE. -/
theorem C14_get_message_type (message : List Char) :
    (get_message_type message = IN_MSG_TAGGED_PLAINTEXT ↔ tag_base <:+: message) ∧
    (get_message_type message = IN_MSG_QUERY_STRING ↔
      ¬ tag_base <:+: message ∧ query_header <:+: message) ∧
    (get_message_type message = IN_MSG_OTR_ENCODED ↔
      ¬ tag_base <:+: message ∧ ¬ query_header <:+: message ∧ otr_header <:+: message) ∧
    (get_message_type message = IN_MSG_PLAINTEXT ↔
      ¬ tag_base <:+: message ∧ ¬ query_header <:+: message ∧
        ¬ otr_header <:+: message) ∧
    get_message_type message ≠ IN_MSG_NONE :=
  get_message_type_iff message

/-- C15: for every message that contains neither the base whitespace tag nor
`?OTRv` nor `?OTR:`, received by a conversation that is not running version 3
with a response whose warning is still NONE, `otrv4_receive_message` succeeds,
`to_display` is the message, `to_send` is empty, the conversation is unchanged,
and the warning is RECEIVED_UNENCRYPTED exactly when the state is not START. -/
theorem C15_receive_plaintext (env : collaborators) (response : otrv4_response_t)
    (message : List Char) (otr : otrv4_t)
    (htag : ¬ tag_base <:+: message) (hquery : ¬ query_header <:+: message)
    (henc : ¬ otr_header <:+: message)
    (hver : otr.running_version ≠ OTRV4_VERSION_3)
    (hwarn : response.warning = OTRV4_WARN_NONE) :
    ∃ r, otrv4_receive_message env response message otr = some r ∧
      r.err = OTR4_SUCCESS ∧
      r.response.to_display = some message ∧
      r.response.to_send = none ∧
      r.otr = otr ∧
      (r.response.warning = OTRV4_WARN_RECEIVED_UNENCRYPTED ↔
        otr.state ≠ OTRV4_STATE_START) := by
  have htype : get_message_type message = IN_MSG_PLAINTEXT :=
    (get_message_type_iff message).2.2.2.1.2 ⟨htag, hquery, henc⟩
  rw [otrv4_receive_message_not_commit env response message otr hver
    (Or.inr (Or.inr (strstr_commit_false message henc)))]
  unfold receive_message_v4_only
  rw [htype]
  refine ⟨_, rfl, rfl, ?_, ?_, rfl, ?_⟩
  · simp [receive_plaintext, set_to_display, otrv4_strndup]
    split_ifs <;> simp
  · simp only [receive_plaintext, set_to_display]
    split_ifs <;> rfl
  · simp only [receive_plaintext, set_to_display]
    split_ifs with h <;> simp [h, hwarn]

/-- C15, on an instance: `Some random text.` received in state AKE_IN_PROGRESS
by a conversation without a negotiated version. -/
theorem C15_receive_plaintext_witness :
    ∃ r, otrv4_receive_message sample_collaborators otrv4_response_new
        "Some random text.".toList
        { otrv4_new sample_collaborators sample_keypair OTRV4_ALLOW_V4 with
          state := OTRV4_STATE_AKE_IN_PROGRESS } = some r ∧
      r.err = OTR4_SUCCESS ∧
      r.response.to_display = some "Some random text.".toList ∧
      r.response.to_send = none ∧
      r.otr = { otrv4_new sample_collaborators sample_keypair OTRV4_ALLOW_V4 with
          state := OTRV4_STATE_AKE_IN_PROGRESS } ∧
      (r.response.warning = OTRV4_WARN_RECEIVED_UNENCRYPTED ↔
        OTRV4_STATE_AKE_IN_PROGRESS ≠ OTRV4_STATE_START) :=
  C15_receive_plaintext sample_collaborators otrv4_response_new
    "Some random text.".toList
    { otrv4_new sample_collaborators sample_keypair OTRV4_ALLOW_V4 with
      state := OTRV4_STATE_AKE_IN_PROGRESS }
    (by decide) (by decide) (by decide) (by decide) rfl

/-- C16 (as stated, refuted): a new conversation (state START, no negotiated
version) gets the generic `OTR4_ERROR` from `otrv4_send_message`, not
`OTR4_STATE_NOT_ENCRYPTED`; and a conversation running version 4 in state
FINISHED gets the same generic `OTR4_ERROR`. -/
theorem C16_counterexample :
    (otrv4_send_message sample_collaborators none "hi".toList []
      (otrv4_new sample_collaborators sample_keypair OTRV4_ALLOW_V4)).err = OTR4_ERROR ∧
    (otrv4_send_message sample_collaborators none "hi".toList []
      { otrv4_new sample_collaborators sample_keypair OTRV4_ALLOW_V4 with
        state := OTRV4_STATE_FINISHED,
        running_version := OTRV4_VERSION_4 }).err = OTR4_ERROR := by
  decide

/-- C16 (amended): for a conversation running version 4, `otrv4_send_message`
returns `OTR4_STATE_NOT_ENCRYPTED` in every state other than ENCRYPTED and
FINISHED and the generic `OTR4_ERROR` in FINISHED; for a conversation without
a negotiated version it returns the generic `OTR4_ERROR` in every state. In
all these cases `to_send` keeps its value and the conversation is unchanged. -/
theorem C16_send_when_not_encrypted (env : collaborators) (to_send : Option (List Char))
    (message : List Char) (tlvs : List tlv_t) (otr : otrv4_t) :
    (otr.running_version = OTRV4_VERSION_4 →
      otr.state ≠ OTRV4_STATE_ENCRYPTED_MESSAGES → otr.state ≠ OTRV4_STATE_FINISHED →
      otrv4_send_message env to_send message tlvs otr =
        ⟨OTR4_STATE_NOT_ENCRYPTED, to_send, otr⟩) ∧
    (otr.running_version = OTRV4_VERSION_4 → otr.state = OTRV4_STATE_FINISHED →
      otrv4_send_message env to_send message tlvs otr = ⟨OTR4_ERROR, to_send, otr⟩) ∧
    (otr.running_version = OTRV4_VERSION_NONE →
      otrv4_send_message env to_send message tlvs otr = ⟨OTR4_ERROR, to_send, otr⟩) := by
  refine ⟨?_, ?_, ?_⟩
  · intro hv he hf
    unfold otrv4_send_message send_otrv4_message
    rw [hv]
    simp only [if_neg hf, if_pos he]
  · intro hv hf
    unfold otrv4_send_message send_otrv4_message
    rw [hv]
    simp only [if_pos hf]
  · intro hv
    unfold otrv4_send_message
    rw [hv]

/-- C16 (amended), on an instance: a conversation running version 4 in state
WAITING_AUTH_R. -/
theorem C16_send_when_not_encrypted_witness :
    otrv4_send_message sample_collaborators none "hi".toList []
      { otrv4_new sample_collaborators sample_keypair OTRV4_ALLOW_V4 with
        state := OTRV4_STATE_WAITING_AUTH_R, running_version := OTRV4_VERSION_4 } =
      ⟨OTR4_STATE_NOT_ENCRYPTED, none,
        { otrv4_new sample_collaborators sample_keypair OTRV4_ALLOW_V4 with
          state := OTRV4_STATE_WAITING_AUTH_R, running_version := OTRV4_VERSION_4 }⟩ :=
  (C16_send_when_not_encrypted sample_collaborators none "hi".toList []
    { otrv4_new sample_collaborators sample_keypair OTRV4_ALLOW_V4 with
      state := OTRV4_STATE_WAITING_AUTH_R, running_version := OTRV4_VERSION_4 }).1
    rfl (by decide) (by decide)

/-- C17: `otrv4_close` called in state ENCRYPTED by a conversation running
version 4 passes to `send_data_message` the five bytes made of the empty
message, the 0x00 separator and one DISCONNECTED record (type 0x0001, length
0); whatever that send returns, the state is START afterwards and the key
manager is the one `key_manager_init` leaves after `key_manager_destroy`.
Called in any other state it returns success, writes nothing and leaves the
conversation unchanged. -/
theorem C17_close (env : collaborators) (to_send : Option (List Char)) (otr : otrv4_t) :
    (otr.state = OTRV4_STATE_ENCRYPTED_MESSAGES →
      otr.running_version = OTRV4_VERSION_4 →
      append_tlvs [] otrv4_disconnected_tlv_new =
          some ([] ++ [0x00] ++ (serialize_uint16 OTRV4_TLV_DISCONNECTED ++
            serialize_uint16 0), 5) ∧
        (otrv4_close env to_send otr).err =
          (if (send_data_message env to_send [0x00, 0x00, 0x01, 0x00, 0x00] 5 otr).err =
            OTR4_SUCCESS then OTR4_SUCCESS else OTR4_ERROR) ∧
        (otrv4_close env to_send otr).dst =
          (send_data_message env to_send [0x00, 0x00, 0x01, 0x00, 0x00] 5 otr).dst ∧
        (otrv4_close env to_send otr).otr.state = OTRV4_STATE_START ∧
        (otrv4_close env to_send otr).otr.keys =
          env.key_manager_init (env.key_manager_destroy
            (send_data_message env to_send [0x00, 0x00, 0x01, 0x00, 0x00] 5 otr).otr.keys)) ∧
    (otr.state ≠ OTRV4_STATE_ENCRYPTED_MESSAGES →
      otrv4_close env to_send otr = ⟨OTR4_SUCCESS, to_send, otr⟩) := by
  have happ : append_tlvs [] otrv4_disconnected_tlv_new =
      some ([0x00, 0x00, 0x01, 0x00, 0x00], 5) := by decide
  refine ⟨?_, ?_⟩
  · intro hs hv
    have hsend : otrv4_send_message env to_send [] otrv4_disconnected_tlv_new otr =
        send_data_message env to_send [0x00, 0x00, 0x01, 0x00, 0x00] 5 otr := by
      unfold otrv4_send_message send_otrv4_message
      rw [hv]
      simp only [hs, happ]
      rw [if_neg (by decide), if_neg (by simp)]
    have hne : otrv4_disconnected_tlv_new ≠ [] := by decide
    unfold otrv4_close
    rw [if_neg (fun h => h hs), if_neg hne, hsend]
    refine ⟨happ, rfl, rfl, ?_, ?_⟩
    · unfold gone_insecure_cb; dsimp only; split_ifs <;> rfl
    · unfold gone_insecure_cb forget_our_keys; dsimp only; split_ifs <;> rfl
  · intro hs
    unfold otrv4_close
    rw [if_pos hs]

/-- C17, on an instance: a conversation in state ENCRYPTED running version 4 is
in state START after `otrv4_close`. -/
theorem C17_close_witness :
    (otrv4_close sample_collaborators none
      { otrv4_new sample_collaborators sample_keypair OTRV4_ALLOW_V4 with
        state := OTRV4_STATE_ENCRYPTED_MESSAGES,
        running_version := OTRV4_VERSION_4 }).otr.state = OTRV4_STATE_START :=
  ((C17_close sample_collaborators none
    { otrv4_new sample_collaborators sample_keypair OTRV4_ALLOW_V4 with
      state := OTRV4_STATE_ENCRYPTED_MESSAGES,
      running_version := OTRV4_VERSION_4 }).1 rfl rfl).2.2.2.1

/-- C18 (as stated, refuted): a conversation in state FINISHED that runs
version 4 and receives the query message `?OTRv4?` starts a new key exchange:
its state becomes WAITING_AUTH_R. -/
theorem C18_counterexample :
    (otrv4_receive_message sample_collaborators otrv4_response_new "?OTRv4?".toList
      { otrv4_new sample_collaborators sample_keypair OTRV4_ALLOW_V4 with
        state := OTRV4_STATE_FINISHED,
        running_version := OTRV4_VERSION_4 }).map (fun r => r.otr.state) =
      some OTRV4_STATE_WAITING_AUTH_R := by
  decide

/-- C18 (amended): for a conversation in state FINISHED, `otrv4_send_message`
and `otrv4_close` leave the state FINISHED, and `otrv4_receive_message`
returns with the state either still FINISHED or moved to WAITING_AUTH_R. It
is WAITING_AUTH_R exactly when a new key exchange is started: the message is
not handed to the version 3 bridge (the running version is not 3, and it is
not a DH-Commit `?OTR:AAMC` received without running version while version 3
is allowed), and either the message contains the base whitespace tag, the
version selection made from the tags leaves the running version 4 and the
message is at least 24 characters long, or the message contains no base tag,
contains `?OTRv` and the version selection made from the query leaves the
running version 4. Plaintext and encoded messages never change the state. -/
theorem C18_finished_left_only_by_new_offer (env : collaborators)
    (response : otrv4_response_t) (to_send : Option (List Char))
    (message : List Char) (tlvs : List tlv_t) (otr : otrv4_t)
    (hstate : otr.state = OTRV4_STATE_FINISHED) :
    (otrv4_send_message env to_send message tlvs otr).otr.state = OTRV4_STATE_FINISHED ∧
    (otrv4_close env to_send otr).otr.state = OTRV4_STATE_FINISHED ∧
    ∃ r, otrv4_receive_message env response message otr = some r ∧
      (r.otr.state = OTRV4_STATE_FINISHED ∨ r.otr.state = OTRV4_STATE_WAITING_AUTH_R) ∧
      (r.otr.state = OTRV4_STATE_WAITING_AUTH_R ↔
        (otr.running_version ≠ OTRV4_VERSION_3 ∧
          ¬ (otr.running_version = OTRV4_VERSION_NONE ∧
            allow_version otr OTRV4_ALLOW_V3 ≠ 0 ∧
            ['?', 'O', 'T', 'R', ':', 'A', 'A', 'M', 'C'] <:+: message) ∧
          ((tag_base <:+: message ∧
              (set_running_version_from_tag otr message).running_version =
                OTRV4_VERSION_4 ∧
              24 ≤ message.length) ∨
            (¬ tag_base <:+: message ∧ query_header <:+: message ∧
              (set_running_version_from_query_msg otr message).running_version =
                OTRV4_VERSION_4)))) := by
  have hne : OTRV4_STATE_FINISHED ≠ OTRV4_STATE_WAITING_AUTH_R := by decide
  refine ⟨?_, ?_, ?_⟩
  · unfold otrv4_send_message send_otrv4_message
    cases otr.running_version with
    | OTRV4_VERSION_NONE => exact hstate
    | OTRV4_VERSION_3 => exact hstate
    | OTRV4_VERSION_4 =>
      dsimp only
      rw [if_pos hstate]
      exact hstate
  · unfold otrv4_close
    rw [if_pos (by rw [hstate]; decide)]
    exact hstate
  · by_cases hc : otr.running_version = OTRV4_VERSION_NONE ∧
        allow_version otr OTRV4_ALLOW_V3 ≠ 0 ∧
        strstr message ['?', 'O', 'T', 'R', ':', 'A', 'A', 'M', 'C'] = true
    · have hr : (call_otrv3_receive_message env
          { to_display := none, to_send := none, warning := response.warning,
            tlvs := response.tlvs } message
          { otr with running_version := OTRV4_VERSION_3 }).otr.state =
          OTRV4_STATE_FINISHED :=
        (call_otrv3_receive_message_state env _ message _).1.trans hstate
      refine ⟨_, ?_, Or.inl hr, fun h => absurd (hr.symm.trans h) hne, ?_⟩
      · unfold otrv4_receive_message
        simp only [if_pos hc, set_to_display, otrv4_strndup]
      · rintro ⟨_, h, _⟩
        exact absurd ⟨hc.1, hc.2.1, (strstr_iff_occurs _ _).1 hc.2.2⟩ h
    · by_cases hv : otr.running_version = OTRV4_VERSION_3
      · have hr : (call_otrv3_receive_message env
            { to_display := none, to_send := none, warning := response.warning,
              tlvs := response.tlvs } message otr).otr.state = OTRV4_STATE_FINISHED :=
          (call_otrv3_receive_message_state env _ message _).1.trans hstate
        refine ⟨_, ?_, Or.inl hr, fun h => absurd (hr.symm.trans h) hne, ?_⟩
        · unfold otrv4_receive_message
          simp only [if_neg hc, set_to_display, otrv4_strndup]
          rw [hv]
        · rintro ⟨h, _⟩
          exact absurd hv h
      · have hcommit : otr.running_version = OTRV4_VERSION_4 ∨
            allow_version otr OTRV4_ALLOW_V3 = 0 ∨
            strstr message ['?', 'O', 'T', 'R', ':', 'A', 'A', 'M', 'C'] = false := by
          by_cases h1 : otr.running_version = OTRV4_VERSION_NONE
          · by_cases h2 : allow_version otr OTRV4_ALLOW_V3 = 0
            · exact Or.inr (Or.inl h2)
            · refine Or.inr (Or.inr ?_)
              cases h3 : strstr message ['?', 'O', 'T', 'R', ':', 'A', 'A', 'M', 'C'] with
              | false => rfl
              | true => exact absurd ⟨h1, h2, h3⟩ hc
          · cases h4 : otr.running_version with
            | OTRV4_VERSION_NONE => exact absurd h4 h1
            | OTRV4_VERSION_3 => exact absurd h4 hv
            | OTRV4_VERSION_4 => exact Or.inl rfl
        rw [otrv4_receive_message_not_commit env response message otr hv hcommit]
        obtain ⟨r, hr, hor, hiff⟩ := receive_message_v4_only_finished_iff env
          { to_display := none, to_send := none, warning := response.warning,
            tlvs := response.tlvs } message otr hstate
        refine ⟨r, hr, hor, ?_⟩
        rw [hiff]
        constructor
        · intro h
          refine ⟨hv, ?_, h⟩
          rintro ⟨h1, h2, h3⟩
          exact hc ⟨h1, h2, (strstr_iff_occurs _ _).2 h3⟩
        · rintro ⟨_, _, h⟩
          exact h

/-- C18 (amended), on instances: in state FINISHED with running version 4 and
policy {4}, the query message `?OTRv4?` starts a new key exchange, and the
base tag followed by the last six characters of the version 4 tag (22
characters that contain both tags) leaves the state FINISHED. -/
theorem C18_finished_left_only_by_new_offer_witness :
    (∃ r, otrv4_receive_message sample_collaborators otrv4_response_new "?OTRv4?".toList
        { otrv4_new sample_collaborators sample_keypair OTRV4_ALLOW_V4 with
          state := OTRV4_STATE_FINISHED, running_version := OTRV4_VERSION_4 } = some r ∧
      r.otr.state = OTRV4_STATE_WAITING_AUTH_R) ∧
    (∃ r, otrv4_receive_message sample_collaborators otrv4_response_new
        (tag_base ++ tag_version_v4.drop 2)
        { otrv4_new sample_collaborators sample_keypair OTRV4_ALLOW_V4 with
          state := OTRV4_STATE_FINISHED, running_version := OTRV4_VERSION_4 } = some r ∧
      r.otr.state = OTRV4_STATE_FINISHED) :=
  ⟨(C18_finished_left_only_by_new_offer sample_collaborators otrv4_response_new none
      "?OTRv4?".toList []
      { otrv4_new sample_collaborators sample_keypair OTRV4_ALLOW_V4 with
        state := OTRV4_STATE_FINISHED, running_version := OTRV4_VERSION_4 } rfl).2.2.elim
      (fun r h => ⟨r, h.1, h.2.2.2 ⟨by decide, by decide, Or.inr
        ⟨by decide, ⟨[], ['4', '?'], by decide⟩, by decide⟩⟩⟩),
    (C18_finished_left_only_by_new_offer sample_collaborators otrv4_response_new none
      (tag_base ++ tag_version_v4.drop 2) []
      { otrv4_new sample_collaborators sample_keypair OTRV4_ALLOW_V4 with
        state := OTRV4_STATE_FINISHED, running_version := OTRV4_VERSION_4 } rfl).2.2.elim
      (fun r h => ⟨r, h.1, h.2.1.resolve_right (fun hw =>
        absurd (h.2.2.1 hw).2.2 (by decide))⟩)⟩

/-- C19: an Auth-R message received in a state other than WAITING_AUTH_R, and
an Auth-I message received in a state other than WAITING_AUTH_I, is ignored
whatever its bytes are: `receive_auth_r` and `receive_auth_i` return success,
leave `*dst` as it was and leave the whole conversation unchanged; so does
`receive_decoded_message` for a decoded message whose header announces
version 4 and one of these two types. -/
theorem C19_auth_message_ignored (env : collaborators) (response : otrv4_response_t)
    (buff : List Nat) (buff_len : Nat) (otr : otrv4_t) :
    (otr.state ≠ OTRV4_STATE_WAITING_AUTH_R →
      receive_auth_r env response.to_send buff buff_len otr =
          some ⟨OTR4_SUCCESS, response.to_send, otr⟩ ∧
        (allow_version otr OTRV4_ALLOW_V4 ≠ 0 →
          extract_header buff buff_len = some ⟨OTRV4_ALLOW_V4, OTR_AUTH_R_MSG_TYPE⟩ →
          receive_decoded_message env response buff buff_len otr =
            some ⟨OTR4_SUCCESS, response, otr⟩)) ∧
    (otr.state ≠ OTRV4_STATE_WAITING_AUTH_I →
      receive_auth_i env response.to_send buff buff_len otr =
          some ⟨OTR4_SUCCESS, response.to_send, otr⟩ ∧
        (allow_version otr OTRV4_ALLOW_V4 ≠ 0 →
          extract_header buff buff_len = some ⟨OTRV4_ALLOW_V4, OTR_AUTH_I_MSG_TYPE⟩ →
          receive_decoded_message env response buff buff_len otr =
            some ⟨OTR4_SUCCESS, response, otr⟩)) := by
  refine ⟨?_, ?_⟩
  · intro hs
    have hr : receive_auth_r env response.to_send buff buff_len otr =
        some ⟨OTR4_SUCCESS, response.to_send, otr⟩ := by
      unfold receive_auth_r
      rw [if_pos hs]
    refine ⟨hr, ?_⟩
    intro h4 hh
    unfold receive_decoded_message
    rw [hh]
    dsimp only
    rw [if_neg h4, if_neg (by simp), if_neg (by decide), if_pos rfl, hr]
    rfl
  · intro hs
    have hr : receive_auth_i env response.to_send buff buff_len otr =
        some ⟨OTR4_SUCCESS, response.to_send, otr⟩ := by
      unfold receive_auth_i
      rw [if_pos hs]
    refine ⟨hr, ?_⟩
    intro h4 hh
    unfold receive_decoded_message
    rw [hh]
    dsimp only
    rw [if_neg h4, if_neg (by simp), if_neg (by decide), if_neg (by decide), if_pos rfl, hr]
    rfl

/-- C19, on an instance: the three bytes `00 04 36` (an Auth-R header and
nothing else) received in state START. -/
theorem C19_auth_message_ignored_witness :
    receive_decoded_message sample_collaborators otrv4_response_new [0x00, 0x04, 0x36] 3
        (otrv4_new sample_collaborators sample_keypair OTRV4_ALLOW_V4) =
      some ⟨OTR4_SUCCESS, otrv4_response_new,
        otrv4_new sample_collaborators sample_keypair OTRV4_ALLOW_V4⟩ :=
  ((C19_auth_message_ignored sample_collaborators otrv4_response_new [0x00, 0x04, 0x36] 3
    (otrv4_new sample_collaborators sample_keypair OTRV4_ALLOW_V4)).1 (by decide)).2
    (by decide) (by decide)

/-- C20 (the code diverges): an Identity message that deserializes and passes
`valid_received_values`, received in state WAITING_AUTH_I, makes
`receive_identity_message` return `OTR4_ERROR`, not success: the branch of
that state is empty and the error code set on entry is returned. No reply is
written and the state stays WAITING_AUTH_I; `their_instance_tag` takes the
sender tag of the message. -/
theorem C20_identity_in_waiting_auth_i (env : collaborators) (dst : Option (List Char))
    (buff : List Nat) (buflen : Nat) (otr : otrv4_t) (m : dake_identity_message_t)
    (hstate : otr.state = OTRV4_STATE_WAITING_AUTH_I)
    (hdes : env.dake_identity_message_deserialize buff buflen = some m)
    (hvalid : env.valid_received_values m.Y m.B m.profile = true) :
    receive_identity_message env dst buff buflen otr =
      some ⟨OTR4_ERROR, dst, { otr with their_instance_tag := m.sender_instance_tag }⟩ := by
  unfold receive_identity_message
  rw [hdes]
  simp only [hvalid, received_instance_tag, hstate, not_true_eq_false, if_false]

/-- C20, on an instance: the Identity message `00 04 35 09 00 0b 07` received in
state WAITING_AUTH_I returns `OTR4_ERROR`. -/
theorem C20_identity_in_waiting_auth_i_witness :
    receive_identity_message sample_collaborators none
        [0x00, 0x04, 0x35, 0x09, 0x00, 0x0b, 0x07] 7
        { otrv4_new sample_collaborators sample_keypair OTRV4_ALLOW_V4 with
          state := OTRV4_STATE_WAITING_AUTH_I, running_version := OTRV4_VERSION_4 } =
      some ⟨OTR4_ERROR, none,
        { otrv4_new sample_collaborators sample_keypair OTRV4_ALLOW_V4 with
          state := OTRV4_STATE_WAITING_AUTH_I, running_version := OTRV4_VERSION_4,
          their_instance_tag := 9 }⟩ :=
  C20_identity_in_waiting_auth_i sample_collaborators none
    [0x00, 0x04, 0x35, 0x09, 0x00, 0x0b, 0x07] 7
    { otrv4_new sample_collaborators sample_keypair OTRV4_ALLOW_V4 with
      state := OTRV4_STATE_WAITING_AUTH_I, running_version := OTRV4_VERSION_4 }
    ⟨9, 0, ⟨[5], []⟩, [7], 11⟩ rfl rfl rfl

/-- C21: a conversation in state WAITING_AUTH_R receives an Identity message
that deserializes and passes `valid_received_values`; `x` is the number read
from our ephemeral public value and `y` the number read from the sender's. If
`x < y` the message is discarded: success, no reply, state and keys unchanged.
Otherwise, the message passing `valid_dake_identity_message` and the Auth-R
message being signed and serialized, our keys are destroyed and initialised
again, the sender's keys and profile are stored, fresh ephemeral keys are
generated, the encoded Auth-R message is the reply and the state becomes
WAITING_AUTH_I. -/
theorem C21_dake_tie_break (env : collaborators) (dst : Option (List Char))
    (buff : List Nat) (buflen : Nat) (otr : otrv4_t) (m : dake_identity_message_t)
    (x y : Nat)
    (hstate : otr.state = OTRV4_STATE_WAITING_AUTH_R)
    (hdes : env.dake_identity_message_deserialize buff buflen = some m)
    (hvalid : env.valid_received_values m.Y m.B m.profile = true)
    (hx : env.gcry_mpi_scan_our_dh otr.keys.our_dh = some x)
    (hy : env.gcry_mpi_scan_point m.Y = some y) :
    (x < y →
      receive_identity_message env dst buff buflen otr =
        some ⟨OTR4_SUCCESS, dst,
          { otr with their_instance_tag := m.sender_instance_tag }⟩) ∧
    (¬ x < y → env.valid_dake_identity_message m = true →
      ∀ t sigma reply : List Nat,
        build_auth_message env 0 (some (env.user_profile_copy (some m.profile)))
            otr.profile (keys_after_restart env m otr.keys).their_ecdh
            (keys_after_restart env m otr.keys).our_ecdh
            (keys_after_restart env m otr.keys).their_dh
            (keys_after_restart env m otr.keys).our_dh = some t →
        env.snizkpk_authenticate otr.keypair
            (env.user_profile_copy (some m.profile)).pub_key
            (keys_after_restart env m otr.keys).their_ecdh t = some sigma →
        env.dake_auth_r_asprintf
            { sender_instance_tag := otr.our_instance_tag,
              receiver_instance_tag := m.sender_instance_tag,
              profile := env.user_profile_copy otr.profile,
              X := (keys_after_restart env m otr.keys).our_ecdh,
              A := (keys_after_restart env m otr.keys).our_dh,
              sigma := sigma } = some reply →
        receive_identity_message env dst buff buflen otr =
          some ⟨OTR4_SUCCESS, some (env.otrl_base64_otr_encode reply),
            { otr with
              their_instance_tag := m.sender_instance_tag,
              keys := keys_after_restart env m otr.keys,
              their_profile := some (env.user_profile_copy (some m.profile)),
              state := OTRV4_STATE_WAITING_AUTH_I }⟩) := by
  have hs : (received_instance_tag m.sender_instance_tag otr).state =
      OTRV4_STATE_WAITING_AUTH_R := hstate
  have hin : receive_identity_message env dst buff buflen otr =
      receive_identity_message_while_in_progress env dst m
        (received_instance_tag m.sender_instance_tag otr) := by
    unfold receive_identity_message
    rw [hdes]
    dsimp only
    rw [if_neg (not_not.2 hvalid), hs]
  have hx2 : env.gcry_mpi_scan_our_dh
      (received_instance_tag m.sender_instance_tag otr).keys.our_dh = some x := hx
  rw [hin]
  unfold receive_identity_message_while_in_progress
  rw [hx2, hy]
  dsimp only
  constructor
  · intro hlt
    rw [if_pos hlt]
    rfl
  · intro hge hv t sigma reply ht hsig hrep
    rw [if_neg hge]
    unfold receive_identity_message_on_state_start
    rw [if_neg (not_not.2 hv)]
    dsimp only
    unfold reply_with_auth_r_msg
    dsimp only [forget_our_keys, received_instance_tag]
    unfold keys_after_restart at ht hsig hrep
    rw [ht]
    dsimp only
    rw [hsig]
    dsimp only
    unfold serialize_and_encode_auth_r
    rw [hrep]
    dsimp only
    rw [if_neg (by simp)]
    rfl

/-- C21, on an instance: our value 11 against the sender's value 12 (the message
is discarded), in the sample instance. -/
theorem C21_dake_tie_break_witness :
    receive_identity_message sample_collaborators none
        [0x00, 0x04, 0x35, 0x09, 0x00, 0x0b, 0x0c] 7
        { otrv4_new sample_collaborators sample_keypair OTRV4_ALLOW_V4 with
          state := OTRV4_STATE_WAITING_AUTH_R, running_version := OTRV4_VERSION_4,
          keys := sample_collaborators.key_manager_generate_ephemeral_keys
            key_manager_blank } =
      some ⟨OTR4_SUCCESS, none,
        { otrv4_new sample_collaborators sample_keypair OTRV4_ALLOW_V4 with
          state := OTRV4_STATE_WAITING_AUTH_R, running_version := OTRV4_VERSION_4,
          keys := sample_collaborators.key_manager_generate_ephemeral_keys
            key_manager_blank,
          their_instance_tag := 9 }⟩ :=
  (C21_dake_tie_break sample_collaborators none
    [0x00, 0x04, 0x35, 0x09, 0x00, 0x0b, 0x0c] 7
    { otrv4_new sample_collaborators sample_keypair OTRV4_ALLOW_V4 with
      state := OTRV4_STATE_WAITING_AUTH_R, running_version := OTRV4_VERSION_4,
      keys := sample_collaborators.key_manager_generate_ephemeral_keys
        key_manager_blank }
    ⟨9, 0, ⟨[5], []⟩, [12], 11⟩ 11 12 rfl rfl rfl rfl rfl).1 (by decide)

/-- C22: for every decoded message (a list of bytes) that is shorter than 3
bytes, or whose first two bytes read big-endian are not 0x0004, or that
arrives when the policy does not allow version 4, or whose third byte is
none of 0x35 (Identity), 0x36 (Auth-R), 0x37 (Auth-I), 0x03 (data),
`receive_decoded_message` returns `OTR4_ERROR` and leaves the response
(nothing to display, nothing to send) and the whole conversation as they
were. -/
theorem C22_decoded_message_rejected (env : collaborators) (response : otrv4_response_t)
    (decoded : List Nat) (otr : otrv4_t) (hbytes : ∀ b ∈ decoded, b < 256)
    (hbad : decoded.length < 3 ∨ big_endian_value 2 decoded ≠ 0x0004 ∨
      allow_version otr OTRV4_ALLOW_V4 = 0 ∨
      (decoded.getD 2 0 ≠ OTR_IDENTITY_MSG_TYPE ∧ decoded.getD 2 0 ≠ OTR_AUTH_R_MSG_TYPE ∧
        decoded.getD 2 0 ≠ OTR_AUTH_I_MSG_TYPE ∧ decoded.getD 2 0 ≠ OTR_DATA_MSG_TYPE)) :
    receive_decoded_message env response decoded decoded.length otr =
      some ⟨OTR4_ERROR, response, otr⟩ := by
  unfold receive_decoded_message
  rw [extract_header_eq decoded decoded.length hbytes]
  by_cases h3 : decoded.length < 3
  · rw [if_pos h3]
  rw [if_neg h3]
  dsimp only
  by_cases hv : big_endian_value 2 decoded = 0x04
  · rw [if_pos hv]
    by_cases ha : allow_version otr OTRV4_ALLOW_V4 = 0
    · rw [if_pos ha]
    rw [if_neg ha, if_neg (by simp)]
    rcases hbad with h | h | h | ⟨h1, h2, h3', h4⟩
    · exact absurd h h3
    · exact absurd hv h
    · exact absurd h ha
    · rw [if_neg h1, if_neg h2, if_neg h3', if_neg h4]
  · rw [if_neg hv]
    by_cases hv3 : big_endian_value 2 decoded = 0x03
    · rw [if_pos hv3]
      by_cases ha : allow_version otr OTRV4_ALLOW_V3 = 0
      · rw [if_pos ha]
      · rw [if_neg ha, if_pos (by decide)]
    · rw [if_neg hv3]
      rw [if_pos (by unfold allow_version OTRV4_ALLOW_NONE; exact Nat.and_zero _)]

/-- C22, on an instance: the bytes `00 03 35` (version 3) received by a new
conversation with policy {4}. -/
theorem C22_decoded_message_rejected_witness :
    receive_decoded_message sample_collaborators otrv4_response_new [0x00, 0x03, 0x35]
        [0x00, 0x03, 0x35].length
        (otrv4_new sample_collaborators sample_keypair OTRV4_ALLOW_V4) =
      some ⟨OTR4_ERROR, otrv4_response_new,
        otrv4_new sample_collaborators sample_keypair OTRV4_ALLOW_V4⟩ :=
  C22_decoded_message_rejected sample_collaborators otrv4_response_new [0x00, 0x03, 0x35]
    (otrv4_new sample_collaborators sample_keypair OTRV4_ALLOW_V4) (by decide)
    (Or.inr (Or.inl (by decide)))

/-- C23: for every non-empty message `m` without NUL and every chain `ts` of
well-formed TLV records (16-bit type and length, `len` bytes of data) that the
allocator can hold, `append_tlvs` yields `m`, the byte 0x00 and, for each
record in turn, its type, its length (two big-endian bytes each) and its data;
the length is `len(m) + 1 + sum (len_i + 4)`. When decryption gives these
bytes back, `decrypt_data_msg` sets the text to display to `m` and hands to
`otrv4_parse_tlvs` exactly the serialized records and their length. -/
theorem C23_append_tlvs_round_trip (env : collaborators) (response : otrv4_response_t)
    (enc_key : List Nat) (msg : data_message_t) (m : List Char) (ts : List tlv_t)
    (hm : m ≠ []) (hnul : ∀ c ∈ m, c.toNat ≠ 0)
    (hts : ∀ t ∈ ts, t.type < 65536 ∧ t.len < 65536 ∧ t.data.length = t.len)
    (hsize : m.length + 1 + (ts.map (fun t => t.len + 4)).sum ≤ PTRDIFF_MAX)
    (hlen : msg.enc_msg_len = m.length + 1 + (ts.map (fun t => t.len + 4)).sum)
    (hdec : env.crypto_stream_xor msg.enc_msg msg.enc_msg_len msg.nonce enc_key =
      (0, m.map Char.toNat ++ [0] ++ tlvs_blob ts)) :
    append_tlvs m ts =
        some (m.map Char.toNat ++ [0] ++ tlvs_blob ts,
          m.length + 1 + (ts.map (fun t => t.len + 4)).sum) ∧
      (m.map Char.toNat ++ [0] ++ tlvs_blob ts).length =
        m.length + 1 + (ts.map (fun t => t.len + 4)).sum ∧
      decrypt_data_msg env response enc_key msg =
        (OTR4_SUCCESS,
          { response with
            to_display := some m,
            tlvs := env.otrv4_parse_tlvs (tlvs_blob ts)
              (ts.map (fun t => t.len + 4)).sum }) := by
  have hblob : (tlvs_blob ts).length = (ts.map (fun t => t.len + 4)).sum :=
    tlvs_blob_length ts (fun t ht => (hts t ht).2.2)
  have hsum : ¬ PTRDIFF_MAX < (ts.map (fun t => t.len + 4)).sum :=
    Nat.not_lt.2 (Nat.le_trans (Nat.le_add_left _ _) hsize)
  have hplain : (m.map Char.toNat ++ [0] ++ tlvs_blob ts).length =
      m.length + 1 + (ts.map (fun t => t.len + 4)).sum := by
    rw [List.length_append, List.length_append, List.length_map, hblob]
    rfl
  have hnz : ∀ x ∈ m.map Char.toNat, x ≠ 0 := by
    intro x hx
    obtain ⟨c, hc, rfl⟩ := List.mem_map.1 hx
    exact hnul c hc
  have hback : (m.map Char.toNat).map Char.ofNat = m := by
    rw [List.map_map]
    conv_rhs => rw [← List.map_id m]
    apply List.map_congr_left
    intro c _
    exact Char.ofNat_toNat c
  refine ⟨?_, hplain, ?_⟩
  · unfold append_tlvs
    rw [serlialize_tlvs_eq ts hts hsum]
    dsimp only
    by_cases h0 : ts = []
    · rw [if_pos h0, if_neg (by rw [h0] at hsize; exact Nat.not_lt.2 hsize)]
      rw [h0]
      rfl
    · rw [if_neg h0, if_neg (Nat.not_lt.2 hsize)]
  · have htake : List.take msg.enc_msg_len (m.map Char.toNat ++ [0] ++ tlvs_blob ts) =
        m.map Char.toNat ++ [0] ++ tlvs_blob ts := by
      rw [hlen, ← hplain, List.take_length]
    have hstr : List.takeWhile (fun b => b ≠ 0)
        (m.map Char.toNat ++ [0] ++ tlvs_blob ts) = m.map Char.toNat := by
      rw [List.append_assoc]
      exact takeWhile_ne_zero _ _ hnz
    have hmlen : (m.map Char.toNat).length ≠ 0 := by
      rw [List.length_map]
      exact fun h => hm (List.length_eq_zero.1 h)
    have hne : ¬ (m.map Char.toNat).length =
        (m.map Char.toNat ++ [0] ++ tlvs_blob ts).length := by
      rw [hplain, List.length_map]
      omega
    have hdrop : List.drop ((m.map Char.toNat).length + 1)
        (m.map Char.toNat ++ [0] ++ tlvs_blob ts) = tlvs_blob ts :=
      List.drop_left' (by rw [List.length_append]; rfl)
    have hsub : msg.enc_msg_len - ((m.map Char.toNat).length + 1) =
        (ts.map (fun t => t.len + 4)).sum := by
      rw [hlen, List.length_map]
      omega
    have hle : ¬ PTRDIFF_MAX < msg.enc_msg_len := by
      rw [hlen]; exact Nat.not_lt.2 hsize
    have hmle : m.length ≤ msg.enc_msg_len := by
      rw [hlen]; omega
    unfold decrypt_data_msg extract_tlvs otrv4_strndup
    rw [if_neg hle]
    dsimp only
    rw [hdec]
    dsimp only
    rw [htake, hstr, if_pos hmlen, if_neg hne, hdrop, hsub, hback,
      List.take_of_length_le hmle]
    rfl

/-- C23, on an instance: the message `hi` with one DISCONNECTED record, in the
sample instance (whose cipher is the identity). -/
theorem C23_append_tlvs_round_trip_witness :
    append_tlvs "hi".toList [⟨1, 0, []⟩] =
      some ("hi".toList.map Char.toNat ++ [0] ++ tlvs_blob [⟨1, 0, []⟩],
        "hi".toList.length + 1 + ([(⟨1, 0, []⟩ : tlv_t)].map (fun t => t.len + 4)).sum) :=
  (C23_append_tlvs_round_trip sample_collaborators otrv4_response_new [1]
    ⟨0, 0, 0, 0, [], 0, [0], [104, 105, 0, 0, 1, 0, 0], 7, []⟩ "hi".toList [⟨1, 0, []⟩]
    (by decide) (by decide) (by decide) (by decide) rfl rfl).1

/-- C24: a data message received in state ENCRYPTED that deserializes and whose
authenticator does not validate under the derived MAC key makes
`otrv4_receive_data_message` return `OTR4_ERROR`; the response is unchanged
(no text to display, no reply, no TLV) and so is the conversation outside the
key manager (state, SMP state, callbacks made). `old_mac_keys` is unchanged
too, provided the three functions of `key_management.c` called before the
check (`key_manager_set_their_keys`, `key_manager_ensure_on_ratchet`,
`key_manager_retrieve_receiving_message_keys`) do not touch that list. -/
theorem C24_mac_failure_rejected (env : collaborators) (response : otrv4_response_t)
    (buff : List Nat) (buflen : Nat) (otr : otrv4_t) (msg : data_message_t)
    (hstate : otr.state = OTRV4_STATE_ENCRYPTED_MESSAGES)
    (hdes : env.data_message_deserialize env.data_message_new buff buflen = some msg)
    (hmac : env.valid_data_message
      (get_receiving_msg_keys env msg
        { otr with keys := env.key_manager_set_their_keys msg.ecdh msg.dh otr.keys }).2.2.1
      msg = false)
    (hframe1 : ∀ ecdh dh keys,
      (env.key_manager_set_their_keys ecdh dh keys).old_mac_keys = keys.old_mac_keys)
    (hframe2 : ∀ ratchet_id keys,
      (env.key_manager_ensure_on_ratchet ratchet_id keys).2.old_mac_keys =
        keys.old_mac_keys)
    (hframe3 : ∀ ratchet_id message_id keys,
      (env.key_manager_retrieve_receiving_message_keys ratchet_id message_id
        keys).2.2.2.old_mac_keys = keys.old_mac_keys) :
    ∃ keys, otrv4_receive_data_message env response buff buflen otr =
        ⟨OTR4_ERROR, response, { otr with keys := keys }⟩ ∧
      keys.old_mac_keys = otr.keys.old_mac_keys := by
  have hkeys : ∀ o : otrv4_t, ∃ keys,
      (get_receiving_msg_keys env msg o).2.2.2 = { o with keys := keys } ∧
      keys.old_mac_keys = o.keys.old_mac_keys := by
    intro o
    unfold get_receiving_msg_keys
    dsimp only
    by_cases he : (env.key_manager_ensure_on_ratchet msg.ratchet_id o.keys).1 = true
    · rw [if_neg (not_not.2 he)]
      split_ifs
      · exact ⟨_, rfl, (hframe3 _ _ _).trans (hframe2 _ _)⟩
      · exact ⟨_, rfl, (hframe3 _ _ _).trans (hframe2 _ _)⟩
    · rw [if_pos he]
      exact ⟨_, rfl, hframe2 _ _⟩
  obtain ⟨keys, hk, hold⟩ := hkeys
    { otr with keys := env.key_manager_set_their_keys msg.ecdh msg.dh otr.keys }
  dsimp only at hk
  refine ⟨keys, ?_, hold.trans (hframe1 _ _ _)⟩
  unfold otrv4_receive_data_message
  rw [if_neg (not_not.2 hstate), hdes]
  dsimp only
  by_cases hg : (get_receiving_msg_keys env msg
      { otr with keys := env.key_manager_set_their_keys msg.ecdh msg.dh otr.keys }).1 ≠
      OTR4_SUCCESS
  · rw [if_pos hg, hk]
  · rw [if_neg hg, hmac, if_pos (by simp), hk]

/-- C24, on an instance: a data message refused by a validity check that accepts
nothing, the other collaborators being those of the sample instance. -/
theorem C24_mac_failure_rejected_witness :
    ∃ keys, otrv4_receive_data_message
        { sample_collaborators with valid_data_message := fun _ _ => false }
        otrv4_response_new [0x00, 0x04, 0x03, 0x41] 4
        { otrv4_new sample_collaborators sample_keypair OTRV4_ALLOW_V4 with
          state := OTRV4_STATE_ENCRYPTED_MESSAGES,
          running_version := OTRV4_VERSION_4 } =
        ⟨OTR4_ERROR, otrv4_response_new,
          { otrv4_new sample_collaborators sample_keypair OTRV4_ALLOW_V4 with
            state := OTRV4_STATE_ENCRYPTED_MESSAGES,
            running_version := OTRV4_VERSION_4,
            keys := keys }⟩ ∧
      keys.old_mac_keys = [] :=
  C24_mac_failure_rejected
    { sample_collaborators with valid_data_message := fun _ _ => false }
    otrv4_response_new [0x00, 0x04, 0x03, 0x41] 4
    { otrv4_new sample_collaborators sample_keypair OTRV4_ALLOW_V4 with
      state := OTRV4_STATE_ENCRYPTED_MESSAGES, running_version := OTRV4_VERSION_4 }
    ⟨0, 0, 0, 0, [], 0, [], [0x41], 1, []⟩ rfl rfl rfl
    (fun _ _ _ => rfl) (fun _ _ => rfl) (fun _ _ _ => rfl)

/-- C25: after every call of `send_data_message`, successful or not,
`old_mac_keys` is empty. When the call succeeds, the encoded message is made
of three parts: the body that `data_message_body_asprintf` gives for the data
message generated and encrypted by the call, the 64 bytes of the authenticator
of that body under the sending MAC key, and the serialization of the keys the
list held before the call; so what the message reveals, the bytes after the
body and the authenticator, is exactly that serialization, 64 bytes per key.
Assumed of files absent from the sources: the serialization of a list is 64
bytes per key, `sha3_512_mac` gives the 64 bytes it is asked for, and
`key_manager_prepare_next_chain_key` and
`key_manager_retrieve_sending_message_keys` do not touch the list. -/
theorem C25_old_mac_keys_drained (env : collaborators) (to_send : Option (List Char))
    (message : List Nat) (message_len : Nat) (otr : otrv4_t)
    (hser : (env.key_manager_old_mac_keys_serialize otr.keys.old_mac_keys).length =
      otr.keys.old_mac_keys.length * 64)
    (hmaclen : ∀ key body mac, env.sha3_512_mac key body = some mac → mac.length = 64)
    (hframe1 : ∀ keys,
      (env.key_manager_prepare_next_chain_key keys).2.old_mac_keys = keys.old_mac_keys)
    (hframe2 : ∀ keys,
      (env.key_manager_retrieve_sending_message_keys keys).2.2.2.old_mac_keys =
        keys.old_mac_keys) :
    (send_data_message env to_send message message_len otr).otr.keys.old_mac_keys = [] ∧
    ((send_data_message env to_send message message_len otr).err = OTR4_SUCCESS →
      ∃ (data_msg : data_message_t) (body mac : List Nat),
        generate_data_msg env
          { otr with keys := (sending_message_keys env otr.keys).2.2.2 } = some data_msg ∧
        env.data_message_body_asprintf
          (encrypt_data_message env data_msg message message_len
            (sending_message_keys env otr.keys).2.1).2 = some body ∧
        env.sha3_512_mac (sending_message_keys env otr.keys).2.2.1 body = some mac ∧
        mac.length = 64 ∧
        (send_data_message env to_send message message_len otr).dst =
          some (env.otrl_base64_otr_encode
            (body ++ mac ++
              env.key_manager_old_mac_keys_serialize otr.keys.old_mac_keys)) ∧
        (body ++ mac ++
            env.key_manager_old_mac_keys_serialize otr.keys.old_mac_keys).drop
          (body.length + 64) =
          env.key_manager_old_mac_keys_serialize otr.keys.old_mac_keys) := by
  have hreveal : serialize_bytes_array
      (env.key_manager_old_mac_keys_serialize otr.keys.old_mac_keys)
      (otr.keys.old_mac_keys.length * MAC_KEY_BYTES) =
      env.key_manager_old_mac_keys_serialize otr.keys.old_mac_keys := by
    unfold serialize_bytes_array MAC_KEY_BYTES
    exact List.take_of_length_le (Nat.le_of_eq hser)
  have h1 : (env.key_manager_prepare_next_chain_key
      { otr.keys with old_mac_keys := [] }).2.old_mac_keys = [] := hframe1 _
  have h2 : (env.key_manager_retrieve_sending_message_keys
      (env.key_manager_prepare_next_chain_key
        { otr.keys with old_mac_keys := [] }).2).2.2.2.old_mac_keys = [] :=
    (hframe2 _).trans h1
  unfold sending_message_keys send_data_message
  dsimp only
  by_cases hp : (env.key_manager_prepare_next_chain_key
      { otr.keys with old_mac_keys := [] }).1 = true
  · rw [if_pos hp]
    exact ⟨h1, fun h => by cases h⟩
  rw [if_neg hp]
  by_cases hr : (env.key_manager_retrieve_sending_message_keys
      (env.key_manager_prepare_next_chain_key
        { otr.keys with old_mac_keys := [] }).2).1 = true
  · rw [if_pos hr]
    exact ⟨h2, fun h => by cases h⟩
  rw [if_neg hr]
  cases hgen : generate_data_msg env
      { otr with
        keys := (env.key_manager_retrieve_sending_message_keys
          (env.key_manager_prepare_next_chain_key
            { otr.keys with old_mac_keys := [] }).2).2.2.2 } with
  | none => exact ⟨h2, fun h => by cases h⟩
  | some data_msg =>
    dsimp only
    split_ifs with he hs
    · refine ⟨h2, fun _ => ?_⟩
      obtain ⟨body, mac, hb, hm, hdst⟩ :=
        serialize_and_encode_data_msg_success env to_send _ _ _ _ hs
      have hl := hmaclen _ _ _ hm
      have htake : mac.take MAC_KEY_BYTES = mac :=
        List.take_of_length_le (Nat.le_of_eq hl)
      rw [htake, hreveal] at hdst
      refine ⟨data_msg, body, mac, rfl, hb, hm, hl, hdst, ?_⟩
      rw [List.append_assoc, List.drop_append_eq_append_drop, List.drop_of_length_le
        (Nat.le_add_right _ _), List.nil_append, Nat.add_sub_cancel_left,
        List.drop_append_eq_append_drop, List.drop_of_length_le (Nat.le_of_eq hl), hl,
        Nat.sub_self, List.nil_append, List.drop_zero]
    · exact ⟨h2, fun h => by cases h⟩
    · exact ⟨h2, fun h => by cases h⟩

/-- C25, on an instance: a conversation of the sample instance holding two old
MAC keys of 64 bytes sends the plaintext `hi`, NUL. It holds no old key
afterwards, and the message is a body, a 64-byte authenticator and the 128
bytes of the two keys. -/
theorem C25_old_mac_keys_drained_witness :
    (send_data_message sample_collaborators none [104, 105, 0] 3
      { otrv4_new sample_collaborators sample_keypair OTRV4_ALLOW_V4 with
        state := OTRV4_STATE_ENCRYPTED_MESSAGES,
        running_version := OTRV4_VERSION_4,
        keys := { key_manager_blank with
          old_mac_keys := [List.replicate 64 7, List.replicate 64 8] } }).otr.keys.old_mac_keys = [] ∧
    ∃ (data_msg : data_message_t) (body mac : List Nat),
      generate_data_msg sample_collaborators
        { ({ otrv4_new sample_collaborators sample_keypair OTRV4_ALLOW_V4 with
        state := OTRV4_STATE_ENCRYPTED_MESSAGES,
        running_version := OTRV4_VERSION_4,
        keys := { key_manager_blank with
          old_mac_keys := [List.replicate 64 7, List.replicate 64 8] } } : otrv4_t) with
          keys := (sending_message_keys sample_collaborators
            ({ otrv4_new sample_collaborators sample_keypair OTRV4_ALLOW_V4 with
        state := OTRV4_STATE_ENCRYPTED_MESSAGES,
        running_version := OTRV4_VERSION_4,
        keys := { key_manager_blank with
          old_mac_keys := [List.replicate 64 7, List.replicate 64 8] } } : otrv4_t).keys).2.2.2 } = some data_msg ∧
      sample_collaborators.data_message_body_asprintf
        (encrypt_data_message sample_collaborators data_msg [104, 105, 0] 3
          (sending_message_keys sample_collaborators
            ({ otrv4_new sample_collaborators sample_keypair OTRV4_ALLOW_V4 with
        state := OTRV4_STATE_ENCRYPTED_MESSAGES,
        running_version := OTRV4_VERSION_4,
        keys := { key_manager_blank with
          old_mac_keys := [List.replicate 64 7, List.replicate 64 8] } } : otrv4_t).keys).2.1).2 = some body ∧
      sample_collaborators.sha3_512_mac
        (sending_message_keys sample_collaborators
          ({ otrv4_new sample_collaborators sample_keypair OTRV4_ALLOW_V4 with
        state := OTRV4_STATE_ENCRYPTED_MESSAGES,
        running_version := OTRV4_VERSION_4,
        keys := { key_manager_blank with
          old_mac_keys := [List.replicate 64 7, List.replicate 64 8] } } : otrv4_t).keys).2.2.1 body = some mac ∧
      mac.length = 64 ∧
      (send_data_message sample_collaborators none [104, 105, 0] 3
        { otrv4_new sample_collaborators sample_keypair OTRV4_ALLOW_V4 with
        state := OTRV4_STATE_ENCRYPTED_MESSAGES,
        running_version := OTRV4_VERSION_4,
        keys := { key_manager_blank with
          old_mac_keys := [List.replicate 64 7, List.replicate 64 8] } }).dst =
        some (sample_collaborators.otrl_base64_otr_encode
          (body ++ mac ++
            sample_collaborators.key_manager_old_mac_keys_serialize
              ({ otrv4_new sample_collaborators sample_keypair OTRV4_ALLOW_V4 with
        state := OTRV4_STATE_ENCRYPTED_MESSAGES,
        running_version := OTRV4_VERSION_4,
        keys := { key_manager_blank with
          old_mac_keys := [List.replicate 64 7, List.replicate 64 8] } } : otrv4_t).keys.old_mac_keys)) ∧
      (body ++ mac ++
          sample_collaborators.key_manager_old_mac_keys_serialize
            ({ otrv4_new sample_collaborators sample_keypair OTRV4_ALLOW_V4 with
        state := OTRV4_STATE_ENCRYPTED_MESSAGES,
        running_version := OTRV4_VERSION_4,
        keys := { key_manager_blank with
          old_mac_keys := [List.replicate 64 7, List.replicate 64 8] } } : otrv4_t).keys.old_mac_keys).drop (body.length + 64) =
        sample_collaborators.key_manager_old_mac_keys_serialize
          ({ otrv4_new sample_collaborators sample_keypair OTRV4_ALLOW_V4 with
        state := OTRV4_STATE_ENCRYPTED_MESSAGES,
        running_version := OTRV4_VERSION_4,
        keys := { key_manager_blank with
          old_mac_keys := [List.replicate 64 7, List.replicate 64 8] } } : otrv4_t).keys.old_mac_keys :=
  ⟨(C25_old_mac_keys_drained sample_collaborators none [104, 105, 0] 3
      { otrv4_new sample_collaborators sample_keypair OTRV4_ALLOW_V4 with
        state := OTRV4_STATE_ENCRYPTED_MESSAGES,
        running_version := OTRV4_VERSION_4,
        keys := { key_manager_blank with
          old_mac_keys := [List.replicate 64 7, List.replicate 64 8] } }
      (by simp [sample_collaborators]) (fun _ _ _ h => by cases h; rfl) (fun _ => rfl)
      (fun _ => rfl)).1,
    (C25_old_mac_keys_drained sample_collaborators none [104, 105, 0] 3
      { otrv4_new sample_collaborators sample_keypair OTRV4_ALLOW_V4 with
        state := OTRV4_STATE_ENCRYPTED_MESSAGES,
        running_version := OTRV4_VERSION_4,
        keys := { key_manager_blank with
          old_mac_keys := [List.replicate 64 7, List.replicate 64 8] } }
      (by simp [sample_collaborators]) (fun _ _ _ h => by cases h; rfl) (fun _ => rfl)
      (fun _ => rfl)).2 rfl⟩

/-- C26 (the code diverges): `otrv4_new` sets `our_instance_tag` to 0 and
nothing in `otrv4.c` assigns it again, so the messages a new conversation
builds carry the sender instance tag 0: the data message made by
`generate_data_msg` for a new conversation has `sender_instance_tag = 0`, and
in the sample instance, whose Identity message is serialized as
`00 04 35 | sender tag | receiver tag | B | Y`, the reply of a new conversation
to `?OTRv4?` is the encoding of `00 04 35 00 00 0b 07`, with the sender tag
byte 0. -/
theorem C26_sender_instance_tag_zero (env : collaborators) (keypair : otrv4_keypair_t)
    (policy_allows : Nat) :
    (otrv4_new env keypair policy_allows).our_instance_tag = 0 ∧
    (generate_data_msg env (otrv4_new env keypair policy_allows)).map
        (fun data_msg => data_msg.sender_instance_tag) =
      env.data_message_new.map (fun _ => 0) ∧
    (otrv4_receive_message sample_collaborators otrv4_response_new "?OTRv4?".toList
        (otrv4_new sample_collaborators sample_keypair OTRV4_ALLOW_V4)).map
        (fun r => r.response.to_send) =
      some (some (sample_collaborators.otrl_base64_otr_encode
        [0x00, 0x04, 0x35, 0, 0, 11, 7])) := by
  refine ⟨rfl, ?_, by decide⟩
  unfold generate_data_msg
  cases env.data_message_new <;> rfl

/-- C27: for a buffer of bytes and each width `w` in {1, 2, 4, 8}, the decoder
`otrng_deserialize_uint8/16/32/64` returns an error (nothing is written)
exactly when `buff_len < w`, and otherwise succeeds with the big-endian
reading of the first `w` bytes, the sum of `buffer[i] * 256 ^ (w - 1 - i)`,
and `nread = w`; two buffers that agree on their first `w` bytes give the
same result. -/
theorem C27_deserialize_uint (buffer : List Nat) (buff_len : Nat)
    (hbytes : ∀ b ∈ buffer, b < 256) :
    (otrng_deserialize_uint8 buffer buff_len =
      if buff_len < 1 then none else some (big_endian_value 1 buffer, 1)) ∧
    (otrng_deserialize_uint16 buffer buff_len =
      if buff_len < 2 then none else some (big_endian_value 2 buffer, 2)) ∧
    (otrng_deserialize_uint32 buffer buff_len =
      if buff_len < 4 then none else some (big_endian_value 4 buffer, 4)) ∧
    (otrng_deserialize_uint64 buffer buff_len =
      if buff_len < 8 then none else some (big_endian_value 8 buffer, 8)) ∧
    (∀ other : List Nat,
      (other.take 1 = buffer.take 1 →
        otrng_deserialize_uint8 other buff_len = otrng_deserialize_uint8 buffer buff_len) ∧
      (other.take 2 = buffer.take 2 →
        otrng_deserialize_uint16 other buff_len =
          otrng_deserialize_uint16 buffer buff_len) ∧
      (other.take 4 = buffer.take 4 →
        otrng_deserialize_uint32 other buff_len =
          otrng_deserialize_uint32 buffer buff_len) ∧
      (other.take 8 = buffer.take 8 →
        otrng_deserialize_uint64 other buff_len =
          otrng_deserialize_uint64 buffer buff_len)) := by
  refine ⟨otrng_deserialize_uint8_eq buffer buff_len,
    otrng_deserialize_uint16_eq buffer buff_len hbytes,
    otrng_deserialize_uint32_eq buffer buff_len hbytes,
    otrng_deserialize_uint64_eq buffer buff_len hbytes, ?_⟩
  intro other
  have key : ∀ w i : Nat, i < w → other.take w = buffer.take w →
      other.getD i 0 = buffer.getD i 0 := by
    intro w i hi h
    rw [← getD_take_of_lt other i w hi, h, getD_take_of_lt buffer i w hi]
  refine ⟨?_, ?_, ?_, ?_⟩
  · intro h
    unfold otrng_deserialize_uint8
    rw [key 1 0 (by decide) h]
  · intro h
    unfold otrng_deserialize_uint16
    rw [key 2 0 (by decide) h, key 2 1 (by decide) h]
  · intro h
    unfold otrng_deserialize_uint32
    rw [key 4 0 (by decide) h, key 4 1 (by decide) h, key 4 2 (by decide) h,
      key 4 3 (by decide) h]
  · intro h
    unfold otrng_deserialize_uint64
    rw [key 8 0 (by decide) h, key 8 1 (by decide) h, key 8 2 (by decide) h,
      key 8 3 (by decide) h, key 8 4 (by decide) h, key 8 5 (by decide) h,
      key 8 6 (by decide) h, key 8 7 (by decide) h]

/-- C27, on an instance: the bytes `12 34 56 78 9a` read as a 32-bit value. -/
theorem C27_deserialize_uint_witness :
    otrng_deserialize_uint32 [0x12, 0x34, 0x56, 0x78, 0x9a] 5 =
      if 5 < 4 then none
      else some (big_endian_value 4 [0x12, 0x34, 0x56, 0x78, 0x9a], 4) :=
  (C27_deserialize_uint [0x12, 0x34, 0x56, 0x78, 0x9a] 5 (by decide)).2.2.1

/-- C28: for a buffer of `buff_len` bytes whose first four bytes read big-endian
give `s`, `otrng_deserialize_data` succeeds exactly when `buff_len ≥ 4` and
`buff_len - 4 ≥ s`; on success with `s > 0` the output is the `s` bytes that
follow the prefix, the reported length is `s` and `read = 4 + s ≤ buff_len`.
The `size_t` subtraction and addition of the code, taken modulo 2^64 in the
embedding, give these exact values: nothing wraps. -/
theorem C28_deserialize_data (dst : Option (List Nat)) (dst_len : Nat)
    (buffer : List Nat) (buff_len : Nat) (hbytes : ∀ b ∈ buffer, b < 256)
    (hlen : buff_len ≤ buffer.length) (hsize : buff_len < 2 ^ 64) :
    ((otrng_deserialize_data dst dst_len buffer buff_len).result =
        otrng_result.OTRNG_SUCCESS ↔
      4 ≤ buff_len ∧ big_endian_value 4 buffer ≤ buff_len - 4) ∧
    ((otrng_deserialize_data dst dst_len buffer buff_len).result =
        otrng_result.OTRNG_SUCCESS →
      0 < big_endian_value 4 buffer →
      (otrng_deserialize_data dst dst_len buffer buff_len).dst =
          some ((buffer.drop 4).take (big_endian_value 4 buffer)) ∧
        ((buffer.drop 4).take (big_endian_value 4 buffer)).length =
          big_endian_value 4 buffer ∧
        (otrng_deserialize_data dst dst_len buffer buff_len).dst_len =
          big_endian_value 4 buffer ∧
        (otrng_deserialize_data dst dst_len buffer buff_len).read =
          4 + big_endian_value 4 buffer ∧
        4 + big_endian_value 4 buffer ≤ buff_len) := by
  rw [otrng_deserialize_data_eq dst dst_len buffer buff_len hbytes hsize]
  by_cases h4 : buff_len < 4
  · rw [if_pos h4]
    constructor
    · constructor
      · intro h; exact otrng_result.noConfusion h
      · intro h; omega
    · intro h; exact otrng_result.noConfusion h
  rw [if_neg h4]
  by_cases h0 : big_endian_value 4 buffer = 0
  · rw [if_pos h0]
    constructor
    · constructor
      · intro _; omega
      · intro _; rfl
    · intro _ hs; omega
  rw [if_neg h0]
  by_cases hs : buff_len - 4 < big_endian_value 4 buffer
  · rw [if_pos hs]
    constructor
    · constructor
      · intro h; exact otrng_result.noConfusion h
      · intro h; omega
    · intro h; exact otrng_result.noConfusion h
  rw [if_neg hs]
  constructor
  · constructor
    · intro _; omega
    · intro _; rfl
  · intro _ _
    refine ⟨rfl, ?_, rfl, rfl, by omega⟩
    rw [List.length_take, List.length_drop]
    omega

/-- C28, on an instance: the prefix `00 00 00 02` followed by `aa bb cc`. -/
theorem C28_deserialize_data_witness :
    (otrng_deserialize_data none 0 [0, 0, 0, 2, 0xaa, 0xbb, 0xcc] 7).result =
        otrng_result.OTRNG_SUCCESS ↔
      4 ≤ 7 ∧ big_endian_value 4 [0, 0, 0, 2, 0xaa, 0xbb, 0xcc] ≤ 7 - 4 :=
  (C28_deserialize_data none 0 [0, 0, 0, 2, 0xaa, 0xbb, 0xcc] 7 (by decide) (by decide)
    (by decide)).1

/-- C29: on a buffer of `ser_len` bytes, `otrng_deserialize_public_key` accepts
only a 2-byte big-endian tag 0x0010, `otrng_deserialize_forging_key` only
0x0011 and `otrng_deserialize_shared_prekey` only 0x0012: each returns an error
when `ser_len < 59`, when the tag differs from its own, and when the 57 bytes
after the tag are refused as a point; on success each reports `read = 59`.
Hence no input is accepted by two of the three decoders. -/
theorem C29_key_record_decoders (otrng_ec_point_decode : List Nat → Option (List Nat))
    (ser : List Nat) (ser_len : Nat) (hbytes : ∀ b ∈ ser, b < 256)
    (hsize : ser_len < 2 ^ 64) :
    (otrng_deserialize_public_key otrng_ec_point_decode ser ser_len =
      if ser_len < 59 then none
      else if 0x0010 ≠ big_endian_value 2 ser then none
      else (otrng_ec_point_decode ((ser.drop 2).take 57)).map (fun pub => (pub, 59))) ∧
    (otrng_deserialize_forging_key otrng_ec_point_decode ser ser_len =
      if ser_len < 59 then none
      else if 0x0011 ≠ big_endian_value 2 ser then none
      else (otrng_ec_point_decode ((ser.drop 2).take 57)).map (fun pub => (pub, 59))) ∧
    (otrng_deserialize_shared_prekey otrng_ec_point_decode ser ser_len =
      if ser_len < 59 then none
      else if 0x0012 ≠ big_endian_value 2 ser then none
      else (otrng_ec_point_decode ((ser.drop 2).take 57)).map (fun pub => (pub, 59))) ∧
    ¬ ((otrng_deserialize_public_key otrng_ec_point_decode ser ser_len).isSome = true ∧
      (otrng_deserialize_forging_key otrng_ec_point_decode ser ser_len).isSome = true) ∧
    ¬ ((otrng_deserialize_public_key otrng_ec_point_decode ser ser_len).isSome = true ∧
      (otrng_deserialize_shared_prekey otrng_ec_point_decode ser ser_len).isSome = true) ∧
    ¬ ((otrng_deserialize_forging_key otrng_ec_point_decode ser ser_len).isSome = true ∧
      (otrng_deserialize_shared_prekey otrng_ec_point_decode ser ser_len).isSome = true) := by
  obtain ⟨h1, h2, h3⟩ := key_record_eq otrng_ec_point_decode ser ser_len hbytes hsize
  rw [h1, h2, h3]
  unfold deserialize_key_record
  refine ⟨rfl, rfl, rfl, ?_, ?_, ?_⟩ <;>
  · rintro ⟨ha, hb⟩
    split_ifs at ha hb <;> first | exact Bool.noConfusion ha | exact Bool.noConfusion hb | omega

/-- C29, on an instance: a record with tag `00 11` and 57 zero bytes, with a
point decoder that accepts every input, is refused as a public key. -/
theorem C29_key_record_decoders_witness :
    otrng_deserialize_public_key (fun point => some point)
        ([0x00, 0x11] ++ List.replicate 57 0) 59 =
      if 59 < 59 then none
      else if 0x0010 ≠ big_endian_value 2 ([0x00, 0x11] ++ List.replicate 57 0) then none
      else ((fun point => some point)
        ((([0x00, 0x11] ++ List.replicate 57 0).drop 2).take 57)).map
          (fun pub => (pub, 59)) :=
  (C29_key_record_decoders (fun point => some point) ([0x00, 0x11] ++ List.replicate 57 0)
    59 (by decide) (by decide)).1

/-- C30: for a client whose `server_identity` is configured,
`otrng_prekey_client_receive` returns `OTRNG_ERROR` exactly when the given
server differs from it, or the message is empty or does not end with `.`; then
`*to_send` is not written and the client is unchanged, no callback having been
made. In every other case it returns `OTRNG_SUCCESS`, with in `*to_send` and
in the client whatever `receive_decoded` leaves for the decoded bytes, also
when that processing reports an error to the host. -/
theorem C30_prekey_client_receive (env : prekey_collaborators)
    (to_send : Option (List Char)) (server msg : List Char) (client : otrng_client_s)
    (server_identity : List Char)
    (hid : client.prekey_client.server_identity = some server_identity) :
    ∃ r, otrng_prekey_client_receive env to_send server msg client = some r ∧
      (r.result = otrng_result.OTRNG_ERROR ↔
        (server_identity ≠ server ∨ msg = [] ∨ msg.getLast? ≠ some '.')) ∧
      (r.result = otrng_result.OTRNG_ERROR → r.to_send = to_send ∧ r.client = client) ∧
      (r.result ≠ otrng_result.OTRNG_ERROR →
        r.result = otrng_result.OTRNG_SUCCESS ∧
        (r.to_send, r.client) =
          receive_decoded env (env.otrl_base64_decode (msg.take (msg.length - 1)))
            (env.otrl_base64_decode (msg.take (msg.length - 1))).length client) := by
  unfold otrng_prekey_client_receive
  rw [hid]
  dsimp only
  by_cases hs : server_identity ≠ server
  · rw [if_pos hs]
    exact ⟨_, rfl, ⟨fun _ => Or.inl hs, fun _ => rfl⟩, fun _ => ⟨rfl, rfl⟩,
      fun h => absurd rfl h⟩
  rw [if_neg hs]
  cases hd : prekey_decode env msg with
  | none =>
    have hbad := (prekey_decode_eq_none_iff env msg).1 hd
    exact ⟨_, rfl, ⟨fun _ => Or.inr hbad, fun _ => rfl⟩, fun _ => ⟨rfl, rfl⟩,
      fun h => absurd rfl h⟩
  | some ser =>
    have hgood : ¬ (msg = [] ∨ msg.getLast? ≠ some '.') := by
      intro h
      rw [(prekey_decode_eq_none_iff env msg).2 h] at hd
      cases hd
    have hser : ser = env.otrl_base64_decode (msg.take (msg.length - 1)) := by
      unfold prekey_decode at hd
      dsimp only at hd
      split_ifs at hd
      exact (Option.some.inj hd).symm
    dsimp only
    refine ⟨_, rfl, ⟨(fun h => by cases h), ?_⟩, (fun h => by cases h), fun _ => ⟨rfl, ?_⟩⟩
    · rintro (h | h)
      · exact absurd h hs
      · exact absurd h hgood
    · rw [hser]

/-- C30, on an instance: the sample client receives from its server the message
`xx.`, which decodes to bytes without a valid header: the call returns
`OTRNG_SUCCESS`. -/
theorem C30_prekey_client_receive_witness :
    ∃ r, otrng_prekey_client_receive sample_prekey_collaborators none
        "prekeys.example.org".toList "xx.".toList sample_prekey_client = some r ∧
      (r.result = otrng_result.OTRNG_ERROR ↔
        ("prekeys.example.org".toList ≠ "prekeys.example.org".toList ∨
          "xx.".toList = [] ∨ "xx.".toList.getLast? ≠ some '.')) ∧
      (r.result = otrng_result.OTRNG_ERROR →
        r.to_send = none ∧ r.client = sample_prekey_client) ∧
      (r.result ≠ otrng_result.OTRNG_ERROR →
        r.result = otrng_result.OTRNG_SUCCESS ∧
        (r.to_send, r.client) =
          receive_decoded sample_prekey_collaborators
            (sample_prekey_collaborators.otrl_base64_decode
              ("xx.".toList.take ("xx.".toList.length - 1)))
            (sample_prekey_collaborators.otrl_base64_decode
              ("xx.".toList.take ("xx.".toList.length - 1))).length
            sample_prekey_client) :=
  C30_prekey_client_receive sample_prekey_collaborators none "prekeys.example.org".toList
    "xx.".toList sample_prekey_client "prekeys.example.org".toList rfl

/-- C31: instance-tag gating in the prekey client. For each kind of server
message (DAKE2, storage status, success, failure, no prekey in storage, prekey
ensemble retrieval) that parses and declares an instance tag other than the
client's own, `receive_decoded` returns no reply and the client as it was: no
call is recorded (neither a result callback nor `notify_error`) and
`prekey_msgs_num_to_publish` keeps its value. -/
theorem C31_instance_tag_gating (env : prekey_collaborators) (decoded : List Nat)
    (decoded_len : Nat) (client : otrng_client_s) :
    (∀ msg, otrng_prekey_dake2_message_deserialize env decoded decoded_len = some msg →
      msg.client_instance_tag ≠ client.prekey_client.instance_tag →
      receive_decoded env decoded decoded_len client = (none, client)) ∧
    (∀ msg, otrng_prekey_storage_status_message_deserialize decoded decoded_len = some msg →
      msg.client_instance_tag ≠ client.prekey_client.instance_tag →
      receive_decoded env decoded decoded_len client = (none, client)) ∧
    (∀ w instance_tag read,
      parse_header decoded decoded_len = some (OTRNG_PREKEY_SUCCESS_MSG, w) →
      OTRNG_PREKEY_SUCCESS_MSG_LEN ≤ decoded_len →
      otrng_deserialize_uint32 (decoded.drop 3) (to_size_t ((decoded_len : Int) - 3)) =
        some (instance_tag, read) →
      instance_tag ≠ client.prekey_client.instance_tag →
      receive_decoded env decoded decoded_len client = (none, client)) ∧
    (∀ w instance_tag read,
      parse_header decoded decoded_len = some (OTRNG_PREKEY_FAILURE_MSG, w) →
      OTRNG_PREKEY_FAILURE_MSG_LEN ≤ decoded_len →
      otrng_deserialize_uint32 (decoded.drop 3) (to_size_t ((decoded_len : Int) - 3)) =
        some (instance_tag, read) →
      instance_tag ≠ client.prekey_client.instance_tag →
      receive_decoded env decoded decoded_len client = (none, client)) ∧
    (∀ w instance_tag read,
      parse_header decoded decoded_len = some (OTRNG_PREKEY_NO_PREKEY_IN_STORAGE_MSG, w) →
      otrng_deserialize_uint32 (decoded.drop 3) (to_size_t ((decoded_len : Int) - 3)) =
        some (instance_tag, read) →
      instance_tag ≠ client.prekey_client.instance_tag →
      receive_decoded env decoded decoded_len client = (none, client)) ∧
    (∀ msg,
      otrng_prekey_ensemble_retrieval_message_deserialize env decoded decoded_len =
        some msg →
      msg.instance_tag ≠ client.prekey_client.instance_tag →
      receive_decoded env decoded decoded_len client = (none, client)) := by
  refine ⟨?_, ?_, ?_, ?_, ?_, ?_⟩
  · intro msg hmsg htag
    obtain ⟨w, hw⟩ := dake2_deserialize_header env decoded decoded_len msg hmsg
    rw [receive_decoded_of_header env decoded decoded_len client _ w hw, if_pos rfl]
    unfold receive_dake2
    rw [hmsg]
    unfold process_received_dake2
    dsimp only
    rw [if_pos htag]
  · intro msg hmsg htag
    obtain ⟨w, hw⟩ := storage_status_deserialize_header decoded decoded_len msg hmsg
    rw [receive_decoded_of_header env decoded decoded_len client _ w hw,
      if_neg (by decide), if_neg (by decide), if_neg (by decide), if_neg (by decide),
      if_neg (by decide), if_pos rfl]
    unfold receive_storage_status
    rw [hmsg]
    unfold process_received_storage_status
    dsimp only
    rw [if_pos htag]
  · intro w instance_tag read hw hlen hread htag
    rw [receive_decoded_of_header env decoded decoded_len client _ w hw,
      if_neg (by decide), if_pos rfl]
    unfold receive_success
    dsimp only
    rw [if_neg (Nat.not_lt.2 hlen), hread]
    dsimp only
    rw [if_pos htag]
  · intro w instance_tag read hw hlen hread htag
    rw [receive_decoded_of_header env decoded decoded_len client _ w hw,
      if_neg (by decide), if_neg (by decide), if_pos rfl]
    unfold receive_failure
    dsimp only
    rw [if_neg (Nat.not_lt.2 hlen), hread]
    dsimp only
    rw [if_pos htag]
  · intro w instance_tag read hw hread htag
    rw [receive_decoded_of_header env decoded decoded_len client _ w hw,
      if_neg (by decide), if_neg (by decide), if_neg (by decide), if_pos rfl]
    unfold receive_no_prekey_in_storage
    rw [hread]
    dsimp only
    rw [if_pos htag]
  · intro msg hmsg htag
    obtain ⟨w, hw⟩ := ensemble_retrieval_deserialize_header env decoded decoded_len msg hmsg
    rw [receive_decoded_of_header env decoded decoded_len client _ w hw,
      if_neg (by decide), if_neg (by decide), if_neg (by decide), if_neg (by decide),
      if_pos rfl]
    unfold receive_prekey_ensemble_retrieval
    rw [hmsg]
    unfold process_received_prekey_ensemble_retrieval
    dsimp only
    rw [if_pos htag]

/-- C31, on instances: the sample client (instance tag 0x101) receives a
no-prekey-in-storage message, a success message, a storage-status message and
a DAKE2 message that all declare the instance tag 0x202: each leaves the client
as it was and produces no reply. -/
theorem C31_instance_tag_gating_witness :
    receive_decoded sample_prekey_collaborators [0, 4, 0x0E, 0, 0, 2, 2] 7
        sample_prekey_client = (none, sample_prekey_client) ∧
    receive_decoded sample_prekey_collaborators
        ([0, 4, 0x0C, 0, 0, 2, 2] ++ List.replicate 64 0) 71
        sample_prekey_client = (none, sample_prekey_client) ∧
    receive_decoded sample_prekey_collaborators
        ([0, 4, 0x0B, 0, 0, 2, 2, 0, 0, 0, 3] ++ List.replicate 64 0) 75
        sample_prekey_client = (none, sample_prekey_client) ∧
    receive_decoded sample_prekey_collaborators
        ([0, 4, 0x09, 0, 0, 2, 2, 0, 0, 0, 0, 0, 0x10] ++ List.replicate 456 0) 469
        sample_prekey_client = (none, sample_prekey_client) :=
  ⟨(C31_instance_tag_gating sample_prekey_collaborators [0, 4, 0x0E, 0, 0, 2, 2] 7
      sample_prekey_client).2.2.2.2.1 3 0x202 4 (by decide) (by decide) (by decide),
    (C31_instance_tag_gating sample_prekey_collaborators
      ([0, 4, 0x0C, 0, 0, 2, 2] ++ List.replicate 64 0) 71
      sample_prekey_client).2.2.1 3 0x202 4 (by decide) (by decide) (by decide) (by decide),
    (C31_instance_tag_gating sample_prekey_collaborators
      ([0, 4, 0x0B, 0, 0, 2, 2, 0, 0, 0, 3] ++ List.replicate 64 0) 75
      sample_prekey_client).2.1 ⟨0x202, 3, List.replicate 64 0⟩ (by decide) (by decide),
    (C31_instance_tag_gating sample_prekey_collaborators
      ([0, 4, 0x09, 0, 0, 2, 2, 0, 0, 0, 0, 0, 0x10] ++ List.replicate 456 0) 469
      sample_prekey_client).1
      { client_instance_tag := 0x202,
        composite_identity := some ([0, 0, 0, 0, 0, 0x10] ++ List.replicate 57 0),
        composite_identity_len := 63,
        server_identity := none,
        server_identity_len := 0,
        server_pub_key := List.replicate 57 0,
        S := List.replicate 57 0,
        sigma := ⟨List.replicate 57 0, List.replicate 57 0, List.replicate 57 0,
          List.replicate 57 0, List.replicate 57 0, List.replicate 57 0⟩ }
      (by decide) (by decide)⟩

/-- C32 as stated fails: the sample client (instance tag 0x101) receives a
no-prekey-in-storage message that ends with its instance tag, and a prekey
ensemble retrieval message that ends with its one ensemble. Neither carries an
authenticator, and the client calls `no_prekey_in_storage_received` and
`prekey_ensembles_received`. -/
theorem C32_counterexample :
    ([0, 4, 0x0E, 0, 0, 1, 1] : List Nat).drop 7 = [] ∧
    calls_made sample_prekey_collaborators [0, 4, 0x0E, 0, 0, 1, 1] 7 sample_prekey_client =
      [prekey_callback_call.no_prekey_in_storage_received] ∧
    ([0, 4, 0x0F, 0, 0, 1, 1, 1, 42] : List Nat).drop 9 = [] ∧
    calls_made sample_prekey_collaborators [0, 4, 0x0F, 0, 0, 1, 1, 1, 42] 9
        sample_prekey_client =
      [prekey_callback_call.prekey_ensembles_received [some [42]] 1] := by
  decide

/-- C32, amended: among the calls that `receive_decoded` makes for a message,
`success_received`, `failure_received` and `storage_status_received` occur
only for a message of that type which carries the authenticator of its fields
(usage 0x0C, 0x0D, 0x0B) under the client's `mac_key`;
`no_prekey_in_storage_received` and `prekey_ensembles_received` occur only for
a message of their type, and they are made, without any authenticator being
read, for every such message that parses and declares the client's instance
tag. -/
theorem C32_mac_gated_responses (env : prekey_collaborators) (decoded : List Nat)
    (decoded_len : Nat) (client : otrng_client_s) :
    (prekey_callback_call.success_received ∈ calls_made env decoded decoded_len client →
      (∃ w, parse_header decoded decoded_len = some (OTRNG_PREKEY_SUCCESS_MSG, w)) ∧
      carries_valid_mac env 0x0C client.prekey_client.mac_key ((decoded.drop 2).take 5)
        (decoded.drop 7) = true) ∧
    (prekey_callback_call.failure_received ∈ calls_made env decoded decoded_len client →
      (∃ w, parse_header decoded decoded_len = some (OTRNG_PREKEY_FAILURE_MSG, w)) ∧
      carries_valid_mac env 0x0D client.prekey_client.mac_key ((decoded.drop 2).take 5)
        (decoded.drop 7) = true) ∧
    (∀ msg, prekey_callback_call.storage_status_received msg ∈
        calls_made env decoded decoded_len client →
      otrng_prekey_storage_status_message_deserialize decoded decoded_len = some msg ∧
      carries_valid_mac env 0x0B client.prekey_client.mac_key
        ([OTRNG_PREKEY_STORAGE_STATUS_MSG] ++
          otrng_serialize_uint32 msg.client_instance_tag ++
          otrng_serialize_uint32 msg.stored_prekeys) msg.mac = true) ∧
    (prekey_callback_call.no_prekey_in_storage_received ∈
        calls_made env decoded decoded_len client →
      ∃ w, parse_header decoded decoded_len =
        some (OTRNG_PREKEY_NO_PREKEY_IN_STORAGE_MSG, w)) ∧
    (∀ ensembles num_ensembles,
      prekey_callback_call.prekey_ensembles_received ensembles num_ensembles ∈
        calls_made env decoded decoded_len client →
      ∃ w, parse_header decoded decoded_len =
        some (OTRNG_PREKEY_ENSEMBLE_RETRIEVAL_MSG, w)) ∧
    (∀ w read,
      parse_header decoded decoded_len = some (OTRNG_PREKEY_NO_PREKEY_IN_STORAGE_MSG, w) →
      otrng_deserialize_uint32 (decoded.drop 3) (to_size_t ((decoded_len : Int) - 3)) =
        some (client.prekey_client.instance_tag, read) →
      calls_made env decoded decoded_len client =
        [prekey_callback_call.no_prekey_in_storage_received]) ∧
    (∀ msg,
      otrng_prekey_ensemble_retrieval_message_deserialize env decoded decoded_len =
        some msg →
      msg.instance_tag = client.prekey_client.instance_tag →
      calls_made env decoded decoded_len client =
        [prekey_callback_call.prekey_ensembles_received
          (msg.ensembles.map (fun e =>
            match e with
            | none => none
            | some ensemble =>
              if ¬ env.otrng_prekey_ensemble_validate ensemble then none else some ensemble))
          msg.num_ensembles]) := by
  refine ⟨fun h => calls_made_justified env decoded decoded_len client _ h,
    fun h => calls_made_justified env decoded decoded_len client _ h,
    fun msg h => calls_made_justified env decoded decoded_len client _ h,
    fun h => calls_made_justified env decoded decoded_len client _ h,
    fun ensembles num_ensembles h => calls_made_justified env decoded decoded_len client _ h,
    ?_, ?_⟩
  · intro w read hw hread
    unfold calls_made
    rw [receive_decoded_of_header env decoded decoded_len client _ w hw,
      if_neg (by decide), if_neg (by decide), if_neg (by decide), if_pos rfl]
    unfold receive_no_prekey_in_storage
    rw [hread]
    dsimp only
    rw [if_neg (fun h => h rfl)]
    show (client.calls ++ [prekey_callback_call.no_prekey_in_storage_received]).drop
      client.calls.length = _
    rw [List.drop_left]
  · intro msg hmsg htag
    obtain ⟨w, hw⟩ := ensemble_retrieval_deserialize_header env decoded decoded_len msg hmsg
    unfold calls_made
    rw [receive_decoded_of_header env decoded decoded_len client _ w hw,
      if_neg (by decide), if_neg (by decide), if_neg (by decide), if_neg (by decide),
      if_pos rfl]
    unfold receive_prekey_ensemble_retrieval
    rw [hmsg]
    unfold process_received_prekey_ensemble_retrieval
    dsimp only
    rw [if_neg (fun h => h htag)]
    show (client.calls ++ [prekey_callback_call.prekey_ensembles_received _ _]).drop
      client.calls.length = _
    rw [List.drop_left]

/-- C32, on instances: the sample client receives a success message that
carries the authenticator of its fields, and `success_received` is among the
calls, so the message has the success type and a valid authenticator; it
receives a no-prekey-in-storage message of 7 bytes that declares its instance
tag, and `no_prekey_in_storage_received` is the call made. -/
theorem C32_mac_gated_responses_witness :
    ((∃ w, parse_header ([0, 4, 0x0C, 0, 0, 1, 1, 0x0C] ++ List.replicate 63 9) 71 =
        some (OTRNG_PREKEY_SUCCESS_MSG, w)) ∧
      carries_valid_mac sample_prekey_collaborators 0x0C
        sample_prekey_client.prekey_client.mac_key
        ((([0, 4, 0x0C, 0, 0, 1, 1, 0x0C] ++ List.replicate 63 9).drop 2).take 5)
        (([0, 4, 0x0C, 0, 0, 1, 1, 0x0C] ++ List.replicate 63 9).drop 7) = true) ∧
    calls_made sample_prekey_collaborators [0, 4, 0x0E, 0, 0, 1, 1] 7 sample_prekey_client =
      [prekey_callback_call.no_prekey_in_storage_received] :=
  ⟨(C32_mac_gated_responses sample_prekey_collaborators
      ([0, 4, 0x0C, 0, 0, 1, 1, 0x0C] ++ List.replicate 63 9) 71 sample_prekey_client).1
      (by decide),
    (C32_mac_gated_responses sample_prekey_collaborators [0, 4, 0x0E, 0, 0, 1, 1] 7
      sample_prekey_client).2.2.2.2.2.1 3 4 (by decide) (by decide)⟩

/-- C33 (failing input): a context that holds piece 1 of 3 (payload `abc`, so
`fragment_len = 3`) receives piece 3 of 3 and discards it. The context is left
with `K = 0`, `N = 0` and `fragment` pointing to the string literal `""`, but
`fragment_len` is still 3, where the claim has 0. The accumulator is the
literal, not a buffer: a further piece that is discarded passes it to `free`,
which has no defined behaviour; a piece with `K = 1` is accepted. -/
theorem C33_discard_keeps_fragment_len :
    otr4_defragment_message ⟨3, 1, string_ptr.heap ['a', 'b', 'c'], 3, OTR4_FRAGMENT_INCOMPLETE⟩
        "?OTR|00000001|00000002,00003,00003,xyz,".toList =
      some (OTR4_SUCCESS, ⟨0, 0, string_ptr.literal [], 3, OTR4_FRAGMENT_INCOMPLETE⟩) ∧
    otr4_defragment_message ⟨0, 0, string_ptr.literal [], 3, OTR4_FRAGMENT_INCOMPLETE⟩
        "?OTR|00000001|00000002,00003,00003,xyz,".toList = none ∧
    otr4_defragment_message ⟨0, 0, string_ptr.literal [], 3, OTR4_FRAGMENT_INCOMPLETE⟩
        "?OTR|00000001|00000002,00001,00003,de,".toList =
      some (OTR4_SUCCESS,
        ⟨3, 1, string_ptr.heap ['d', 'e'], 2, OTR4_FRAGMENT_INCOMPLETE⟩) := by
  refine ⟨?_, ?_, ?_⟩ <;> decide

/-- C34 as stated fails: a conversation in state ENCRYPTED whose SMP state is
EXPECT3 is closed. The plaintext of the closing message is the five bytes
`00 | 00 01 00 00`, an empty text followed by the DISCONNECTED record alone
(in the sample instance the body of a data message shows its plaintext after
`00 04 03` and is followed by 64 bytes of authenticator): there is no
SMP_ABORT record (type 0x0006) in it. -/
theorem C34_counterexample :
    (otrv4_close sample_collaborators none
      { otrv4_new sample_collaborators sample_keypair OTRV4_ALLOW_V4 with
        state := OTRV4_STATE_ENCRYPTED_MESSAGES,
        running_version := OTRV4_VERSION_4,
        smp := { state := smp_state_t.SMPSTATE_EXPECT3, progress := 50, msg1 := none,
                 secret := none, contents := [] } }).dst =
      some (sample_collaborators.otrl_base64_otr_encode
        ([0x00, 0x04, 0x03] ++ ([0x00] ++ tlvs_blob [⟨OTRV4_TLV_DISCONNECTED, 0, []⟩]) ++
          List.replicate 64 0)) := by
  decide

/-- C34, amended: when `otrv4_close` is called in state ENCRYPTED by a
conversation running version 4, the plaintext handed to `send_data_message` is
the empty text, the 0x00 separator and the DISCONNECTED record alone, whatever
the SMP state is: the message written, the return code and the rest of the
conversation do not depend on the SMP context, and the SMP context is left as
it was. -/
theorem C34_close_sends_disconnected_only (env : collaborators)
    (to_send : Option (List Char)) (otr : otrv4_t)
    (hs : otr.state = OTRV4_STATE_ENCRYPTED_MESSAGES)
    (hv : otr.running_version = OTRV4_VERSION_4) :
    (otrv4_close env to_send otr).dst =
      (send_data_message env to_send
        ([0x00] ++ tlvs_blob [⟨OTRV4_TLV_DISCONNECTED, 0, []⟩]) 5 otr).dst ∧
    (∀ smp : smp_context_t,
      otrv4_close env to_send { otr with smp := smp } =
        ⟨(otrv4_close env to_send otr).err, (otrv4_close env to_send otr).dst,
          { (otrv4_close env to_send otr).otr with smp := smp }⟩) ∧
    (otrv4_close env to_send otr).otr.smp = otr.smp := by
  have hsmp : ∀ smp : smp_context_t,
      otrv4_close env to_send { otr with smp := smp } =
        ⟨(otrv4_close env to_send otr).err, (otrv4_close env to_send otr).dst,
          { (otrv4_close env to_send otr).otr with smp := smp }⟩ := by
    intro smp
    rw [otrv4_close_encrypted env to_send otr hs hv,
      otrv4_close_encrypted env to_send { otr with smp := smp } hs hv,
      send_data_message_with_smp]
    unfold gone_insecure_cb forget_our_keys
    dsimp only
    split_ifs <;> rfl
  refine ⟨?_, hsmp, ?_⟩
  · rw [otrv4_close_encrypted env to_send otr hs hv]
    rfl
  · have h := hsmp otr.smp
    have hself : ({ otr with smp := otr.smp } : otrv4_t) = otr := rfl
    rw [hself] at h
    exact (congrArg (fun r => r.otr.smp) h)

/-- C34, amended, on an instance: the conversation in state ENCRYPTED whose SMP
state is EXPECT3. -/
theorem C34_close_sends_disconnected_only_witness :
    (otrv4_close sample_collaborators none
      { otrv4_new sample_collaborators sample_keypair OTRV4_ALLOW_V4 with
        state := OTRV4_STATE_ENCRYPTED_MESSAGES,
        running_version := OTRV4_VERSION_4,
        smp := { state := smp_state_t.SMPSTATE_EXPECT3, progress := 50, msg1 := none,
                 secret := none, contents := [] } }).otr.smp =
      { state := smp_state_t.SMPSTATE_EXPECT3, progress := 50, msg1 := none,
        secret := none, contents := [] } :=
  (C34_close_sends_disconnected_only sample_collaborators none
    { otrv4_new sample_collaborators sample_keypair OTRV4_ALLOW_V4 with
      state := OTRV4_STATE_ENCRYPTED_MESSAGES,
      running_version := OTRV4_VERSION_4,
      smp := { state := smp_state_t.SMPSTATE_EXPECT3, progress := 50, msg1 := none,
               secret := none, contents := [] } } rfl rfl).2.2

/-- C35 (the code diverges): on an SMP_ABORT record, in every SMP state,
`otrv4_process_smp` sets the SMP state to EXPECT1 and raises the ABORT event,
as the claim says, but the chain it returns for the peer is not empty: it is
one new SMP_ABORT record. In the sample instance (with a TLV parser that reads
the record `00 06 00 00`) a conversation in state ENCRYPTED that receives the
data message whose plaintext is `00 | 00 06 00 00` answers with a data message
of the same plaintext, which a peer running this code answers in turn. -/
theorem C35_abort_answered_with_abort (env : collaborators) (otr : otrv4_t) :
    otrv4_process_smp env otr ⟨OTRV4_TLV_SMP_ABORT, 0, []⟩ =
      ([⟨OTRV4_TLV_SMP_ABORT, 0, []⟩],
        handle_smp_event_cb otr4_smp_event_t.OTRV4_SMPEVENT_ABORT otr.smp.progress
          (match otr.smp.msg1 with
            | some msg1 => msg1.question
            | none => none)
          { otr with smp := { otr.smp with state := smp_state_t.SMPSTATE_EXPECT1 } }) ∧
    (otrv4_receive_data_message
      { sample_collaborators with
        otrv4_parse_tlvs := fun src len =>
          if src.take len = [0x00, 0x06, 0x00, 0x00] then [⟨OTRV4_TLV_SMP_ABORT, 0, []⟩]
          else [] }
      otrv4_response_new [0x00, 0x04, 0x03, 0x00, 0x00, 0x06, 0x00, 0x00] 8
      { otrv4_new sample_collaborators sample_keypair OTRV4_ALLOW_V4 with
        state := OTRV4_STATE_ENCRYPTED_MESSAGES,
        running_version := OTRV4_VERSION_4 }).response.to_send =
      some (sample_collaborators.otrl_base64_otr_encode
        ([0x00, 0x04, 0x03, 0x00, 0x00, 0x06, 0x00, 0x00] ++ List.replicate 64 0)) := by
  refine ⟨rfl, by decide⟩

/-- C36 (failing input): a conversation whose peer has the instance tag 5
receives, in state ENCRYPTED, in state FINISHED, and in state WAITING_AUTH_R
with the lower ephemeral value (11 against 12), an Identity message sent with
the instance tag 9 (in the sample instance the bytes are `00 04 35`, sender
tag, receiver tag, B, Y). Each time the message is ignored with success and
nothing to send, but `their_instance_tag` is 9 afterwards: it is assigned
before the state is looked at. -/
theorem C36_ignored_identity_sets_their_tag :
    receive_decoded_message sample_collaborators otrv4_response_new
        [0x00, 0x04, 0x35, 0x09, 0x00, 0x0b, 0x0c] 7
        { otrv4_new sample_collaborators sample_keypair OTRV4_ALLOW_V4 with
          state := OTRV4_STATE_ENCRYPTED_MESSAGES, running_version := OTRV4_VERSION_4,
          their_instance_tag := 5 } =
      some ⟨OTR4_SUCCESS, otrv4_response_new,
        { otrv4_new sample_collaborators sample_keypair OTRV4_ALLOW_V4 with
          state := OTRV4_STATE_ENCRYPTED_MESSAGES, running_version := OTRV4_VERSION_4,
          their_instance_tag := 9 }⟩ ∧
    receive_decoded_message sample_collaborators otrv4_response_new
        [0x00, 0x04, 0x35, 0x09, 0x00, 0x0b, 0x0c] 7
        { otrv4_new sample_collaborators sample_keypair OTRV4_ALLOW_V4 with
          state := OTRV4_STATE_FINISHED, running_version := OTRV4_VERSION_4,
          their_instance_tag := 5 } =
      some ⟨OTR4_SUCCESS, otrv4_response_new,
        { otrv4_new sample_collaborators sample_keypair OTRV4_ALLOW_V4 with
          state := OTRV4_STATE_FINISHED, running_version := OTRV4_VERSION_4,
          their_instance_tag := 9 }⟩ ∧
    receive_decoded_message sample_collaborators otrv4_response_new
        [0x00, 0x04, 0x35, 0x09, 0x00, 0x0b, 0x0c] 7
        { otrv4_new sample_collaborators sample_keypair OTRV4_ALLOW_V4 with
          state := OTRV4_STATE_WAITING_AUTH_R, running_version := OTRV4_VERSION_4,
          keys := sample_collaborators.key_manager_generate_ephemeral_keys
            key_manager_blank,
          their_instance_tag := 5 } =
      some ⟨OTR4_SUCCESS, otrv4_response_new,
        { otrv4_new sample_collaborators sample_keypair OTRV4_ALLOW_V4 with
          state := OTRV4_STATE_WAITING_AUTH_R, running_version := OTRV4_VERSION_4,
          keys := sample_collaborators.key_manager_generate_ephemeral_keys
            key_manager_blank,
          their_instance_tag := 9 }⟩ := by
  refine ⟨?_, ?_, ?_⟩ <;> decide

/-- C37 (the code diverges): a data message received in state ENCRYPTED that
deserializes, for which the receiving keys are derived, and whose
authenticator does not validate, makes `otrv4_receive_data_message` return
`OTR4_ERROR` with the key manager left as `key_manager_set_their_keys`,
`key_manager_ensure_on_ratchet` and
`key_manager_retrieve_receiving_message_keys` made it from the fields of the
unauthenticated message: nothing puts back the key manager of before the
call. -/
theorem C37_keys_changed_before_mac_check (env : collaborators)
    (response : otrv4_response_t) (buff : List Nat) (buflen : Nat) (otr : otrv4_t)
    (msg : data_message_t)
    (hstate : otr.state = OTRV4_STATE_ENCRYPTED_MESSAGES)
    (hdes : env.data_message_deserialize env.data_message_new buff buflen = some msg)
    (hratchet : (env.key_manager_ensure_on_ratchet msg.ratchet_id
      (env.key_manager_set_their_keys msg.ecdh msg.dh otr.keys)).1 = true)
    (hkeys : (env.key_manager_retrieve_receiving_message_keys msg.ratchet_id msg.message_id
      (env.key_manager_ensure_on_ratchet msg.ratchet_id
        (env.key_manager_set_their_keys msg.ecdh msg.dh otr.keys)).2).1 = false)
    (hmac : env.valid_data_message
      (env.key_manager_retrieve_receiving_message_keys msg.ratchet_id msg.message_id
        (env.key_manager_ensure_on_ratchet msg.ratchet_id
          (env.key_manager_set_their_keys msg.ecdh msg.dh otr.keys)).2).2.2.1
      msg = false) :
    otrv4_receive_data_message env response buff buflen otr =
      ⟨OTR4_ERROR, response, { otr with keys := keys_at_mac_check env msg otr.keys }⟩ := by
  have hg : get_receiving_msg_keys env msg
      { otr with keys := env.key_manager_set_their_keys msg.ecdh msg.dh otr.keys } =
      (OTR4_SUCCESS,
        (env.key_manager_retrieve_receiving_message_keys msg.ratchet_id msg.message_id
          (env.key_manager_ensure_on_ratchet msg.ratchet_id
            (env.key_manager_set_their_keys msg.ecdh msg.dh otr.keys)).2).2.1,
        (env.key_manager_retrieve_receiving_message_keys msg.ratchet_id msg.message_id
          (env.key_manager_ensure_on_ratchet msg.ratchet_id
            (env.key_manager_set_their_keys msg.ecdh msg.dh otr.keys)).2).2.2.1,
        { otr with keys := keys_at_mac_check env msg otr.keys }) := by
    unfold get_receiving_msg_keys keys_at_mac_check
    dsimp only
    rw [if_neg (not_not.2 hratchet), hkeys]
    rfl
  unfold otrv4_receive_data_message
  rw [if_neg (not_not.2 hstate), hdes]
  dsimp only
  rw [hg]
  dsimp only
  rw [if_neg (fun h => h rfl), hmac, if_pos (by simp)]

/-- C37 (failing input): in the sample instance, with a deserializer that reads
the sender's ECDH and DH public keys from bytes 3 and 4 and a validity check
that refuses the message, a conversation that holds the peer keys `[1]` and 2
receives a data message announcing the keys `[9]` and 10: the call returns
`OTR4_ERROR` and the key manager holds `[9]` and 10. -/
theorem C37_keys_changed_before_mac_check_witness :
    otrv4_receive_data_message
        { sample_collaborators with
          valid_data_message := fun _ _ => false,
          data_message_deserialize := fun msg buff buflen =>
            if buflen < 5 then none
            else msg.map (fun m =>
              { m with ecdh := [buff.getD 3 0], dh := buff.getD 4 0,
                       enc_msg := buff.drop 5, enc_msg_len := buflen - 5 }) }
        otrv4_response_new [0x00, 0x04, 0x03, 0x09, 0x0a, 0x41] 6
        { otrv4_new sample_collaborators sample_keypair OTRV4_ALLOW_V4 with
          state := OTRV4_STATE_ENCRYPTED_MESSAGES,
          running_version := OTRV4_VERSION_4,
          keys := { key_manager_blank with their_ecdh := [1], their_dh := 2 } } =
      ⟨OTR4_ERROR, otrv4_response_new,
        { otrv4_new sample_collaborators sample_keypair OTRV4_ALLOW_V4 with
          state := OTRV4_STATE_ENCRYPTED_MESSAGES,
          running_version := OTRV4_VERSION_4,
          keys := { key_manager_blank with their_ecdh := [9], their_dh := 10 } }⟩ :=
  C37_keys_changed_before_mac_check
    { sample_collaborators with
      valid_data_message := fun _ _ => false,
      data_message_deserialize := fun msg buff buflen =>
        if buflen < 5 then none
        else msg.map (fun m =>
          { m with ecdh := [buff.getD 3 0], dh := buff.getD 4 0,
                   enc_msg := buff.drop 5, enc_msg_len := buflen - 5 }) }
    otrv4_response_new [0x00, 0x04, 0x03, 0x09, 0x0a, 0x41] 6
    { otrv4_new sample_collaborators sample_keypair OTRV4_ALLOW_V4 with
      state := OTRV4_STATE_ENCRYPTED_MESSAGES,
      running_version := OTRV4_VERSION_4,
      keys := { key_manager_blank with their_ecdh := [1], their_dh := 2 } }
    ⟨0, 0, 0, 0, [9], 10, [], [0x41], 1, []⟩ rfl rfl rfl rfl rfl

/-- C38 (failing input): a message carries two SMP_ABORT records; each makes
`process_tlv` return a reply, and `receive_tlvs` leaves in `*to_send` one
record, the second reply, for every conversation. With a `process_smp_msg2`
that answers an SMP message 2 by an SMP message 3 record, the records SMP
message 2 and SMP_ABORT produce two different replies and only the SMP_ABORT
reply is returned: the SMP message 3 is dropped. -/
theorem C38_only_last_reply_kept (env : collaborators) (response : otrv4_response_t)
    (otr : otrv4_t) :
    (process_tlv env ⟨OTRV4_TLV_SMP_ABORT, 0, []⟩ otr).1 = [⟨OTRV4_TLV_SMP_ABORT, 0, []⟩] ∧
    (receive_tlvs env
      { response with
        tlvs := [⟨OTRV4_TLV_SMP_ABORT, 0, []⟩, ⟨OTRV4_TLV_SMP_ABORT, 0, []⟩] } otr).2.1 =
      [⟨OTRV4_TLV_SMP_ABORT, 0, []⟩] ∧
    (process_tlv
      { sample_collaborators with
        process_smp_msg2 := fun _ smp =>
          (otr4_smp_event_t.OTRV4_SMPEVENT_NONE, [⟨OTRV4_TLV_SMP_MSG_3, 1, [7]⟩], smp) }
      ⟨OTRV4_TLV_SMP_MSG_2, 1, [5]⟩
      { otrv4_new sample_collaborators sample_keypair OTRV4_ALLOW_V4 with
        state := OTRV4_STATE_ENCRYPTED_MESSAGES,
        running_version := OTRV4_VERSION_4 }).1 = [⟨OTRV4_TLV_SMP_MSG_3, 1, [7]⟩] ∧
    (receive_tlvs
      { sample_collaborators with
        process_smp_msg2 := fun _ smp =>
          (otr4_smp_event_t.OTRV4_SMPEVENT_NONE, [⟨OTRV4_TLV_SMP_MSG_3, 1, [7]⟩], smp) }
      { otrv4_response_new with
        tlvs := [⟨OTRV4_TLV_SMP_MSG_2, 1, [5]⟩, ⟨OTRV4_TLV_SMP_ABORT, 0, []⟩] }
      { otrv4_new sample_collaborators sample_keypair OTRV4_ALLOW_V4 with
        state := OTRV4_STATE_ENCRYPTED_MESSAGES,
        running_version := OTRV4_VERSION_4 }).2.1 =
      [⟨OTRV4_TLV_SMP_ABORT, 0, []⟩] := by
  refine ⟨rfl, rfl, by decide, by decide⟩

/-- C39 (failing input): the four bytes `00 00 00 00`, a length prefix of 0.
`otrng_deserialize_data` returns `OTRNG_SUCCESS` with `read = 4` and leaves
`*dst` and `*dst_len` as the caller had them: called with `dst_len = 7` it
reports the length 7, not 0. Bytes that follow the prefix change nothing. -/
theorem C39_empty_data_keeps_dst_len (dst : Option (List Nat)) (dst_len : Nat)
    (rest : List Nat) :
    otrng_deserialize_data dst dst_len ([0, 0, 0, 0] ++ rest) (4 + rest.length) =
      ⟨otrng_result.OTRNG_SUCCESS, dst, dst_len, 4⟩ ∧
    (otrng_deserialize_data (some [1, 2, 3]) 7 [0, 0, 0, 0] 4).dst_len = 7 := by
  refine ⟨?_, by decide⟩
  unfold otrng_deserialize_data otrng_deserialize_uint32
  rw [if_neg (by omega)]
  simp

/-- C40: a storage-status message that declares the client's instance tag and
carries a valid authenticator is processed under a policy whose minimum does
not exceed its maximum (an `unsigned int`, below 2^32). If the stored count is
below the minimum, `prekey_msgs_num_to_publish` becomes the maximum minus the
stored count, the exact difference of the two numbers (the unsigned
subtraction does not wrap) and positive, and the calls made are
`low_prekey_messages_in_storage` then `storage_status_received`. Otherwise
the count keeps its value and `storage_status_received` is the only call. -/
theorem C40_storage_status_count (env : prekey_collaborators)
    (msg : otrng_prekey_storage_status_message_s) (client : otrng_client_s)
    (htag : msg.client_instance_tag = client.prekey_client.instance_tag)
    (hvalid :
      otrng_prekey_storage_status_message_valid env msg client.prekey_client.mac_key = true)
    (hpolicy : client.prekey_client.publication_policy.minimum_stored_prekey_message ≤
      client.prekey_client.publication_policy.max_published_prekey_message)
    (hmax : client.prekey_client.publication_policy.max_published_prekey_message < 2 ^ 32) :
    (msg.stored_prekeys <
        client.prekey_client.publication_policy.minimum_stored_prekey_message →
      process_received_storage_status env msg client =
        (none,
          { client with
            prekey_msgs_num_to_publish :=
              client.prekey_client.publication_policy.max_published_prekey_message -
                msg.stored_prekeys,
            calls := client.calls ++
              [prekey_callback_call.low_prekey_messages_in_storage
                  client.prekey_client.server_identity,
                prekey_callback_call.storage_status_received msg] }) ∧
      0 < client.prekey_client.publication_policy.max_published_prekey_message -
        msg.stored_prekeys ∧
      ((client.prekey_client.publication_policy.max_published_prekey_message -
          msg.stored_prekeys : Nat) : Int) =
        (client.prekey_client.publication_policy.max_published_prekey_message : Int) -
          (msg.stored_prekeys : Int)) ∧
    (¬ msg.stored_prekeys <
        client.prekey_client.publication_policy.minimum_stored_prekey_message →
      process_received_storage_status env msg client =
        (none,
          { client with
            calls := client.calls ++ [prekey_callback_call.storage_status_received msg] })) := by
  refine ⟨?_, ?_⟩
  · intro hlow
    have hle : msg.stored_prekeys ≤
        client.prekey_client.publication_policy.max_published_prekey_message :=
      Nat.le_of_lt (Nat.lt_of_lt_of_le hlow hpolicy)
    have hcast : ((client.prekey_client.publication_policy.max_published_prekey_message -
          msg.stored_prekeys : Nat) : Int) =
        (client.prekey_client.publication_policy.max_published_prekey_message : Int) -
          (msg.stored_prekeys : Int) := Int.ofNat_sub hle
    have hun : to_unsigned
        ((client.prekey_client.publication_policy.max_published_prekey_message : Int) -
          (msg.stored_prekeys : Int)) =
        client.prekey_client.publication_policy.max_published_prekey_message -
          msg.stored_prekeys := by
      rw [← hcast, to_unsigned_of_range _ (Int.ofNat_nonneg _)
        (by exact_mod_cast Nat.lt_of_le_of_lt (Nat.sub_le _ _) hmax)]
      rfl
    refine ⟨?_, Nat.sub_pos_of_lt (Nat.lt_of_lt_of_le hlow hpolicy), hcast⟩
    unfold process_received_storage_status
    dsimp only
    rw [if_neg (fun h => h htag), if_neg (not_not.2 hvalid), if_pos hlow, hun]
    simp [prekey_storage_status_received_callback, low_prekey_messages_in_storage_callback]
  · intro hlow
    unfold process_received_storage_status
    dsimp only
    rw [if_neg (fun h => h htag), if_neg (not_not.2 hvalid), if_neg hlow]
    rfl

/-- C40, on an instance: the sample client (policy: at most 100 published, at
least 20 stored) receives a valid status announcing 3 stored prekey messages:
97 are to be published, and the low-storage call comes first. -/
theorem C40_storage_status_count_witness :
    process_received_storage_status sample_prekey_collaborators
        ⟨0x101, 3, [0x0B] ++ List.replicate 63 9⟩ sample_prekey_client =
      (none,
        { sample_prekey_client with
          prekey_msgs_num_to_publish := 100 - 3,
          calls := [prekey_callback_call.low_prekey_messages_in_storage
              (some "prekeys.example.org".toList),
            prekey_callback_call.storage_status_received
              ⟨0x101, 3, [0x0B] ++ List.replicate 63 9⟩] }) ∧
      0 < 100 - 3 ∧ (((100 - 3 : Nat) : Int) = (100 : Int) - (3 : Int)) :=
  (C40_storage_status_count sample_prekey_collaborators
    ⟨0x101, 3, [0x0B] ++ List.replicate 63 9⟩ sample_prekey_client rfl (by decide)
    (by decide) (by decide)).1 (by decide)

end OtrNg
